import Mathlib

/-!
# llm-slo-ebpf-toolkit: correlation-and-emission engine

A shallow embedding of the BPF C probes under `ebpf/c/` and theorems about
them.  Kernel helpers are modelled as follows.

* A `BPF_MAP_TYPE_HASH` map is an association list together with the
  `max_entries` constant of its declaration; `bpf_map_update_elem` with
  `BPF_ANY` overwrites an existing key in place, inserts a new key while the
  map holds fewer than `max_entries` entries and otherwise leaves the map as it
  is (the helper fails with `-E2BIG`, and no handler looks at its return value).
* The ring buffer `llm_slo_events` is the list of submitted records, oldest
  first.  Whether `bpf_ringbuf_reserve` succeeds depends on the consumer, so it
  is an input of every invocation.  The state also counts the calls of
  `bpf_ringbuf_reserve`, which lets a theorem say that no reservation was
  attempted.
* `bpf_get_current_pid_tgid` and the readings of `bpf_ktime_get_ns` are inputs
  of every invocation (`KernelEnv`).
* The key of `blk_start` is `struct blk_key`, sixteen bytes of which the
  members `dev` and `sector` cover twelve.  The disk handlers set the two
  members of a stack variable that nothing clears, and the map hashes and
  compares all sixteen bytes, so the content of the four padding bytes is an
  input of each disk invocation (`key_pad`) and a field of the key (`pad`).
* Unsigned 64-bit subtraction and the 32-bit negation are written with explicit
  `%`.
* `llm_slo_event.h` defines six of the nine discriminators that the handlers
  write; the three others are fields of the parameter `SignalCodes`.
* The sources declare the packed record and hold no encoder or decoder of its
  bytes; `llm_slo_event.encode` and `llm_slo_event.decode` lay the fields out in
  declaration order without padding, least significant byte first.
-/

namespace LlmSlo

/-! ## Machine arithmetic -/

/-- Two to the power 64, the modulus of `__u64`. -/
def U64_MOD : Nat := 18446744073709551616

/-- Subtraction on `__u64`: `a - b` modulo `2^64`. -/
def u64_sub (a b : Nat) : Nat := (a + (U64_MOD - b % U64_MOD)) % U64_MOD

/-- The builtin `__builtin_bswap16` on a `__u16`. -/
def bswap16 (x : Nat) : Nat := (x % 256) * 256 + (x / 256) % 256

/-- Wrap an integer into the range of `__s32`. -/
def s32_wrap (x : Int) : Int := (x + 2147483648) % 4294967296 - 2147483648

/-! ## `llm_slo_event.h` -/

def LLM_SLO_DNS_LATENCY : Nat := 1
def LLM_SLO_TCP_RETRANSMIT : Nat := 2
def LLM_SLO_RUNQUEUE_DELAY : Nat := 3
def LLM_SLO_CONNECT_LATENCY : Nat := 4
def LLM_SLO_TLS_HANDSHAKE : Nat := 5
def LLM_SLO_CPU_STEAL : Nat := 6

/-- The three discriminators that the probes use and `enum llm_slo_signal_type`
does not define.  Their values are unknown, so they are parameters of the
handlers that use them. -/
structure SignalCodes where
  LLM_SLO_DISK_IO_LATENCY : Nat
  LLM_SLO_MEM_RECLAIM : Nat
  LLM_SLO_SYSCALL_LATENCY : Nat
  deriving DecidableEq, Repr

/-- Modelled from the spec: the header under `ebpf/c/` defines six discriminators
and gives no value to the three others, and the spec gives them no number
either.  What the spec asks of the complete enumeration is that `signal_type`
is one of nine legal codes and tells the nine record shapes apart, as the tag
of a tagged union does: the nine codes are pairwise different. -/
def SignalCodes.Distinct (c : SignalCodes) : Prop :=
  [LLM_SLO_DNS_LATENCY, LLM_SLO_TCP_RETRANSMIT, LLM_SLO_RUNQUEUE_DELAY,
   LLM_SLO_CONNECT_LATENCY, LLM_SLO_TLS_HANDSHAKE, LLM_SLO_CPU_STEAL,
   c.LLM_SLO_DISK_IO_LATENCY, c.LLM_SLO_MEM_RECLAIM, c.LLM_SLO_SYSCALL_LATENCY].Nodup

instance (c : SignalCodes) : Decidable c.Distinct := by
  unfold SignalCodes.Distinct; infer_instance

/-- The record `struct llm_slo_event`. -/
structure llm_slo_event where
  pid : Nat
  tid : Nat
  timestamp_ns : Nat
  signal_type : Nat
  value_ns : Nat
  conn_src_port : Nat
  conn_dst_port : Nat
  conn_dst_ip : Nat
  errno_val : Int
  deriving DecidableEq, Repr

/-! ## BPF hash maps -/

/-- The helper `bpf_map_lookup_elem`: the value stored under `k`, if any. -/
def bpf_map_lookup_elem {K V : Type} [DecidableEq K] : List (K × V) → K → Option V
  | [], _ => none
  | (k', v) :: rest, k => if k' = k then some v else bpf_map_lookup_elem rest k

/-- The helper `bpf_map_delete_elem`: drop the entry stored under `k`. -/
def bpf_map_delete_elem {K V : Type} [DecidableEq K] (m : List (K × V)) (k : K) :
    List (K × V) :=
  m.filter (fun e => decide (e.1 ≠ k))

/-- The helper `bpf_map_update_elem` with flag `BPF_ANY` on a hash map declared
with `max_entries`. -/
def bpf_map_update_elem {K V : Type} [DecidableEq K] (max_entries : Nat)
    (m : List (K × V)) (k : K) (v : V) : List (K × V) :=
  if (bpf_map_lookup_elem m k).isSome then
    m.map (fun e => if e.1 = k then (k, v) else e)
  else if m.length < max_entries then (k, v) :: m
  else m

/-! ## Types of the probes -/

/-- The fields of `struct sock` that the probes read. -/
structure sock where
  skc_dport : Nat
  skc_daddr : Nat
  skc_num : Nat
  deriving DecidableEq, Repr

/-- Value type of `connect_inflight`. -/
structure connect_ctx where
  start_ns : Nat
  dst_port : Nat
  dst_ip : Nat
  src_port : Nat
  deriving DecidableEq, Repr

/-- Value type of `dns_inflight`. -/
structure send_ctx where
  start_ns : Nat
  dst_port : Nat
  dst_ip : Nat
  src_port : Nat
  deriving DecidableEq, Repr

/-- Key type of `blk_start`, as the hash map compares it: all sixteen bytes of
`struct blk_key`. The member `dev` is at offset 0 and `sector` at offset 8;
`pad` is the content of the four bytes between them, which no member names. -/
structure blk_key where
  dev : Nat
  pad : Nat
  sector : Nat
  deriving DecidableEq, Repr

/-- The fields of the block tracepoint record that the probes read. -/
structure trace_event_raw_block_rq_completion where
  dev : Nat
  sector : Nat
  deriving DecidableEq, Repr

/-- The fields of the `sched_stat_wait` record that the probe reads. -/
structure trace_event_raw_sched_stat_template where
  pid : Nat
  delay : Nat
  deriving DecidableEq, Repr

/-- The fields of the `tcp_retransmit_skb` record that the probe reads. -/
structure trace_event_raw_tcp_retransmit_skb where
  sport : Nat
  dport : Nat
  deriving DecidableEq, Repr

/-- The field of the wakeup record that the probes read. -/
structure trace_event_raw_sched_wakeup_template where
  pid : Nat
  deriving DecidableEq, Repr

/-- The field of the `sched_switch` record that the probe reads. -/
structure trace_event_raw_sched_switch where
  next_pid : Nat
  deriving DecidableEq, Repr

/-- What the kernel hands to one handler invocation. -/
structure KernelEnv where
  /-- result of `bpf_get_current_pid_tgid()` -/
  pid_tgid : Nat
  /-- result of the first call of `bpf_ktime_get_ns()` -/
  ktime : Nat
  /-- result of the second call of `bpf_ktime_get_ns()`, when there is one -/
  ktime2 : Nat
  /-- whether `bpf_ringbuf_reserve` returns a slot -/
  reserve_ok : Bool
  deriving DecidableEq, Repr

/-- The maps of all probes, the ring buffer and the count of reservations. -/
structure State where
  connect_inflight : List (Nat × connect_ctx)
  dns_inflight : List (Nat × send_ctx)
  blk_start : List (blk_key × Nat)
  tls_start : List (Nat × Nat)
  runq_enqueue : List (Nat × Nat)
  syscall_start : List (Nat × Nat)
  reclaim_start : List (Nat × Nat)
  llm_slo_events : List llm_slo_event
  reserve_calls : Nat
  deriving DecidableEq, Repr

/-- All maps empty, nothing submitted, nothing reserved. -/
def State.empty : State :=
  { connect_inflight := [], dns_inflight := [], blk_start := [], tls_start := [],
    runq_enqueue := [], syscall_start := [], reclaim_start := [],
    llm_slo_events := [], reserve_calls := 0 }

def connect_inflight_max_entries : Nat := 8192
def dns_inflight_max_entries : Nat := 8192
def blk_start_max_entries : Nat := 16384
def tls_start_max_entries : Nat := 8192
def runq_enqueue_max_entries : Nat := 16384
def syscall_start_max_entries : Nat := 16384
def reclaim_start_max_entries : Nat := 8192

/-- The helper `bpf_ringbuf_reserve`, as far as the state goes: the call is
counted.  Whether it hands out a slot is `KernelEnv.reserve_ok`. -/
def bpf_ringbuf_reserve (s : State) : State :=
  { s with reserve_calls := s.reserve_calls + 1 }

/-- The helper `bpf_ringbuf_submit` on a filled slot. -/
def bpf_ringbuf_submit (s : State) (event : llm_slo_event) : State :=
  { s with llm_slo_events := s.llm_slo_events ++ [event] }

/-! ## `connect_latency.bpf.c` -/

def enter_connect (sk : sock) (env : KernelEnv) (s : State) : Int × State :=
  let pid_tgid := env.pid_tgid
  let dst_port := bswap16 sk.skc_dport
  let dst_ip := sk.skc_daddr
  let src_port := sk.skc_num
  let ctx : connect_ctx :=
    { start_ns := env.ktime, dst_port := dst_port, dst_ip := dst_ip, src_port := src_port }
  (0, { s with connect_inflight :=
          bpf_map_update_elem connect_inflight_max_entries s.connect_inflight pid_tgid ctx })

def exit_connect (ret : Int) (env : KernelEnv) (s : State) : Int × State :=
  let pid_tgid := env.pid_tgid
  match bpf_map_lookup_elem s.connect_inflight pid_tgid with
  | none => (0, s)
  | some ctx =>
    let delta_ns := u64_sub env.ktime ctx.start_ns
    let s1 := bpf_ringbuf_reserve s
    if env.reserve_ok = false then
      (0, { s1 with connect_inflight := bpf_map_delete_elem s1.connect_inflight pid_tgid })
    else
      let event : llm_slo_event :=
        { pid := pid_tgid / 4294967296
          tid := pid_tgid % 4294967296
          timestamp_ns := env.ktime2
          signal_type := LLM_SLO_CONNECT_LATENCY
          value_ns := delta_ns
          conn_src_port := ctx.src_port
          conn_dst_port := ctx.dst_port
          conn_dst_ip := ctx.dst_ip
          errno_val := if ret < 0 then s32_wrap (-ret) else 0 }
      let s2 := bpf_ringbuf_submit s1 event
      (0, { s2 with connect_inflight := bpf_map_delete_elem s2.connect_inflight pid_tgid })

def kprobe_tcp_v4_connect (sk : sock) (env : KernelEnv) (s : State) : Int × State :=
  enter_connect sk env s

def kretprobe_tcp_v4_connect (ret : Int) (env : KernelEnv) (s : State) : Int × State :=
  exit_connect ret env s

def kprobe_tcp_v6_connect (sk : sock) (env : KernelEnv) (s : State) : Int × State :=
  enter_connect sk env s

def kretprobe_tcp_v6_connect (ret : Int) (env : KernelEnv) (s : State) : Int × State :=
  exit_connect ret env s

/-! ## `dns_latency.bpf.c` -/

def kprobe_udp_sendmsg (sk : sock) (env : KernelEnv) (s : State) : Int × State :=
  let pid_tgid := env.pid_tgid
  let dst_port := bswap16 sk.skc_dport
  if dst_port ≠ 53 then (0, s)
  else
    let dst_ip := sk.skc_daddr
    let src_port := sk.skc_num
    let ctx : send_ctx :=
      { start_ns := env.ktime, dst_port := dst_port, dst_ip := dst_ip, src_port := src_port }
    (0, { s with dns_inflight :=
            bpf_map_update_elem dns_inflight_max_entries s.dns_inflight pid_tgid ctx })

/-- The probe on `udp_recvmsg`.  Its program takes only the register context;
`sk`, the socket of the probed call, is there to be read and is never read. -/
def kprobe_udp_recvmsg (_sk : sock) (env : KernelEnv) (s : State) : Int × State :=
  let pid_tgid := env.pid_tgid
  match bpf_map_lookup_elem s.dns_inflight pid_tgid with
  | none => (0, s)
  | some ctx =>
    let delta_ns := u64_sub env.ktime ctx.start_ns
    let s1 := bpf_ringbuf_reserve s
    if env.reserve_ok = false then
      (0, { s1 with dns_inflight := bpf_map_delete_elem s1.dns_inflight pid_tgid })
    else
      let event : llm_slo_event :=
        { pid := pid_tgid / 4294967296
          tid := pid_tgid % 4294967296
          timestamp_ns := env.ktime2
          signal_type := LLM_SLO_DNS_LATENCY
          value_ns := delta_ns
          conn_src_port := ctx.src_port
          conn_dst_port := ctx.dst_port
          conn_dst_ip := ctx.dst_ip
          errno_val := 0 }
      let s2 := bpf_ringbuf_submit s1 event
      (0, { s2 with dns_inflight := bpf_map_delete_elem s2.dns_inflight pid_tgid })

/-! ## `disk_io_latency.bpf.c` -/

/-- The key is a stack variable whose initialiser names `dev` and `sector`
only, and nothing clears the variable first: its four padding bytes hold
whatever the stack holds at this invocation, `key_pad`. -/
def handle_block_rq_issue (ctx : trace_event_raw_block_rq_completion) (key_pad : Nat)
    (env : KernelEnv) (s : State) : Int × State :=
  let key : blk_key := { dev := ctx.dev, pad := key_pad, sector := ctx.sector }
  let ts := env.ktime
  (0, { s with blk_start := bpf_map_update_elem blk_start_max_entries s.blk_start key ts })

/-- The key is built as in `handle_block_rq_issue`; `key_pad` is the content
of its padding bytes at this invocation. -/
def handle_block_rq_complete (c : SignalCodes) (ctx : trace_event_raw_block_rq_completion)
    (key_pad : Nat) (env : KernelEnv) (s : State) : Int × State :=
  let key : blk_key := { dev := ctx.dev, pad := key_pad, sector := ctx.sector }
  match bpf_map_lookup_elem s.blk_start key with
  | none => (0, s)
  | some start_ns =>
    let delta_ns := u64_sub env.ktime start_ns
    let s0 := { s with blk_start := bpf_map_delete_elem s.blk_start key }
    if delta_ns < 500000 then (0, s0)
    else
      let pid_tgid := env.pid_tgid
      let s1 := bpf_ringbuf_reserve s0
      if env.reserve_ok = false then (0, s1)
      else
        let event : llm_slo_event :=
          { pid := pid_tgid / 4294967296
            tid := pid_tgid % 4294967296
            timestamp_ns := env.ktime2
            signal_type := c.LLM_SLO_DISK_IO_LATENCY
            value_ns := delta_ns
            conn_src_port := 0
            conn_dst_port := 0
            conn_dst_ip := 0
            errno_val := 0 }
        (0, bpf_ringbuf_submit s1 event)

/-! ## `cpu_steal.bpf.c` -/

def MIN_WAIT_NS : Nat := 50000

def handle_sched_stat_wait (ctx : trace_event_raw_sched_stat_template) (env : KernelEnv)
    (s : State) : Int × State :=
  let delay_ns := ctx.delay
  if delay_ns < MIN_WAIT_NS then (0, s)
  else
    let s1 := bpf_ringbuf_reserve s
    if env.reserve_ok = false then (0, s1)
    else
      let pid_tgid := env.pid_tgid
      let event : llm_slo_event :=
        { pid := ctx.pid
          tid := pid_tgid % 4294967296
          timestamp_ns := env.ktime
          signal_type := LLM_SLO_CPU_STEAL
          value_ns := delay_ns
          conn_src_port := 0
          conn_dst_port := 0
          conn_dst_ip := 0
          errno_val := 0 }
      (0, bpf_ringbuf_submit s1 event)

/-! ## `tls_handshake.bpf.c` -/

def uprobe_ssl_do_handshake (env : KernelEnv) (s : State) : Int × State :=
  let pid_tgid := env.pid_tgid
  let ts := env.ktime
  (0, { s with tls_start := bpf_map_update_elem tls_start_max_entries s.tls_start pid_tgid ts })

def uretprobe_ssl_do_handshake (ret : Int) (env : KernelEnv) (s : State) : Int × State :=
  let pid_tgid := env.pid_tgid
  match bpf_map_lookup_elem s.tls_start pid_tgid with
  | none => (0, s)
  | some start_ts =>
    let delta_ns := u64_sub env.ktime start_ts
    let s1 := bpf_ringbuf_reserve s
    if env.reserve_ok = false then
      (0, { s1 with tls_start := bpf_map_delete_elem s1.tls_start pid_tgid })
    else
      let event : llm_slo_event :=
        { pid := pid_tgid / 4294967296
          tid := pid_tgid % 4294967296
          timestamp_ns := env.ktime2
          signal_type := LLM_SLO_TLS_HANDSHAKE
          value_ns := delta_ns
          conn_src_port := 0
          conn_dst_port := 443
          conn_dst_ip := 0
          errno_val := if ret ≤ 0 then 1 else 0 }
      let s2 := bpf_ringbuf_submit s1 event
      (0, { s2 with tls_start := bpf_map_delete_elem s2.tls_start pid_tgid })

/-! ## `tcp_retransmit.bpf.c` -/

def handle_tcp_retransmit (ctx : trace_event_raw_tcp_retransmit_skb) (env : KernelEnv)
    (s : State) : Int × State :=
  let s1 := bpf_ringbuf_reserve s
  if env.reserve_ok = false then (0, s1)
  else
    let pid_tgid := env.pid_tgid
    let event : llm_slo_event :=
      { pid := pid_tgid / 4294967296
        tid := pid_tgid % 4294967296
        timestamp_ns := env.ktime
        signal_type := LLM_SLO_TCP_RETRANSMIT
        value_ns := 1
        conn_src_port := ctx.sport
        conn_dst_port := ctx.dport
        conn_dst_ip := 0
        errno_val := 0 }
    (0, bpf_ringbuf_submit s1 event)

/-! ## `runqueue_delay.bpf.c` -/

def record_wakeup (pid : Nat) (env : KernelEnv) (s : State) : Int × State :=
  let ts := env.ktime
  (0, { s with runq_enqueue :=
          bpf_map_update_elem runq_enqueue_max_entries s.runq_enqueue pid ts })

def handle_sched_wakeup (ctx : trace_event_raw_sched_wakeup_template) (env : KernelEnv)
    (s : State) : Int × State :=
  record_wakeup ctx.pid env s

def handle_sched_wakeup_new (ctx : trace_event_raw_sched_wakeup_template) (env : KernelEnv)
    (s : State) : Int × State :=
  record_wakeup ctx.pid env s

def handle_sched_switch (ctx : trace_event_raw_sched_switch) (env : KernelEnv)
    (s : State) : Int × State :=
  let pid := ctx.next_pid
  match bpf_map_lookup_elem s.runq_enqueue pid with
  | none => (0, s)
  | some enqueue_ts =>
    let now := env.ktime
    let delta_ns := u64_sub now enqueue_ts
    let s0 := { s with runq_enqueue := bpf_map_delete_elem s.runq_enqueue pid }
    if delta_ns < 100000 then (0, s0)
    else
      let s1 := bpf_ringbuf_reserve s0
      if env.reserve_ok = false then (0, s1)
      else
        let pid_tgid := env.pid_tgid
        let event : llm_slo_event :=
          { pid := pid
            tid := pid_tgid % 4294967296
            timestamp_ns := now
            signal_type := LLM_SLO_RUNQUEUE_DELAY
            value_ns := delta_ns
            conn_src_port := 0
            conn_dst_port := 0
            conn_dst_ip := 0
            errno_val := 0 }
        (0, bpf_ringbuf_submit s1 event)

/-! ## `syscall_latency.bpf.c` -/

def handle_entry (env : KernelEnv) (s : State) : Int × State :=
  let pid_tgid := env.pid_tgid
  let ts := env.ktime
  (0, { s with syscall_start :=
          bpf_map_update_elem syscall_start_max_entries s.syscall_start pid_tgid ts })

def handle_return (c : SignalCodes) (env : KernelEnv) (s : State) : Int × State :=
  let pid_tgid := env.pid_tgid
  match bpf_map_lookup_elem s.syscall_start pid_tgid with
  | none => (0, s)
  | some start_ns =>
    let delta_ns := u64_sub env.ktime start_ns
    let s0 := { s with syscall_start := bpf_map_delete_elem s.syscall_start pid_tgid }
    if delta_ns < 1000000 then (0, s0)
    else
      let s1 := bpf_ringbuf_reserve s0
      if env.reserve_ok = false then (0, s1)
      else
        let event : llm_slo_event :=
          { pid := pid_tgid / 4294967296
            tid := pid_tgid % 4294967296
            timestamp_ns := env.ktime2
            signal_type := c.LLM_SLO_SYSCALL_LATENCY
            value_ns := delta_ns
            conn_src_port := 0
            conn_dst_port := 0
            conn_dst_ip := 0
            errno_val := 0 }
        (0, bpf_ringbuf_submit s1 event)

def kprobe_ksys_read (env : KernelEnv) (s : State) : Int × State := handle_entry env s

def kretprobe_ksys_read (c : SignalCodes) (env : KernelEnv) (s : State) : Int × State :=
  handle_return c env s

def kprobe_ksys_write (env : KernelEnv) (s : State) : Int × State := handle_entry env s

def kretprobe_ksys_write (c : SignalCodes) (env : KernelEnv) (s : State) : Int × State :=
  handle_return c env s

/-! ## `mem_reclaim.bpf.c` -/

def handle_reclaim_begin (env : KernelEnv) (s : State) : Int × State :=
  let pid_tgid := env.pid_tgid
  let ts := env.ktime
  (0, { s with reclaim_start :=
          bpf_map_update_elem reclaim_start_max_entries s.reclaim_start pid_tgid ts })

def handle_reclaim_end (c : SignalCodes) (env : KernelEnv) (s : State) : Int × State :=
  let pid_tgid := env.pid_tgid
  match bpf_map_lookup_elem s.reclaim_start pid_tgid with
  | none => (0, s)
  | some start_ns =>
    let delta_ns := u64_sub env.ktime start_ns
    let s0 := { s with reclaim_start := bpf_map_delete_elem s.reclaim_start pid_tgid }
    if delta_ns < 10000 then (0, s0)
    else
      let s1 := bpf_ringbuf_reserve s0
      if env.reserve_ok = false then (0, s1)
      else
        let event : llm_slo_event :=
          { pid := pid_tgid / 4294967296
            tid := pid_tgid % 4294967296
            timestamp_ns := env.ktime2
            signal_type := c.LLM_SLO_MEM_RECLAIM
            value_ns := delta_ns
            conn_src_port := 0
            conn_dst_port := 0
            conn_dst_ip := 0
            errno_val := 0 }
        (0, bpf_ringbuf_submit s1 event)

/-! ## Sequences of invocations -/

/-- One invocation of one BPF program, with the arguments of its trigger and
what the kernel hands to it. -/
inductive Call where
  | tcp_v4_connect_entry (sk : sock) (env : KernelEnv)
  | tcp_v4_connect_return (ret : Int) (env : KernelEnv)
  | tcp_v6_connect_entry (sk : sock) (env : KernelEnv)
  | tcp_v6_connect_return (ret : Int) (env : KernelEnv)
  | udp_sendmsg (sk : sock) (env : KernelEnv)
  | udp_recvmsg (sk : sock) (env : KernelEnv)
  | block_rq_issue (ctx : trace_event_raw_block_rq_completion) (key_pad : Nat)
      (env : KernelEnv)
  | block_rq_complete (ctx : trace_event_raw_block_rq_completion) (key_pad : Nat)
      (env : KernelEnv)
  | sched_stat_wait (ctx : trace_event_raw_sched_stat_template) (env : KernelEnv)
  | ssl_do_handshake_entry (env : KernelEnv)
  | ssl_do_handshake_return (ret : Int) (env : KernelEnv)
  | tcp_retransmit_skb (ctx : trace_event_raw_tcp_retransmit_skb) (env : KernelEnv)
  | sched_wakeup (ctx : trace_event_raw_sched_wakeup_template) (env : KernelEnv)
  | sched_wakeup_new (ctx : trace_event_raw_sched_wakeup_template) (env : KernelEnv)
  | sched_switch (ctx : trace_event_raw_sched_switch) (env : KernelEnv)
  | ksys_read_entry (env : KernelEnv)
  | ksys_read_return (env : KernelEnv)
  | ksys_write_entry (env : KernelEnv)
  | ksys_write_return (env : KernelEnv)
  | reclaim_begin (env : KernelEnv)
  | reclaim_end (env : KernelEnv)
  deriving DecidableEq, Repr

/-- Run the program that a trigger is attached to. -/
def dispatch (c : SignalCodes) (s : State) : Call → Int × State
  | .tcp_v4_connect_entry sk env => kprobe_tcp_v4_connect sk env s
  | .tcp_v4_connect_return ret env => kretprobe_tcp_v4_connect ret env s
  | .tcp_v6_connect_entry sk env => kprobe_tcp_v6_connect sk env s
  | .tcp_v6_connect_return ret env => kretprobe_tcp_v6_connect ret env s
  | .udp_sendmsg sk env => kprobe_udp_sendmsg sk env s
  | .udp_recvmsg sk env => kprobe_udp_recvmsg sk env s
  | .block_rq_issue ctx key_pad env => handle_block_rq_issue ctx key_pad env s
  | .block_rq_complete ctx key_pad env => handle_block_rq_complete c ctx key_pad env s
  | .sched_stat_wait ctx env => handle_sched_stat_wait ctx env s
  | .ssl_do_handshake_entry env => uprobe_ssl_do_handshake env s
  | .ssl_do_handshake_return ret env => uretprobe_ssl_do_handshake ret env s
  | .tcp_retransmit_skb ctx env => handle_tcp_retransmit ctx env s
  | .sched_wakeup ctx env => handle_sched_wakeup ctx env s
  | .sched_wakeup_new ctx env => handle_sched_wakeup_new ctx env s
  | .sched_switch ctx env => handle_sched_switch ctx env s
  | .ksys_read_entry env => kprobe_ksys_read env s
  | .ksys_read_return env => kretprobe_ksys_read c env s
  | .ksys_write_entry env => kprobe_ksys_write env s
  | .ksys_write_return env => kretprobe_ksys_write c env s
  | .reclaim_begin env => handle_reclaim_begin env s
  | .reclaim_end env => handle_reclaim_end c env s

/-- The state after one invocation. -/
def step (c : SignalCodes) (s : State) (call : Call) : State := (dispatch c s call).2

/-- The state after a sequence of invocations, first to last. -/
def run (c : SignalCodes) (s : State) (calls : List Call) : State :=
  calls.foldl (step c) s

/-- The record respects the threshold of its signal: disk I/O 500 µs, CPU steal
50 µs, memory reclaim 10 µs, run-queue delay 100 µs, syscall latency 1 ms. -/
def MeetsThreshold (c : SignalCodes) (e : llm_slo_event) : Prop :=
  (e.signal_type = c.LLM_SLO_DISK_IO_LATENCY → 500000 ≤ e.value_ns) ∧
  (e.signal_type = LLM_SLO_CPU_STEAL → 50000 ≤ e.value_ns) ∧
  (e.signal_type = c.LLM_SLO_MEM_RECLAIM → 10000 ≤ e.value_ns) ∧
  (e.signal_type = LLM_SLO_RUNQUEUE_DELAY → 100000 ≤ e.value_ns) ∧
  (e.signal_type = c.LLM_SLO_SYSCALL_LATENCY → 1000000 ≤ e.value_ns)

instance (c : SignalCodes) (e : llm_slo_event) : Decidable (MeetsThreshold c e) := by
  unfold MeetsThreshold; infer_instance

/-- The state after 8192 tasks, with task ids 0 to 8191, have each sent one
datagram to port 53 (`skc_dport = 0x3500` in network order) and none has
received yet. -/
def dns_store_full : State :=
  run ⟨7, 8, 9⟩ State.empty
    ((List.range 8192).map (fun i => Call.udp_sendmsg ⟨13568, 0, 0⟩ ⟨i, 0, 0, true⟩))

/-- The map can take an entry for `k`: it holds `k` already, or it holds fewer
than `max_entries` entries. -/
def HasRoom {K V : Type} [DecidableEq K] (max_entries : Nat) (m : List (K × V)) (k : K) :
    Prop :=
  (bpf_map_lookup_elem m k).isSome = true ∨ m.length < max_entries

instance {K V : Type} [DecidableEq K] (n : Nat) (m : List (K × V)) (k : K) :
    Decidable (HasRoom n m k) := by
  unfold HasRoom; infer_instance

/-- The nine signals, one per probe file. -/
inductive Signal where
  | dns_latency
  | tcp_retransmit
  | runqueue_delay
  | connect_latency
  | tls_handshake
  | cpu_steal
  | disk_latency
  | mem_reclaim
  | syscall_latency
  deriving DecidableEq, Repr

/-- The discriminator constant that the probes of a signal write. -/
def Signal.code (c : SignalCodes) : Signal → Nat
  | .dns_latency => LLM_SLO_DNS_LATENCY
  | .tcp_retransmit => LLM_SLO_TCP_RETRANSMIT
  | .runqueue_delay => LLM_SLO_RUNQUEUE_DELAY
  | .connect_latency => LLM_SLO_CONNECT_LATENCY
  | .tls_handshake => LLM_SLO_TLS_HANDSHAKE
  | .cpu_steal => LLM_SLO_CPU_STEAL
  | .disk_latency => c.LLM_SLO_DISK_IO_LATENCY
  | .mem_reclaim => c.LLM_SLO_MEM_RECLAIM
  | .syscall_latency => c.LLM_SLO_SYSCALL_LATENCY

/-- The signal of the probe file that holds the program of a call. -/
def Call.signal : Call → Signal
  | .tcp_v4_connect_entry _ _ => .connect_latency
  | .tcp_v4_connect_return _ _ => .connect_latency
  | .tcp_v6_connect_entry _ _ => .connect_latency
  | .tcp_v6_connect_return _ _ => .connect_latency
  | .udp_sendmsg _ _ => .dns_latency
  | .udp_recvmsg _ _ => .dns_latency
  | .block_rq_issue _ _ _ => .disk_latency
  | .block_rq_complete _ _ _ => .disk_latency
  | .sched_stat_wait _ _ => .cpu_steal
  | .ssl_do_handshake_entry _ => .tls_handshake
  | .ssl_do_handshake_return _ _ => .tls_handshake
  | .tcp_retransmit_skb _ _ => .tcp_retransmit
  | .sched_wakeup _ _ => .runqueue_delay
  | .sched_wakeup_new _ _ => .runqueue_delay
  | .sched_switch _ _ => .runqueue_delay
  | .ksys_read_entry _ => .syscall_latency
  | .ksys_read_return _ => .syscall_latency
  | .ksys_write_entry _ => .syscall_latency
  | .ksys_write_return _ => .syscall_latency
  | .reclaim_begin _ => .mem_reclaim
  | .reclaim_end _ => .mem_reclaim

/-- What the kernel hands to the invocation of a call. -/
def Call.env : Call → KernelEnv
  | .tcp_v4_connect_entry _ env => env
  | .tcp_v4_connect_return _ env => env
  | .tcp_v6_connect_entry _ env => env
  | .tcp_v6_connect_return _ env => env
  | .udp_sendmsg _ env => env
  | .udp_recvmsg _ env => env
  | .block_rq_issue _ _ env => env
  | .block_rq_complete _ _ env => env
  | .sched_stat_wait _ env => env
  | .ssl_do_handshake_entry env => env
  | .ssl_do_handshake_return _ env => env
  | .tcp_retransmit_skb _ env => env
  | .sched_wakeup _ env => env
  | .sched_wakeup_new _ env => env
  | .sched_switch _ env => env
  | .ksys_read_entry env => env
  | .ksys_read_return env => env
  | .ksys_write_entry env => env
  | .ksys_write_return env => env
  | .reclaim_begin env => env
  | .reclaim_end env => env

/-- The fields that the probes of a signal fill with constants. -/
def FixedFields : Signal → llm_slo_event → Prop
  | .dns_latency, e => e.errno_val = 0
  | .tcp_retransmit, e => e.value_ns = 1 ∧ e.conn_dst_ip = 0 ∧ e.errno_val = 0
  | .connect_latency, _ => True
  | .tls_handshake, e =>
      e.conn_src_port = 0 ∧ e.conn_dst_port = 443 ∧ e.conn_dst_ip = 0
        ∧ (e.errno_val = 0 ∨ e.errno_val = 1)
  | _, e => e.conn_src_port = 0 ∧ e.conn_dst_port = 0 ∧ e.conn_dst_ip = 0 ∧ e.errno_val = 0

/-- The record is one that the probes of some signal write: it carries the
discriminator of the signal and the constants of the signal. -/
def RecordOf (c : SignalCodes) (sig : Signal) (e : llm_slo_event) : Prop :=
  e.signal_type = sig.code c ∧ FixedFields sig e

/-! ### The record on the wire -/

/-- Sizes in bytes of the fields of `struct llm_slo_event`, in the order of the
declaration: `__u32`, `__u32`, `__u64`, `__u32`, `__u64`, `__u16`, `__u16`,
`__u32`, `__s32`. -/
def llm_slo_event_field_sizes : List Nat := [4, 4, 8, 4, 8, 2, 2, 4, 4]

/-- Offsets of the fields of a struct declared `packed`: every field starts
where the one before it ends. -/
def packed_offsets (start : Nat) : List Nat → List Nat
  | [] => []
  | size :: rest => start :: packed_offsets (start + size) rest

/-- The size of the packed struct, `sizeof(struct llm_slo_event)`. -/
def llm_slo_event_size : Nat := llm_slo_event_field_sizes.sum

/-- The bytes of an unsigned integer in a field of `width` bytes, least
significant byte first. -/
def encode_uint : Nat → Nat → List Nat
  | 0, _ => []
  | width + 1, v => (v % 256) :: encode_uint width (v / 256)

/-- The unsigned integer that a run of bytes holds, least significant byte
first. -/
def decode_uint : List Nat → Nat
  | [] => 0
  | b :: rest => b + 256 * decode_uint rest

/-- The bit pattern of a `__s32`, as an unsigned 32-bit number. -/
def s32_to_u32 (x : Int) : Nat := (x % 4294967296).toNat

/-- The `__s32` that an unsigned 32-bit pattern stands for. -/
def u32_to_s32 (x : Nat) : Int := if x < 2147483648 then (x : Int) else (x : Int) - 4294967296

/-- The bytes of a buffer from offset `off`, `size` of them. -/
def field_bytes (bs : List Nat) (off size : Nat) : List Nat := (bs.drop off).take size

/-- Modelled from the spec: the encoder of a record to its wire form, which
under `ebpf/c/` is only the declaration of the packed struct (the handlers store
into the reserved slot field by field and the consumer that reads the bytes is
not in these sources).  The fields follow each other in the fixed order of the
wire layout without padding, each in its own width, in the byte order of the
little-endian hosts that the probes run on. -/
def llm_slo_event.encode (e : llm_slo_event) : List Nat :=
  encode_uint 4 e.pid ++ (encode_uint 4 e.tid ++ (encode_uint 8 e.timestamp_ns ++
    (encode_uint 4 e.signal_type ++ (encode_uint 8 e.value_ns ++
      (encode_uint 2 e.conn_src_port ++ (encode_uint 2 e.conn_dst_port ++
        (encode_uint 4 e.conn_dst_ip ++ encode_uint 4 (s32_to_u32 e.errno_val))))))))

/-- Modelled from the spec: the decoder of the wire form, which reads every
field at its byte offset in the fixed layout: `pid` at 0, `tid` at 4,
`timestamp_ns` at 8, `signal_type` at 16, `value_ns` at 20, `conn_src_port` at
28, `conn_dst_port` at 30, `conn_dst_ip` at 32 and `errno_val` at 36. -/
def llm_slo_event.decode (bs : List Nat) : llm_slo_event :=
  { pid := decode_uint (field_bytes bs 0 4)
    tid := decode_uint (field_bytes bs 4 4)
    timestamp_ns := decode_uint (field_bytes bs 8 8)
    signal_type := decode_uint (field_bytes bs 16 4)
    value_ns := decode_uint (field_bytes bs 20 8)
    conn_src_port := decode_uint (field_bytes bs 28 2)
    conn_dst_port := decode_uint (field_bytes bs 30 2)
    conn_dst_ip := decode_uint (field_bytes bs 32 4)
    errno_val := u32_to_s32 (decode_uint (field_bytes bs 36 4)) }

/-- Every field holds a value of its C type. -/
def llm_slo_event.InRange (e : llm_slo_event) : Prop :=
  e.pid < 4294967296 ∧ e.tid < 4294967296 ∧ e.timestamp_ns < U64_MOD
    ∧ e.signal_type < 4294967296 ∧ e.value_ns < U64_MOD ∧ e.conn_src_port < 65536
    ∧ e.conn_dst_port < 65536 ∧ e.conn_dst_ip < 4294967296
    ∧ -2147483648 ≤ e.errno_val ∧ e.errno_val < 2147483648

instance (e : llm_slo_event) : Decidable e.InRange := by
  unfold llm_slo_event.InRange; infer_instance

/-- Every correlation store holds at most the `max_entries` of its declaration. -/
def StoresBounded (s : State) : Prop :=
  s.connect_inflight.length ≤ connect_inflight_max_entries ∧
  s.dns_inflight.length ≤ dns_inflight_max_entries ∧
  s.reclaim_start.length ≤ reclaim_start_max_entries ∧
  s.tls_start.length ≤ tls_start_max_entries ∧
  s.blk_start.length ≤ blk_start_max_entries ∧
  s.runq_enqueue.length ≤ runq_enqueue_max_entries ∧
  s.syscall_start.length ≤ syscall_start_max_entries

/-- Every correlation store is empty. -/
def StoresEmpty (s : State) : Prop :=
  s.connect_inflight = [] ∧ s.dns_inflight = [] ∧ s.reclaim_start = [] ∧ s.tls_start = []
    ∧ s.blk_start = [] ∧ s.runq_enqueue = [] ∧ s.syscall_start = []

instance (s : State) : Decidable (StoresEmpty s) := by
  unfold StoresEmpty; infer_instance

/-- Every entry of the DNS in-flight store has destination port 53. -/
def DnsPorts53 (s : State) : Prop := ∀ en ∈ s.dns_inflight, en.2.dst_port = 53

/-- The first `n` of a series of disk requests to device 8: the request for
sector `i` is issued at clock reading `i`, and the padding bytes of every key
hold 0. -/
def blk_issues (n : Nat) : List Call :=
  (List.range n).map (fun i => Call.block_rq_issue ⟨8, i⟩ 0 ⟨1, i, 0, true⟩)

/-- The state after 16384 disk requests, for sectors 0 to 16383 of device 8,
have been issued and none has completed. -/
def blk_store_full : State :=
  run ⟨7, 8, 9⟩ State.empty (blk_issues 16384)

/-! ## Lemmas on the arithmetic -/

theorem u64_sub_of_le {a b : Nat} (hab : b ≤ a) (ha : a < U64_MOD) : u64_sub a b = a - b := by
  unfold u64_sub
  have hb : b % U64_MOD = b := Nat.mod_eq_of_lt (lt_of_le_of_lt hab ha)
  rw [hb]
  have h1 : a + (U64_MOD - b) = (a - b) + U64_MOD := by
    have : b ≤ U64_MOD := le_of_lt (lt_of_le_of_lt hab ha)
    omega
  rw [h1, Nat.add_mod_right]
  exact Nat.mod_eq_of_lt (lt_of_le_of_lt (Nat.sub_le a b) ha)

theorem u64_sub_self (a : Nat) : u64_sub a a = 0 := by
  unfold u64_sub U64_MOD
  omega

/-! ## Lemmas on the hash maps -/

section MapLemmas
variable {K V : Type} [DecidableEq K]

theorem lookup_cons (k0 : K) (v : V) (rest : List (K × V)) (k : K) :
    bpf_map_lookup_elem ((k0, v) :: rest) k
      = if k0 = k then some v else bpf_map_lookup_elem rest k := rfl

theorem delete_cons (k0 : K) (v : V) (rest : List (K × V)) (k : K) :
    bpf_map_delete_elem ((k0, v) :: rest) k
      = if k0 = k then bpf_map_delete_elem rest k else (k0, v) :: bpf_map_delete_elem rest k := by
  by_cases h : k0 = k <;> simp [bpf_map_delete_elem, List.filter_cons, h]

theorem replace_cons (k0 : K) (v0 : V) (rest : List (K × V)) (k : K) (v : V) :
    ((k0, v0) :: rest).map (fun e => if e.1 = k then (k, v) else e)
      = (if k0 = k then (k, v) else (k0, v0))
          :: rest.map (fun e => if e.1 = k then (k, v) else e) := rfl

theorem lookup_delete_self (m : List (K × V)) (k : K) :
    bpf_map_lookup_elem (bpf_map_delete_elem m k) k = none := by
  induction m with
  | nil => rfl
  | cons e rest ih =>
    obtain ⟨k0, v⟩ := e
    rw [delete_cons]
    by_cases h : k0 = k
    · rw [if_pos h]; exact ih
    · rw [if_neg h, lookup_cons, if_neg h]; exact ih

theorem lookup_delete_ne (m : List (K × V)) {k k' : K} (h : k' ≠ k) :
    bpf_map_lookup_elem (bpf_map_delete_elem m k) k' = bpf_map_lookup_elem m k' := by
  induction m with
  | nil => rfl
  | cons e rest ih =>
    obtain ⟨k0, v⟩ := e
    rw [delete_cons, lookup_cons]
    by_cases h0 : k0 = k
    · have h1 : ¬ k0 = k' := fun h2 => h (h2 ▸ h0)
      rw [if_pos h0, if_neg h1]; exact ih
    · rw [if_neg h0, lookup_cons, ih]

theorem delete_of_lookup_none (m : List (K × V)) (k : K)
    (h : bpf_map_lookup_elem m k = none) : bpf_map_delete_elem m k = m := by
  induction m with
  | nil => rfl
  | cons e rest ih =>
    obtain ⟨k0, v⟩ := e
    rw [lookup_cons] at h
    by_cases h0 : k0 = k
    · rw [if_pos h0] at h; exact absurd h (by simp)
    · rw [if_neg h0] at h
      rw [delete_cons, if_neg h0, ih h]

theorem lookup_replace_self (m : List (K × V)) (k : K) (v : V)
    (h : (bpf_map_lookup_elem m k).isSome = true) :
    bpf_map_lookup_elem (m.map (fun e => if e.1 = k then (k, v) else e)) k = some v := by
  induction m with
  | nil => exact absurd h (by simp [bpf_map_lookup_elem])
  | cons e rest ih =>
    obtain ⟨k0, v0⟩ := e
    rw [replace_cons]
    rw [lookup_cons] at h
    by_cases h0 : k0 = k
    · rw [if_pos h0, lookup_cons, if_pos rfl]
    · rw [if_neg h0] at h
      rw [if_neg h0, lookup_cons, if_neg h0]; exact ih h

theorem lookup_replace_ne (m : List (K × V)) {k k' : K} (v : V) (h : k' ≠ k) :
    bpf_map_lookup_elem (m.map (fun e => if e.1 = k then (k, v) else e)) k'
      = bpf_map_lookup_elem m k' := by
  induction m with
  | nil => rfl
  | cons e rest ih =>
    obtain ⟨k0, v0⟩ := e
    rw [replace_cons, lookup_cons]
    by_cases h0 : k0 = k
    · have h1 : ¬ k = k' := fun h2 => h h2.symm
      have h2 : ¬ k0 = k' := fun h3 => h1 (h0 ▸ h3)
      rw [if_pos h0, lookup_cons, if_neg h1, if_neg h2]; exact ih
    · rw [if_neg h0, lookup_cons, ih]

theorem lookup_update_self (n : Nat) (m : List (K × V)) (k : K) (v : V)
    (h : HasRoom n m k) : bpf_map_lookup_elem (bpf_map_update_elem n m k v) k = some v := by
  unfold bpf_map_update_elem
  by_cases hs : (bpf_map_lookup_elem m k).isSome = true
  · rw [if_pos hs]; exact lookup_replace_self m k v hs
  · rw [if_neg hs]
    rcases h with h | h
    · exact absurd h hs
    · rw [if_pos h]; simp [bpf_map_lookup_elem]

theorem lookup_update_ne (n : Nat) (m : List (K × V)) {k k' : K} (v : V) (h : k' ≠ k) :
    bpf_map_lookup_elem (bpf_map_update_elem n m k v) k' = bpf_map_lookup_elem m k' := by
  unfold bpf_map_update_elem
  split
  · exact lookup_replace_ne m v h
  · split
    · have h1 : ¬ k = k' := fun h2 => h h2.symm
      simp [bpf_map_lookup_elem, h1]
    · rfl

theorem update_of_full (n : Nat) (m : List (K × V)) (k : K) (v : V)
    (h : ¬ HasRoom n m k) : bpf_map_update_elem n m k v = m := by
  unfold HasRoom at h
  push_neg at h
  unfold bpf_map_update_elem
  rw [if_neg h.1, if_neg (not_lt.mpr h.2)]

theorem hasRoom_update (n : Nat) (m : List (K × V)) (k : K) (v : V) (h : HasRoom n m k) :
    HasRoom n (bpf_map_update_elem n m k v) k :=
  Or.inl (by rw [lookup_update_self n m k v h]; rfl)

theorem replace_replace (m : List (K × V)) (k : K) (v w : V) :
    (m.map (fun e => if e.1 = k then (k, v) else e)).map (fun e => if e.1 = k then (k, w) else e)
      = m.map (fun e => if e.1 = k then (k, w) else e) := by
  rw [List.map_map]
  apply List.map_congr_left
  intro e _
  by_cases h : e.1 = k <;> simp [h]

/-- Two updates of one key in a row leave what the second alone leaves. -/
theorem update_update (n : Nat) (m : List (K × V)) (k : K) (v w : V) :
    bpf_map_update_elem n (bpf_map_update_elem n m k v) k w = bpf_map_update_elem n m k w := by
  by_cases h : HasRoom n m k
  · have h2 := lookup_update_self n m k v h
    have h3 : bpf_map_update_elem n (bpf_map_update_elem n m k v) k w
        = (bpf_map_update_elem n m k v).map (fun e => if e.1 = k then (k, w) else e) := by
      rw [bpf_map_update_elem, h2]; rfl
    rw [h3]
    unfold bpf_map_update_elem
    by_cases hs : (bpf_map_lookup_elem m k).isSome = true
    · rw [if_pos hs, if_pos hs]; exact replace_replace m k v w
    · have hn : bpf_map_lookup_elem m k = none := by
        cases hl : bpf_map_lookup_elem m k with
        | none => rfl
        | some x => rw [hl] at hs; exact absurd rfl hs
      rcases h with h | h
      · exact absurd h hs
      · rw [if_neg hs, if_neg hs, if_pos h, if_pos h, replace_cons, if_pos rfl]
        congr 1
        clear h2 h3 hs h
        induction m with
        | nil => rfl
        | cons e rest ih =>
          obtain ⟨k0, v0⟩ := e
          rw [lookup_cons] at hn
          by_cases h0 : k0 = k
          · rw [if_pos h0] at hn; exact absurd hn (by simp)
          · rw [if_neg h0] at hn
            rw [replace_cons, if_neg h0, ih hn]
  · rw [update_of_full n m k v h]

theorem lookup_of_full (n : Nat) (m : List (K × V)) (k : K) (h : ¬ HasRoom n m k) :
    bpf_map_lookup_elem m k = none := by
  unfold HasRoom at h
  push_neg at h
  cases hl : bpf_map_lookup_elem m k with
  | none => rfl
  | some x => rw [hl] at h; exact absurd rfl h.1

/-- What a lookup finds right after an update of the same key. -/
theorem lookup_update_eq (n : Nat) (m : List (K × V)) (k : K) (v : V) :
    bpf_map_lookup_elem (bpf_map_update_elem n m k v) k
      = if HasRoom n m k then some v else none := by
  by_cases h : HasRoom n m k
  · rw [if_pos h, lookup_update_self n m k v h]
  · rw [if_neg h, update_of_full n m k v h, lookup_of_full n m k h]

theorem lookup_none_of_keys_ne (m : List (K × V)) (k : K) (h : ∀ e ∈ m, e.1 ≠ k) :
    bpf_map_lookup_elem m k = none := by
  induction m with
  | nil => rfl
  | cons e rest ih =>
    obtain ⟨k0, v⟩ := e
    have h0 : k0 ≠ k := h (k0, v) (List.mem_cons_self _ _)
    rw [lookup_cons, if_neg h0]
    exact ih (fun e he => h e (List.mem_cons_of_mem _ he))

end MapLemmas

/-! ## Begin followed by end -/

/-- Begin then end under one map key: for each of the seven begin/end signals,
from a store with room for the key (or holding it already), a begin at clock
reading `t0` followed at once by the matching end at `t1 ≥ t0` whose
reservation succeeds and whose elapsed time reaches the threshold of the signal
appends exactly one record, with `value_ns = t1 - t0` and the discriminator of
the signal.  For disk I/O the map key is the whole of `struct blk_key`: the
result is for an issue and a completion whose keys hold the same padding bytes
`pad`.  The other case is in the section on the padding bytes of the key. -/
theorem begin_end_pair_publishes_elapsed (c : SignalCodes) (s : State) (K t0 t1 : Nat)
    (ht : t0 ≤ t1) (hb : t1 < U64_MOD) :
    (∀ (sk : sock) (ret : Int) (a0 ts : Nat) (r0 : Bool),
      HasRoom connect_inflight_max_entries s.connect_inflight K →
      ∃ e, (exit_connect ret ⟨K, t1, ts, true⟩
              (enter_connect sk ⟨K, t0, a0, r0⟩ s).2).2.llm_slo_events
            = s.llm_slo_events ++ [e]
        ∧ e.value_ns = t1 - t0 ∧ e.signal_type = LLM_SLO_CONNECT_LATENCY) ∧
    (∀ (sk sk1 : sock) (a0 ts : Nat) (r0 : Bool),
      bswap16 sk.skc_dport = 53 →
      HasRoom dns_inflight_max_entries s.dns_inflight K →
      ∃ e, (kprobe_udp_recvmsg sk1 ⟨K, t1, ts, true⟩
              (kprobe_udp_sendmsg sk ⟨K, t0, a0, r0⟩ s).2).2.llm_slo_events
            = s.llm_slo_events ++ [e]
        ∧ e.value_ns = t1 - t0 ∧ e.signal_type = LLM_SLO_DNS_LATENCY) ∧
    (∀ (a0 ts : Nat) (r0 : Bool),
      HasRoom reclaim_start_max_entries s.reclaim_start K →
      10000 ≤ t1 - t0 →
      ∃ e, (handle_reclaim_end c ⟨K, t1, ts, true⟩
              (handle_reclaim_begin ⟨K, t0, a0, r0⟩ s).2).2.llm_slo_events
            = s.llm_slo_events ++ [e]
        ∧ e.value_ns = t1 - t0 ∧ e.signal_type = c.LLM_SLO_MEM_RECLAIM) ∧
    (∀ (a0 ts : Nat) (r0 : Bool),
      HasRoom syscall_start_max_entries s.syscall_start K →
      1000000 ≤ t1 - t0 →
      ∃ e, (handle_return c ⟨K, t1, ts, true⟩
              (handle_entry ⟨K, t0, a0, r0⟩ s).2).2.llm_slo_events
            = s.llm_slo_events ++ [e]
        ∧ e.value_ns = t1 - t0 ∧ e.signal_type = c.LLM_SLO_SYSCALL_LATENCY) ∧
    (∀ (ret : Int) (a0 ts : Nat) (r0 : Bool),
      HasRoom tls_start_max_entries s.tls_start K →
      ∃ e, (uretprobe_ssl_do_handshake ret ⟨K, t1, ts, true⟩
              (uprobe_ssl_do_handshake ⟨K, t0, a0, r0⟩ s).2).2.llm_slo_events
            = s.llm_slo_events ++ [e]
        ∧ e.value_ns = t1 - t0 ∧ e.signal_type = LLM_SLO_TLS_HANDSHAKE) ∧
    (∀ (ctx : trace_event_raw_block_rq_completion) (pad : Nat) (p0 p1 a0 ts : Nat) (r0 : Bool),
      HasRoom blk_start_max_entries s.blk_start ⟨ctx.dev, pad, ctx.sector⟩ →
      500000 ≤ t1 - t0 →
      ∃ e, (handle_block_rq_complete c ctx pad ⟨p1, t1, ts, true⟩
              (handle_block_rq_issue ctx pad ⟨p0, t0, a0, r0⟩ s).2).2.llm_slo_events
            = s.llm_slo_events ++ [e]
        ∧ e.value_ns = t1 - t0 ∧ e.signal_type = c.LLM_SLO_DISK_IO_LATENCY) ∧
    (∀ (p0 p1 a0 ts : Nat) (r0 : Bool),
      HasRoom runq_enqueue_max_entries s.runq_enqueue K →
      100000 ≤ t1 - t0 →
      ∃ e, (handle_sched_switch ⟨K⟩ ⟨p1, t1, ts, true⟩
              (record_wakeup K ⟨p0, t0, a0, r0⟩ s).2).2.llm_slo_events
            = s.llm_slo_events ++ [e]
        ∧ e.value_ns = t1 - t0 ∧ e.signal_type = LLM_SLO_RUNQUEUE_DELAY) := by
  have hd := u64_sub_of_le ht hb
  refine ⟨?_, ?_, ?_, ?_, ?_, ?_, ?_⟩
  · intro sk ret a0 ts r0 hroom
    simp [exit_connect, enter_connect, lookup_update_self _ _ _ _ hroom, hd,
      bpf_ringbuf_reserve, bpf_ringbuf_submit]
  · intro sk sk1 a0 ts r0 hp hroom
    simp [kprobe_udp_recvmsg, kprobe_udp_sendmsg, hp, lookup_update_self _ _ _ _ hroom, hd,
      bpf_ringbuf_reserve, bpf_ringbuf_submit]
  · intro a0 ts r0 hroom hthr
    simp [handle_reclaim_end, handle_reclaim_begin, lookup_update_self _ _ _ _ hroom, hd,
      bpf_ringbuf_reserve, bpf_ringbuf_submit, not_lt.mpr hthr]
  · intro a0 ts r0 hroom hthr
    simp [handle_return, handle_entry, lookup_update_self _ _ _ _ hroom, hd,
      bpf_ringbuf_reserve, bpf_ringbuf_submit, not_lt.mpr hthr]
  · intro ret a0 ts r0 hroom
    simp [uretprobe_ssl_do_handshake, uprobe_ssl_do_handshake,
      lookup_update_self _ _ _ _ hroom, hd, bpf_ringbuf_reserve, bpf_ringbuf_submit]
  · intro ctx pad p0 p1 a0 ts r0 hroom hthr
    simp [handle_block_rq_complete, handle_block_rq_issue, lookup_update_self _ _ _ _ hroom,
      hd, bpf_ringbuf_reserve, bpf_ringbuf_submit, not_lt.mpr hthr]
  · intro p0 p1 a0 ts r0 hroom hthr
    simp [handle_sched_switch, record_wakeup, lookup_update_self _ _ _ _ hroom, hd,
      bpf_ringbuf_reserve, bpf_ringbuf_submit, not_lt.mpr hthr]

theorem begin_end_pair_publishes_elapsed_witness :
    (0 : Nat) ≤ 600000 ∧ 600000 < U64_MOD ∧
    HasRoom blk_start_max_entries State.empty.blk_start (⟨8, 0, 1024⟩ : blk_key) ∧
    500000 ≤ 600000 - 0 ∧
    (∃ e, (handle_block_rq_complete ⟨7, 8, 9⟩ ⟨8, 1024⟩ 0 ⟨1, 600000, 600001, true⟩
            (handle_block_rq_issue ⟨8, 1024⟩ 0 ⟨1, 0, 0, true⟩ State.empty).2).2.llm_slo_events
          = State.empty.llm_slo_events ++ [e]
        ∧ e.value_ns = 600000 - 0
        ∧ e.signal_type = (⟨7, 8, 9⟩ : SignalCodes).LLM_SLO_DISK_IO_LATENCY) ∧
    (handle_block_rq_complete ⟨7, 8, 9⟩ ⟨8, 1024⟩ 0 ⟨1, 600000, 600001, true⟩
        (handle_block_rq_issue ⟨8, 1024⟩ 0 ⟨1, 0, 0, true⟩ State.empty).2).2.llm_slo_events
      = [⟨0, 1, 600001, 7, 600000, 0, 0, 0, 0⟩] :=
  ⟨by decide, by decide, by decide, by decide,
   (begin_end_pair_publishes_elapsed ⟨7, 8, 9⟩ State.empty 0 0 600000 (by decide)
      (by decide)).2.2.2.2.2.1 ⟨8, 1024⟩ 0 1 1 0 600001 true (by decide) (by decide),
   by decide⟩

/-! ## Thresholds on every published record -/

/-- One invocation leaves the ring buffer as it is or appends one record that
respects the threshold of its signal. -/
theorem step_events_threshold (c : SignalCodes) (hd : c.Distinct) (s : State) (call : Call) :
    (step c s call).llm_slo_events = s.llm_slo_events ∨
    ∃ e, (step c s call).llm_slo_events = s.llm_slo_events ++ [e] ∧ MeetsThreshold c e := by
  simp [SignalCodes.Distinct, LLM_SLO_DNS_LATENCY, LLM_SLO_TCP_RETRANSMIT,
    LLM_SLO_RUNQUEUE_DELAY, LLM_SLO_CONNECT_LATENCY, LLM_SLO_TLS_HANDSHAKE,
    LLM_SLO_CPU_STEAL] at hd
  cases call <;>
    simp only [step, dispatch, kprobe_tcp_v4_connect, kretprobe_tcp_v4_connect,
      kprobe_tcp_v6_connect, kretprobe_tcp_v6_connect, enter_connect, exit_connect,
      kprobe_udp_sendmsg, kprobe_udp_recvmsg, handle_block_rq_issue,
      handle_block_rq_complete, handle_sched_stat_wait, uprobe_ssl_do_handshake,
      uretprobe_ssl_do_handshake, handle_tcp_retransmit, handle_sched_wakeup,
      handle_sched_wakeup_new, record_wakeup, handle_sched_switch, kprobe_ksys_read,
      kretprobe_ksys_read, kprobe_ksys_write, kretprobe_ksys_write, handle_entry,
      handle_return, handle_reclaim_begin, handle_reclaim_end, bpf_ringbuf_reserve,
      bpf_ringbuf_submit, MIN_WAIT_NS]
  all_goals repeat' split
  all_goals first
    | exact Or.inl rfl
    | exact Or.inl trivial
    | (refine Or.inr ⟨_, rfl, ?_⟩
       simp only [MeetsThreshold, LLM_SLO_DNS_LATENCY, LLM_SLO_TCP_RETRANSMIT,
         LLM_SLO_RUNQUEUE_DELAY, LLM_SLO_CONNECT_LATENCY, LLM_SLO_TLS_HANDSHAKE,
         LLM_SLO_CPU_STEAL]
       omega)

/-- Every record published by a sequence of invocations respects the threshold
of its signal, if the records that were there before do. -/
theorem run_events_threshold (c : SignalCodes) (hd : c.Distinct) (calls : List Call) :
    ∀ s : State, (∀ e ∈ s.llm_slo_events, MeetsThreshold c e) →
      ∀ e ∈ (run c s calls).llm_slo_events, MeetsThreshold c e := by
  induction calls with
  | nil => intro s h; exact h
  | cons call rest ih =>
    intro s h
    show ∀ e ∈ (run c (step c s call) rest).llm_slo_events, MeetsThreshold c e
    apply ih
    rcases step_events_threshold c hd s call with h1 | ⟨e1, h1, h2⟩
    · rw [h1]; exact h
    · rw [h1]
      intro e he
      rcases List.mem_append.mp he with he | he
      · exact h e he
      · rw [List.mem_singleton.mp he]; exact h2

/-- C2: after any finite sequence of handler invocations from an empty channel,
with any clock readings and any reservation outcomes, every record whose
discriminator is disk I/O, CPU steal, memory reclaim, run-queue delay or syscall
latency has `value_ns` at least 500000, 50000, 10000, 100000 or 1000000. -/
theorem published_records_meet_threshold (c : SignalCodes) (hd : c.Distinct) (s : State)
    (h0 : s.llm_slo_events = []) (calls : List Call) :
    ∀ e ∈ (run c s calls).llm_slo_events,
      (e.signal_type = c.LLM_SLO_DISK_IO_LATENCY → 500000 ≤ e.value_ns) ∧
      (e.signal_type = LLM_SLO_CPU_STEAL → 50000 ≤ e.value_ns) ∧
      (e.signal_type = c.LLM_SLO_MEM_RECLAIM → 10000 ≤ e.value_ns) ∧
      (e.signal_type = LLM_SLO_RUNQUEUE_DELAY → 100000 ≤ e.value_ns) ∧
      (e.signal_type = c.LLM_SLO_SYSCALL_LATENCY → 1000000 ≤ e.value_ns) :=
  run_events_threshold c hd calls s (by rw [h0]; intro e he; exact absurd he (List.not_mem_nil e))

theorem published_records_meet_threshold_witness :
    (⟨7, 8, 9⟩ : SignalCodes).Distinct ∧ State.empty.llm_slo_events = [] ∧
    (∀ e ∈ (run ⟨7, 8, 9⟩ State.empty
        [Call.block_rq_issue ⟨8, 1024⟩ 0 ⟨1, 0, 0, true⟩,
         Call.block_rq_complete ⟨8, 1024⟩ 0 ⟨1, 600000, 600001, true⟩,
         Call.sched_stat_wait ⟨5, 60000⟩ ⟨1, 700000, 0, true⟩,
         Call.sched_stat_wait ⟨5, 40000⟩ ⟨1, 800000, 0, true⟩,
         Call.tcp_retransmit_skb ⟨4000, 443⟩ ⟨1, 900000, 0, true⟩]).llm_slo_events,
      (e.signal_type = (⟨7, 8, 9⟩ : SignalCodes).LLM_SLO_DISK_IO_LATENCY → 500000 ≤ e.value_ns) ∧
      (e.signal_type = LLM_SLO_CPU_STEAL → 50000 ≤ e.value_ns) ∧
      (e.signal_type = (⟨7, 8, 9⟩ : SignalCodes).LLM_SLO_MEM_RECLAIM → 10000 ≤ e.value_ns) ∧
      (e.signal_type = LLM_SLO_RUNQUEUE_DELAY → 100000 ≤ e.value_ns) ∧
      (e.signal_type = (⟨7, 8, 9⟩ : SignalCodes).LLM_SLO_SYSCALL_LATENCY
        → 1000000 ≤ e.value_ns)) ∧
    (run ⟨7, 8, 9⟩ State.empty
        [Call.block_rq_issue ⟨8, 1024⟩ 0 ⟨1, 0, 0, true⟩,
         Call.block_rq_complete ⟨8, 1024⟩ 0 ⟨1, 600000, 600001, true⟩,
         Call.sched_stat_wait ⟨5, 60000⟩ ⟨1, 700000, 0, true⟩,
         Call.sched_stat_wait ⟨5, 40000⟩ ⟨1, 800000, 0, true⟩,
         Call.tcp_retransmit_skb ⟨4000, 443⟩ ⟨1, 900000, 0, true⟩]).llm_slo_events.map
      (fun e => (e.signal_type, e.value_ns)) = [(7, 600000), (6, 60000), (2, 1)] :=
  ⟨by decide, rfl,
   published_records_meet_threshold ⟨7, 8, 9⟩ (by decide) State.empty rfl _,
   by decide⟩

/-! ## Last write wins -/

/-- Last write wins under one map key: when the begin handler runs twice for
key `K`, at clock readings `t0` and then `t1`, the next end handler for `K` at
`t2` gives the very result it gives when the first begin never ran (so nothing
depends on `t0` or on the auxiliary data of the first begin); a record it
appends has `value_ns = t2 - t1` modulo `2^64`; and from a store with room for
`K`, with a successful reservation and `t2 - t1` at or above the threshold, it
does append one record, with `value_ns = t2 - t1`.  For disk I/O the map key is
the whole of `struct blk_key`: the result is for two issues and a completion
whose keys hold the same padding bytes `pad`.  The other case is in the section
on the padding bytes of the key. -/
theorem second_begin_wins (c : SignalCodes) (s : State) (K t0 t1 t2 a0 a1 ts : Nat)
    (p0 p1 p2 : Nat) (r0 r1 r2 : Bool) (sk0 sk1 sk2 : sock) (ret : Int)
    (ctx : trace_event_raw_block_rq_completion) (pad : Nat) :
    -- connect
    (exit_connect ret ⟨K, t2, ts, r2⟩
        (enter_connect sk1 ⟨K, t1, a1, r1⟩ (enter_connect sk0 ⟨K, t0, a0, r0⟩ s).2).2
      = exit_connect ret ⟨K, t2, ts, r2⟩ (enter_connect sk1 ⟨K, t1, a1, r1⟩ s).2
     ∧ (∀ e, (exit_connect ret ⟨K, t2, ts, r2⟩
          (enter_connect sk1 ⟨K, t1, a1, r1⟩ (enter_connect sk0 ⟨K, t0, a0, r0⟩ s).2).2
          ).2.llm_slo_events = s.llm_slo_events ++ [e] → e.value_ns = u64_sub t2 t1)
     ∧ (HasRoom connect_inflight_max_entries s.connect_inflight K → t1 ≤ t2 → t2 < U64_MOD →
        ∃ e, (exit_connect ret ⟨K, t2, ts, true⟩
          (enter_connect sk1 ⟨K, t1, a1, r1⟩ (enter_connect sk0 ⟨K, t0, a0, r0⟩ s).2).2
          ).2.llm_slo_events = s.llm_slo_events ++ [e] ∧ e.value_ns = t2 - t1)) ∧
    -- DNS
    (bswap16 sk1.skc_dport = 53 →
     kprobe_udp_recvmsg sk2 ⟨K, t2, ts, r2⟩
        (kprobe_udp_sendmsg sk1 ⟨K, t1, a1, r1⟩ (kprobe_udp_sendmsg sk0 ⟨K, t0, a0, r0⟩ s).2).2
      = kprobe_udp_recvmsg sk2 ⟨K, t2, ts, r2⟩ (kprobe_udp_sendmsg sk1 ⟨K, t1, a1, r1⟩ s).2
     ∧ (∀ e, (kprobe_udp_recvmsg sk2 ⟨K, t2, ts, r2⟩
          (kprobe_udp_sendmsg sk1 ⟨K, t1, a1, r1⟩
            (kprobe_udp_sendmsg sk0 ⟨K, t0, a0, r0⟩ s).2).2
          ).2.llm_slo_events = s.llm_slo_events ++ [e] → e.value_ns = u64_sub t2 t1)
     ∧ (HasRoom dns_inflight_max_entries s.dns_inflight K → t1 ≤ t2 → t2 < U64_MOD →
        ∃ e, (kprobe_udp_recvmsg sk2 ⟨K, t2, ts, true⟩
          (kprobe_udp_sendmsg sk1 ⟨K, t1, a1, r1⟩
            (kprobe_udp_sendmsg sk0 ⟨K, t0, a0, r0⟩ s).2).2
          ).2.llm_slo_events = s.llm_slo_events ++ [e] ∧ e.value_ns = t2 - t1)) ∧
    -- memory reclaim
    (handle_reclaim_end c ⟨K, t2, ts, r2⟩
        (handle_reclaim_begin ⟨K, t1, a1, r1⟩ (handle_reclaim_begin ⟨K, t0, a0, r0⟩ s).2).2
      = handle_reclaim_end c ⟨K, t2, ts, r2⟩ (handle_reclaim_begin ⟨K, t1, a1, r1⟩ s).2
     ∧ (∀ e, (handle_reclaim_end c ⟨K, t2, ts, r2⟩
          (handle_reclaim_begin ⟨K, t1, a1, r1⟩ (handle_reclaim_begin ⟨K, t0, a0, r0⟩ s).2).2
          ).2.llm_slo_events = s.llm_slo_events ++ [e] → e.value_ns = u64_sub t2 t1)
     ∧ (HasRoom reclaim_start_max_entries s.reclaim_start K → t1 ≤ t2 → t2 < U64_MOD →
        10000 ≤ t2 - t1 →
        ∃ e, (handle_reclaim_end c ⟨K, t2, ts, true⟩
          (handle_reclaim_begin ⟨K, t1, a1, r1⟩ (handle_reclaim_begin ⟨K, t0, a0, r0⟩ s).2).2
          ).2.llm_slo_events = s.llm_slo_events ++ [e] ∧ e.value_ns = t2 - t1)) ∧
    -- syscall
    (handle_return c ⟨K, t2, ts, r2⟩
        (handle_entry ⟨K, t1, a1, r1⟩ (handle_entry ⟨K, t0, a0, r0⟩ s).2).2
      = handle_return c ⟨K, t2, ts, r2⟩ (handle_entry ⟨K, t1, a1, r1⟩ s).2
     ∧ (∀ e, (handle_return c ⟨K, t2, ts, r2⟩
          (handle_entry ⟨K, t1, a1, r1⟩ (handle_entry ⟨K, t0, a0, r0⟩ s).2).2
          ).2.llm_slo_events = s.llm_slo_events ++ [e] → e.value_ns = u64_sub t2 t1)
     ∧ (HasRoom syscall_start_max_entries s.syscall_start K → t1 ≤ t2 → t2 < U64_MOD →
        1000000 ≤ t2 - t1 →
        ∃ e, (handle_return c ⟨K, t2, ts, true⟩
          (handle_entry ⟨K, t1, a1, r1⟩ (handle_entry ⟨K, t0, a0, r0⟩ s).2).2
          ).2.llm_slo_events = s.llm_slo_events ++ [e] ∧ e.value_ns = t2 - t1)) ∧
    -- TLS
    (uretprobe_ssl_do_handshake ret ⟨K, t2, ts, r2⟩
        (uprobe_ssl_do_handshake ⟨K, t1, a1, r1⟩
          (uprobe_ssl_do_handshake ⟨K, t0, a0, r0⟩ s).2).2
      = uretprobe_ssl_do_handshake ret ⟨K, t2, ts, r2⟩
          (uprobe_ssl_do_handshake ⟨K, t1, a1, r1⟩ s).2
     ∧ (∀ e, (uretprobe_ssl_do_handshake ret ⟨K, t2, ts, r2⟩
          (uprobe_ssl_do_handshake ⟨K, t1, a1, r1⟩
            (uprobe_ssl_do_handshake ⟨K, t0, a0, r0⟩ s).2).2
          ).2.llm_slo_events = s.llm_slo_events ++ [e] → e.value_ns = u64_sub t2 t1)
     ∧ (HasRoom tls_start_max_entries s.tls_start K → t1 ≤ t2 → t2 < U64_MOD →
        ∃ e, (uretprobe_ssl_do_handshake ret ⟨K, t2, ts, true⟩
          (uprobe_ssl_do_handshake ⟨K, t1, a1, r1⟩
            (uprobe_ssl_do_handshake ⟨K, t0, a0, r0⟩ s).2).2
          ).2.llm_slo_events = s.llm_slo_events ++ [e] ∧ e.value_ns = t2 - t1)) ∧
    -- disk I/O
    (handle_block_rq_complete c ctx pad ⟨p2, t2, ts, r2⟩
        (handle_block_rq_issue ctx pad ⟨p1, t1, a1, r1⟩
          (handle_block_rq_issue ctx pad ⟨p0, t0, a0, r0⟩ s).2).2
      = handle_block_rq_complete c ctx pad ⟨p2, t2, ts, r2⟩
          (handle_block_rq_issue ctx pad ⟨p1, t1, a1, r1⟩ s).2
     ∧ (∀ e, (handle_block_rq_complete c ctx pad ⟨p2, t2, ts, r2⟩
          (handle_block_rq_issue ctx pad ⟨p1, t1, a1, r1⟩
            (handle_block_rq_issue ctx pad ⟨p0, t0, a0, r0⟩ s).2).2
          ).2.llm_slo_events = s.llm_slo_events ++ [e] → e.value_ns = u64_sub t2 t1)
     ∧ (HasRoom blk_start_max_entries s.blk_start ⟨ctx.dev, pad, ctx.sector⟩ → t1 ≤ t2 →
        t2 < U64_MOD → 500000 ≤ t2 - t1 →
        ∃ e, (handle_block_rq_complete c ctx pad ⟨p2, t2, ts, true⟩
          (handle_block_rq_issue ctx pad ⟨p1, t1, a1, r1⟩
            (handle_block_rq_issue ctx pad ⟨p0, t0, a0, r0⟩ s).2).2
          ).2.llm_slo_events = s.llm_slo_events ++ [e] ∧ e.value_ns = t2 - t1)) ∧
    -- run-queue delay
    (handle_sched_switch ⟨K⟩ ⟨p2, t2, ts, r2⟩
        (record_wakeup K ⟨p1, t1, a1, r1⟩ (record_wakeup K ⟨p0, t0, a0, r0⟩ s).2).2
      = handle_sched_switch ⟨K⟩ ⟨p2, t2, ts, r2⟩ (record_wakeup K ⟨p1, t1, a1, r1⟩ s).2
     ∧ (∀ e, (handle_sched_switch ⟨K⟩ ⟨p2, t2, ts, r2⟩
          (record_wakeup K ⟨p1, t1, a1, r1⟩ (record_wakeup K ⟨p0, t0, a0, r0⟩ s).2).2
          ).2.llm_slo_events = s.llm_slo_events ++ [e] → e.value_ns = u64_sub t2 t1)
     ∧ (HasRoom runq_enqueue_max_entries s.runq_enqueue K → t1 ≤ t2 → t2 < U64_MOD →
        100000 ≤ t2 - t1 →
        ∃ e, (handle_sched_switch ⟨K⟩ ⟨p2, t2, ts, true⟩
          (record_wakeup K ⟨p1, t1, a1, r1⟩ (record_wakeup K ⟨p0, t0, a0, r0⟩ s).2).2
          ).2.llm_slo_events = s.llm_slo_events ++ [e] ∧ e.value_ns = t2 - t1)) := by
  refine ⟨⟨?_, ?_, ?_⟩, ?_, ⟨?_, ?_, ?_⟩, ⟨?_, ?_, ?_⟩, ⟨?_, ?_, ?_⟩, ⟨?_, ?_, ?_⟩,
    ⟨?_, ?_, ?_⟩⟩
  · simp [exit_connect, enter_connect, update_update]
  · intro e h
    by_cases hroom : HasRoom connect_inflight_max_entries s.connect_inflight K <;>
    cases r2 <;>
    simp [exit_connect, enter_connect, update_update, lookup_update_eq, hroom,
      bpf_ringbuf_reserve, bpf_ringbuf_submit] at h
    exact h ▸ rfl
  · intro hroom h12 hb
    simp [exit_connect, enter_connect, update_update, lookup_update_eq, hroom,
      bpf_ringbuf_reserve, bpf_ringbuf_submit, u64_sub_of_le h12 hb]
  · intro hp
    refine ⟨?_, ?_, ?_⟩
    · by_cases hp0 : bswap16 sk0.skc_dport = 53 <;>
      simp [kprobe_udp_recvmsg, kprobe_udp_sendmsg, update_update, hp, hp0]
    · intro e h
      by_cases hp0 : bswap16 sk0.skc_dport = 53 <;>
      by_cases hroom : HasRoom dns_inflight_max_entries s.dns_inflight K <;>
      cases r2 <;>
      simp [kprobe_udp_recvmsg, kprobe_udp_sendmsg, update_update, lookup_update_eq, hroom,
        hp, hp0, bpf_ringbuf_reserve, bpf_ringbuf_submit] at h
      all_goals exact h ▸ rfl
    · intro hroom h12 hb
      by_cases hp0 : bswap16 sk0.skc_dport = 53 <;>
      simp [kprobe_udp_recvmsg, kprobe_udp_sendmsg, update_update, lookup_update_eq, hroom,
        hp, hp0, bpf_ringbuf_reserve, bpf_ringbuf_submit, u64_sub_of_le h12 hb]
  · simp [handle_reclaim_end, handle_reclaim_begin, update_update]
  · intro e h
    by_cases hroom : HasRoom reclaim_start_max_entries s.reclaim_start K <;>
    by_cases hlow : u64_sub t2 t1 < 10000 <;>
    cases r2 <;>
    simp [handle_reclaim_end, handle_reclaim_begin, update_update, lookup_update_eq, hroom,
      bpf_ringbuf_reserve, bpf_ringbuf_submit, hlow] at h
    exact h ▸ rfl
  · intro hroom h12 hb hthr
    simp [handle_reclaim_end, handle_reclaim_begin, update_update, lookup_update_eq, hroom,
      bpf_ringbuf_reserve, bpf_ringbuf_submit, u64_sub_of_le h12 hb,
      not_lt.mpr hthr]
  · simp [handle_return, handle_entry, update_update]
  · intro e h
    by_cases hroom : HasRoom syscall_start_max_entries s.syscall_start K <;>
    by_cases hlow : u64_sub t2 t1 < 1000000 <;>
    cases r2 <;>
    simp [handle_return, handle_entry, update_update, lookup_update_eq, hroom,
      bpf_ringbuf_reserve, bpf_ringbuf_submit, hlow] at h
    exact h ▸ rfl
  · intro hroom h12 hb hthr
    simp [handle_return, handle_entry, update_update, lookup_update_eq, hroom,
      bpf_ringbuf_reserve, bpf_ringbuf_submit, u64_sub_of_le h12 hb,
      not_lt.mpr hthr]
  · simp [uretprobe_ssl_do_handshake, uprobe_ssl_do_handshake, update_update]
  · intro e h
    by_cases hroom : HasRoom tls_start_max_entries s.tls_start K <;>
    cases r2 <;>
    simp [uretprobe_ssl_do_handshake, uprobe_ssl_do_handshake, update_update, lookup_update_eq, hroom,
      bpf_ringbuf_reserve, bpf_ringbuf_submit] at h
    exact h ▸ rfl
  · intro hroom h12 hb
    simp [uretprobe_ssl_do_handshake, uprobe_ssl_do_handshake, update_update, lookup_update_eq, hroom,
      bpf_ringbuf_reserve, bpf_ringbuf_submit, u64_sub_of_le h12 hb]
  · simp [handle_block_rq_complete, handle_block_rq_issue, update_update]
  · intro e h
    by_cases hroom : HasRoom blk_start_max_entries s.blk_start ⟨ctx.dev, pad, ctx.sector⟩ <;>
    by_cases hlow : u64_sub t2 t1 < 500000 <;>
    cases r2 <;>
    simp [handle_block_rq_complete, handle_block_rq_issue, update_update, lookup_update_eq, hroom,
      bpf_ringbuf_reserve, bpf_ringbuf_submit, hlow] at h
    exact h ▸ rfl
  · intro hroom h12 hb hthr
    simp [handle_block_rq_complete, handle_block_rq_issue, update_update, lookup_update_eq, hroom,
      bpf_ringbuf_reserve, bpf_ringbuf_submit, u64_sub_of_le h12 hb,
      not_lt.mpr hthr]
  · simp [handle_sched_switch, record_wakeup, update_update]
  · intro e h
    by_cases hroom : HasRoom runq_enqueue_max_entries s.runq_enqueue K <;>
    by_cases hlow : u64_sub t2 t1 < 100000 <;>
    cases r2 <;>
    simp [handle_sched_switch, record_wakeup, update_update, lookup_update_eq, hroom,
      bpf_ringbuf_reserve, bpf_ringbuf_submit, hlow] at h
    exact h ▸ rfl
  · intro hroom h12 hb hthr
    simp [handle_sched_switch, record_wakeup, update_update, lookup_update_eq, hroom,
      bpf_ringbuf_reserve, bpf_ringbuf_submit, u64_sub_of_le h12 hb,
      not_lt.mpr hthr]

theorem second_begin_wins_witness :
    HasRoom connect_inflight_max_entries State.empty.connect_inflight 7 ∧
    (100 : Nat) ≤ 350 ∧ 350 < U64_MOD ∧
    (∃ e, (exit_connect 0 ⟨7, 350, 351, true⟩
        (enter_connect ⟨47873, 16777343, 40000⟩ ⟨7, 100, 0, true⟩
          (enter_connect ⟨20480, 33554559, 50000⟩ ⟨7, 5, 0, true⟩ State.empty).2).2
        ).2.llm_slo_events = State.empty.llm_slo_events ++ [e] ∧ e.value_ns = 350 - 100) ∧
    (exit_connect 0 ⟨7, 350, 351, true⟩
        (enter_connect ⟨47873, 16777343, 40000⟩ ⟨7, 100, 0, true⟩
          (enter_connect ⟨20480, 33554559, 50000⟩ ⟨7, 5, 0, true⟩ State.empty).2).2
        ).2.llm_slo_events = [⟨0, 7, 351, 4, 250, 40000, 443, 16777343, 0⟩] :=
  ⟨by decide, by decide, by decide,
   (second_begin_wins ⟨7, 8, 9⟩ State.empty 7 5 100 350 0 0 351 0 0 0 true true true
      ⟨20480, 33554559, 50000⟩ ⟨47873, 16777343, 40000⟩ ⟨0, 0, 0⟩ 0 ⟨8, 1024⟩ 0).1.2.2
      (by decide) (by decide) (by decide),
   by decide⟩

/-! ## End without begin -/

theorem exit_connect_of_absent (ret : Int) (env : KernelEnv) (s : State)
    (h : bpf_map_lookup_elem s.connect_inflight env.pid_tgid = none) :
    exit_connect ret env s = (0, s) := by
  simp [exit_connect, h]

theorem udp_recvmsg_of_absent (sk : sock) (env : KernelEnv) (s : State)
    (h : bpf_map_lookup_elem s.dns_inflight env.pid_tgid = none) :
    kprobe_udp_recvmsg sk env s = (0, s) := by
  simp [kprobe_udp_recvmsg, h]

theorem reclaim_end_of_absent (c : SignalCodes) (env : KernelEnv) (s : State)
    (h : bpf_map_lookup_elem s.reclaim_start env.pid_tgid = none) :
    handle_reclaim_end c env s = (0, s) := by
  simp [handle_reclaim_end, h]

theorem handle_return_of_absent (c : SignalCodes) (env : KernelEnv) (s : State)
    (h : bpf_map_lookup_elem s.syscall_start env.pid_tgid = none) :
    handle_return c env s = (0, s) := by
  simp [handle_return, h]

theorem ssl_return_of_absent (ret : Int) (env : KernelEnv) (s : State)
    (h : bpf_map_lookup_elem s.tls_start env.pid_tgid = none) :
    uretprobe_ssl_do_handshake ret env s = (0, s) := by
  simp [uretprobe_ssl_do_handshake, h]

theorem block_rq_complete_of_absent (c : SignalCodes)
    (ctx : trace_event_raw_block_rq_completion) (pad : Nat) (env : KernelEnv) (s : State)
    (h : bpf_map_lookup_elem s.blk_start ⟨ctx.dev, pad, ctx.sector⟩ = none) :
    handle_block_rq_complete c ctx pad env s = (0, s) := by
  simp [handle_block_rq_complete, h]

theorem sched_switch_of_absent (ctx : trace_event_raw_sched_switch) (env : KernelEnv)
    (s : State) (h : bpf_map_lookup_elem s.runq_enqueue ctx.next_pid = none) :
    handle_sched_switch ctx env s = (0, s) := by
  simp [handle_sched_switch, h]

/-- C4: for each of the seven begin/end signals, an end handler that runs for a
key absent from the store of its signal returns 0 and leaves the whole state as
it was: every store, the channel, and the count of reservations. -/
theorem end_without_entry_is_noop (c : SignalCodes) (s : State) (env : KernelEnv)
    (ret : Int) (sk : sock) (ctx : trace_event_raw_block_rq_completion) (pad : Nat)
    (sw : trace_event_raw_sched_switch) :
    (bpf_map_lookup_elem s.connect_inflight env.pid_tgid = none →
      exit_connect ret env s = (0, s)) ∧
    (bpf_map_lookup_elem s.dns_inflight env.pid_tgid = none →
      kprobe_udp_recvmsg sk env s = (0, s)) ∧
    (bpf_map_lookup_elem s.reclaim_start env.pid_tgid = none →
      handle_reclaim_end c env s = (0, s)) ∧
    (bpf_map_lookup_elem s.syscall_start env.pid_tgid = none →
      handle_return c env s = (0, s)) ∧
    (bpf_map_lookup_elem s.tls_start env.pid_tgid = none →
      uretprobe_ssl_do_handshake ret env s = (0, s)) ∧
    (bpf_map_lookup_elem s.blk_start ⟨ctx.dev, pad, ctx.sector⟩ = none →
      handle_block_rq_complete c ctx pad env s = (0, s)) ∧
    (bpf_map_lookup_elem s.runq_enqueue sw.next_pid = none →
      handle_sched_switch sw env s = (0, s)) := by
  exact ⟨exit_connect_of_absent ret env s, udp_recvmsg_of_absent sk env s,
    reclaim_end_of_absent c env s, handle_return_of_absent c env s,
    ssl_return_of_absent ret env s, block_rq_complete_of_absent c ctx pad env s,
    sched_switch_of_absent sw env s⟩

theorem end_without_entry_is_noop_witness :
    bpf_map_lookup_elem
        (handle_block_rq_issue ⟨8, 1024⟩ 0 ⟨1, 0, 0, true⟩ State.empty).2.tls_start 42 = none ∧
    uretprobe_ssl_do_handshake 1 ⟨42, 900, 901, true⟩
        (handle_block_rq_issue ⟨8, 1024⟩ 0 ⟨1, 0, 0, true⟩ State.empty).2
      = (0, (handle_block_rq_issue ⟨8, 1024⟩ 0 ⟨1, 0, 0, true⟩ State.empty).2) :=
  ⟨by decide,
   (end_without_entry_is_noop ⟨7, 8, 9⟩
      (handle_block_rq_issue ⟨8, 1024⟩ 0 ⟨1, 0, 0, true⟩ State.empty).2 ⟨42, 900, 901, true⟩ 1
      ⟨0, 0, 0⟩ ⟨8, 2048⟩ 0 ⟨3⟩).2.2.2.2.1 (by decide)⟩

/-! ## The entry is consumed on every path -/

theorem exit_connect_absent (ret : Int) (env : KernelEnv) (s : State) :
    bpf_map_lookup_elem (exit_connect ret env s).2.connect_inflight env.pid_tgid = none := by
  cases h : bpf_map_lookup_elem s.connect_inflight env.pid_tgid with
  | none => simp [exit_connect, h]
  | some v =>
    by_cases hr : env.reserve_ok = false <;>
    simp [exit_connect, h, hr, lookup_delete_self, bpf_ringbuf_reserve, bpf_ringbuf_submit]

theorem udp_recvmsg_absent (sk : sock) (env : KernelEnv) (s : State) :
    bpf_map_lookup_elem (kprobe_udp_recvmsg sk env s).2.dns_inflight env.pid_tgid = none := by
  cases h : bpf_map_lookup_elem s.dns_inflight env.pid_tgid with
  | none => simp [kprobe_udp_recvmsg, h]
  | some v =>
    by_cases hr : env.reserve_ok = false <;>
    simp [kprobe_udp_recvmsg, h, hr, lookup_delete_self, bpf_ringbuf_reserve, bpf_ringbuf_submit]

theorem reclaim_end_absent (c : SignalCodes) (env : KernelEnv) (s : State) :
    bpf_map_lookup_elem (handle_reclaim_end c env s).2.reclaim_start env.pid_tgid = none := by
  cases h : bpf_map_lookup_elem s.reclaim_start env.pid_tgid with
  | none => simp [handle_reclaim_end, h]
  | some v =>
    by_cases hlow : u64_sub env.ktime v < 10000 <;>
    by_cases hr : env.reserve_ok = false <;>
    simp [handle_reclaim_end, h, hr, hlow, lookup_delete_self, bpf_ringbuf_reserve, bpf_ringbuf_submit]

theorem handle_return_absent (c : SignalCodes) (env : KernelEnv) (s : State) :
    bpf_map_lookup_elem (handle_return c env s).2.syscall_start env.pid_tgid = none := by
  cases h : bpf_map_lookup_elem s.syscall_start env.pid_tgid with
  | none => simp [handle_return, h]
  | some v =>
    by_cases hlow : u64_sub env.ktime v < 1000000 <;>
    by_cases hr : env.reserve_ok = false <;>
    simp [handle_return, h, hr, hlow, lookup_delete_self, bpf_ringbuf_reserve, bpf_ringbuf_submit]

theorem ssl_return_absent (ret : Int) (env : KernelEnv) (s : State) :
    bpf_map_lookup_elem (uretprobe_ssl_do_handshake ret env s).2.tls_start env.pid_tgid = none := by
  cases h : bpf_map_lookup_elem s.tls_start env.pid_tgid with
  | none => simp [uretprobe_ssl_do_handshake, h]
  | some v =>
    by_cases hr : env.reserve_ok = false <;>
    simp [uretprobe_ssl_do_handshake, h, hr, lookup_delete_self, bpf_ringbuf_reserve, bpf_ringbuf_submit]

theorem block_rq_complete_absent (c : SignalCodes) (ctx : trace_event_raw_block_rq_completion) (pad : Nat)
    (env : KernelEnv) (s : State) :
    bpf_map_lookup_elem (handle_block_rq_complete c ctx pad env s).2.blk_start ⟨ctx.dev, pad, ctx.sector⟩ = none := by
  cases h : bpf_map_lookup_elem s.blk_start ⟨ctx.dev, pad, ctx.sector⟩ with
  | none => simp [handle_block_rq_complete, h]
  | some v =>
    by_cases hlow : u64_sub env.ktime v < 500000 <;>
    by_cases hr : env.reserve_ok = false <;>
    simp [handle_block_rq_complete, h, hr, hlow, lookup_delete_self, bpf_ringbuf_reserve, bpf_ringbuf_submit]

theorem sched_switch_absent (ctx : trace_event_raw_sched_switch) (env : KernelEnv)
    (s : State) :
    bpf_map_lookup_elem (handle_sched_switch ctx env s).2.runq_enqueue ctx.next_pid = none := by
  cases h : bpf_map_lookup_elem s.runq_enqueue ctx.next_pid with
  | none => simp [handle_sched_switch, h]
  | some v =>
    by_cases hlow : u64_sub env.ktime v < 100000 <;>
    by_cases hr : env.reserve_ok = false <;>
    simp [handle_sched_switch, h, hr, hlow, lookup_delete_self, bpf_ringbuf_reserve, bpf_ringbuf_submit]

/-- The end handler consumes the entry under its own map key: for each of the
seven begin/end signals and every key, after the end handler has run for the
key, the key is absent from the store, for every clock reading (record
published or discarded by the threshold) and every reservation outcome; and a
second end for the same key right after the first is a no-op, so it publishes
nothing.  For disk I/O the map key is the whole of `struct blk_key`: what is
absent is the entry under the device, sector and padding bytes `pad` of the
completion, and the second completion has the same padding bytes.  The other
case is in the section on the padding bytes of the key. -/
theorem end_consumes_entry (c : SignalCodes) (s : State) (K : Nat) (env env2 : KernelEnv)
    (ret ret2 : Int) (sk sk2 : sock) (ctx : trace_event_raw_block_rq_completion) (pad : Nat) :
    (bpf_map_lookup_elem
        (exit_connect ret { env with pid_tgid := K } s).2.connect_inflight K = none ∧
      exit_connect ret2 { env2 with pid_tgid := K }
          (exit_connect ret { env with pid_tgid := K } s).2
        = (0, (exit_connect ret { env with pid_tgid := K } s).2)) ∧
    (bpf_map_lookup_elem
        (kprobe_udp_recvmsg sk { env with pid_tgid := K } s).2.dns_inflight K = none ∧
      kprobe_udp_recvmsg sk2 { env2 with pid_tgid := K }
          (kprobe_udp_recvmsg sk { env with pid_tgid := K } s).2
        = (0, (kprobe_udp_recvmsg sk { env with pid_tgid := K } s).2)) ∧
    (bpf_map_lookup_elem
        (handle_reclaim_end c { env with pid_tgid := K } s).2.reclaim_start K = none ∧
      handle_reclaim_end c { env2 with pid_tgid := K }
          (handle_reclaim_end c { env with pid_tgid := K } s).2
        = (0, (handle_reclaim_end c { env with pid_tgid := K } s).2)) ∧
    (bpf_map_lookup_elem
        (handle_return c { env with pid_tgid := K } s).2.syscall_start K = none ∧
      handle_return c { env2 with pid_tgid := K }
          (handle_return c { env with pid_tgid := K } s).2
        = (0, (handle_return c { env with pid_tgid := K } s).2)) ∧
    (bpf_map_lookup_elem
        (uretprobe_ssl_do_handshake ret { env with pid_tgid := K } s).2.tls_start K = none ∧
      uretprobe_ssl_do_handshake ret2 { env2 with pid_tgid := K }
          (uretprobe_ssl_do_handshake ret { env with pid_tgid := K } s).2
        = (0, (uretprobe_ssl_do_handshake ret { env with pid_tgid := K } s).2)) ∧
    (bpf_map_lookup_elem
        (handle_block_rq_complete c ctx pad env s).2.blk_start ⟨ctx.dev, pad, ctx.sector⟩ = none ∧
      handle_block_rq_complete c ctx pad env2 (handle_block_rq_complete c ctx pad env s).2
        = (0, (handle_block_rq_complete c ctx pad env s).2)) ∧
    (bpf_map_lookup_elem (handle_sched_switch ⟨K⟩ env s).2.runq_enqueue K = none ∧
      handle_sched_switch ⟨K⟩ env2 (handle_sched_switch ⟨K⟩ env s).2
        = (0, (handle_sched_switch ⟨K⟩ env s).2)) := by
  have h1 := exit_connect_absent ret { env with pid_tgid := K } s
  have h2 := udp_recvmsg_absent sk { env with pid_tgid := K } s
  have h3 := reclaim_end_absent c { env with pid_tgid := K } s
  have h4 := handle_return_absent c { env with pid_tgid := K } s
  have h5 := ssl_return_absent ret { env with pid_tgid := K } s
  have h6 := block_rq_complete_absent c ctx pad env s
  have h7 := sched_switch_absent ⟨K⟩ env s
  exact ⟨⟨h1, exit_connect_of_absent _ _ _ h1⟩, ⟨h2, udp_recvmsg_of_absent _ _ _ h2⟩,
    ⟨h3, reclaim_end_of_absent _ _ _ h3⟩, ⟨h4, handle_return_of_absent _ _ _ h4⟩,
    ⟨h5, ssl_return_of_absent _ _ _ h5⟩, ⟨h6, block_rq_complete_of_absent _ _ _ _ _ h6⟩,
    ⟨h7, sched_switch_of_absent _ _ _ h7⟩⟩

/-! ## Below the threshold -/

/-- C6: for disk I/O, memory reclaim, run-queue delay and syscall latency, when
the end handler finds an entry for the key and the elapsed time is below the
threshold of the signal, it returns 0, attempts no reservation, leaves the
channel as it was and removes the entry: the state changes in the store of the
signal only, and there the key is absent afterwards. -/
theorem below_threshold_consumes_without_reserving (c : SignalCodes) (s : State)
    (env : KernelEnv) (start : Nat) (ctx : trace_event_raw_block_rq_completion) (pad : Nat)
    (sw : trace_event_raw_sched_switch) :
    (bpf_map_lookup_elem s.blk_start ⟨ctx.dev, pad, ctx.sector⟩ = some start →
      u64_sub env.ktime start < 500000 →
      handle_block_rq_complete c ctx pad env s
          = (0, { s with blk_start := bpf_map_delete_elem s.blk_start ⟨ctx.dev, pad, ctx.sector⟩ })
        ∧ (handle_block_rq_complete c ctx pad env s).2.reserve_calls = s.reserve_calls
        ∧ (handle_block_rq_complete c ctx pad env s).2.llm_slo_events = s.llm_slo_events
        ∧ bpf_map_lookup_elem (handle_block_rq_complete c ctx pad env s).2.blk_start
            ⟨ctx.dev, pad, ctx.sector⟩ = none) ∧
    (bpf_map_lookup_elem s.reclaim_start env.pid_tgid = some start →
      u64_sub env.ktime start < 10000 →
      handle_reclaim_end c env s
          = (0, { s with reclaim_start := bpf_map_delete_elem s.reclaim_start env.pid_tgid })
        ∧ (handle_reclaim_end c env s).2.reserve_calls = s.reserve_calls
        ∧ (handle_reclaim_end c env s).2.llm_slo_events = s.llm_slo_events
        ∧ bpf_map_lookup_elem (handle_reclaim_end c env s).2.reclaim_start env.pid_tgid
            = none) ∧
    (bpf_map_lookup_elem s.runq_enqueue sw.next_pid = some start →
      u64_sub env.ktime start < 100000 →
      handle_sched_switch sw env s
          = (0, { s with runq_enqueue := bpf_map_delete_elem s.runq_enqueue sw.next_pid })
        ∧ (handle_sched_switch sw env s).2.reserve_calls = s.reserve_calls
        ∧ (handle_sched_switch sw env s).2.llm_slo_events = s.llm_slo_events
        ∧ bpf_map_lookup_elem (handle_sched_switch sw env s).2.runq_enqueue sw.next_pid
            = none) ∧
    (bpf_map_lookup_elem s.syscall_start env.pid_tgid = some start →
      u64_sub env.ktime start < 1000000 →
      handle_return c env s
          = (0, { s with syscall_start := bpf_map_delete_elem s.syscall_start env.pid_tgid })
        ∧ (handle_return c env s).2.reserve_calls = s.reserve_calls
        ∧ (handle_return c env s).2.llm_slo_events = s.llm_slo_events
        ∧ bpf_map_lookup_elem (handle_return c env s).2.syscall_start env.pid_tgid
            = none) := by
  refine ⟨?_, ?_, ?_, ?_⟩ <;> intro h hlow
  · simp [handle_block_rq_complete, h, hlow, lookup_delete_self]
  · simp [handle_reclaim_end, h, hlow, lookup_delete_self]
  · simp [handle_sched_switch, h, hlow, lookup_delete_self]
  · simp [handle_return, h, hlow, lookup_delete_self]

theorem below_threshold_consumes_without_reserving_witness :
    bpf_map_lookup_elem (handle_block_rq_issue ⟨8, 1024⟩ 0 ⟨1, 0, 0, true⟩ State.empty).2.blk_start
        (⟨8, 0, 1024⟩ : blk_key) = some 0 ∧
    u64_sub 200000 0 < 500000 ∧
    (handle_block_rq_complete ⟨7, 8, 9⟩ ⟨8, 1024⟩ 0 ⟨1, 200000, 200001, true⟩
        (handle_block_rq_issue ⟨8, 1024⟩ 0 ⟨1, 0, 0, true⟩ State.empty).2).2.llm_slo_events
      = (handle_block_rq_issue ⟨8, 1024⟩ 0 ⟨1, 0, 0, true⟩ State.empty).2.llm_slo_events ∧
    handle_block_rq_complete ⟨7, 8, 9⟩ ⟨8, 1024⟩ 0 ⟨1, 200000, 200001, true⟩
        (handle_block_rq_issue ⟨8, 1024⟩ 0 ⟨1, 0, 0, true⟩ State.empty).2 = (0, State.empty) :=
  ⟨by decide, by decide,
   ((below_threshold_consumes_without_reserving ⟨7, 8, 9⟩
      (handle_block_rq_issue ⟨8, 1024⟩ 0 ⟨1, 0, 0, true⟩ State.empty).2
      ⟨1, 200000, 200001, true⟩ 0 ⟨8, 1024⟩ 0 ⟨0⟩).1 (by decide) (by decide)).2.2.1,
   by decide⟩

/-! ## Signals without a threshold -/

/-- C7: for connect, DNS and TLS, whenever the end handler finds an entry for
its key and the reservation succeeds, it appends exactly one record, whatever
the elapsed time, also when the elapsed time is 0; every invocation of the TCP
retransmit handler whose reservation succeeds appends exactly one record. -/
theorem unthresholded_signals_always_report (s : State) (K t ts : Nat) (ret : Int)
    (sk : sock) (cc : connect_ctx) (sc : send_ctx) (start : Nat)
    (rx : trace_event_raw_tcp_retransmit_skb) (env : KernelEnv) :
    (bpf_map_lookup_elem s.connect_inflight K = some cc →
      ∃ e, (exit_connect ret ⟨K, t, ts, true⟩ s).2.llm_slo_events = s.llm_slo_events ++ [e]
        ∧ e.signal_type = LLM_SLO_CONNECT_LATENCY
        ∧ e.value_ns = u64_sub t cc.start_ns ∧ (cc.start_ns = t → e.value_ns = 0)) ∧
    (bpf_map_lookup_elem s.dns_inflight K = some sc →
      ∃ e, (kprobe_udp_recvmsg sk ⟨K, t, ts, true⟩ s).2.llm_slo_events
            = s.llm_slo_events ++ [e]
        ∧ e.signal_type = LLM_SLO_DNS_LATENCY
        ∧ e.value_ns = u64_sub t sc.start_ns ∧ (sc.start_ns = t → e.value_ns = 0)) ∧
    (bpf_map_lookup_elem s.tls_start K = some start →
      ∃ e, (uretprobe_ssl_do_handshake ret ⟨K, t, ts, true⟩ s).2.llm_slo_events
            = s.llm_slo_events ++ [e]
        ∧ e.signal_type = LLM_SLO_TLS_HANDSHAKE
        ∧ e.value_ns = u64_sub t start ∧ (start = t → e.value_ns = 0)) ∧
    (env.reserve_ok = true →
      ∃ e, (handle_tcp_retransmit rx env s).2.llm_slo_events = s.llm_slo_events ++ [e]
        ∧ e.signal_type = LLM_SLO_TCP_RETRANSMIT) := by
  refine ⟨?_, ?_, ?_, ?_⟩ <;> intro h
  · simp only [exit_connect, h, bpf_ringbuf_reserve, bpf_ringbuf_submit]
    exact ⟨_, rfl, rfl, rfl, fun h0 => by rw [h0]; exact u64_sub_self t⟩
  · simp only [kprobe_udp_recvmsg, h, bpf_ringbuf_reserve, bpf_ringbuf_submit]
    exact ⟨_, rfl, rfl, rfl, fun h0 => by rw [h0]; exact u64_sub_self t⟩
  · simp only [uretprobe_ssl_do_handshake, h, bpf_ringbuf_reserve, bpf_ringbuf_submit]
    exact ⟨_, rfl, rfl, rfl, fun h0 => by rw [h0]; exact u64_sub_self t⟩
  · simp only [handle_tcp_retransmit, h, bpf_ringbuf_reserve, bpf_ringbuf_submit]
    exact ⟨_, rfl, rfl⟩

theorem unthresholded_signals_always_report_witness :
    bpf_map_lookup_elem (uprobe_ssl_do_handshake ⟨7, 500, 0, true⟩ State.empty).2.tls_start 7
      = some 500 ∧
    (∃ e, (uretprobe_ssl_do_handshake 1 ⟨7, 500, 501, true⟩
            (uprobe_ssl_do_handshake ⟨7, 500, 0, true⟩ State.empty).2).2.llm_slo_events
          = (uprobe_ssl_do_handshake ⟨7, 500, 0, true⟩ State.empty).2.llm_slo_events ++ [e]
        ∧ e.signal_type = LLM_SLO_TLS_HANDSHAKE
        ∧ e.value_ns = u64_sub 500 500 ∧ ((500 : Nat) = 500 → e.value_ns = 0)) ∧
    (uretprobe_ssl_do_handshake 1 ⟨7, 500, 501, true⟩
        (uprobe_ssl_do_handshake ⟨7, 500, 0, true⟩ State.empty).2).2.llm_slo_events
      = [⟨0, 7, 501, 5, 0, 0, 443, 0, 0⟩] :=
  ⟨by decide,
   (unthresholded_signals_always_report
      (uprobe_ssl_do_handshake ⟨7, 500, 0, true⟩ State.empty).2 7 500 501 1 ⟨0, 0, 0⟩
      ⟨0, 0, 0, 0⟩ ⟨0, 0, 0, 0⟩ 500 ⟨0, 0⟩ ⟨0, 0, 0, true⟩).2.2.1 (by decide),
   by decide⟩

/-! ## TCP retransmit -/

/-- C8: `n` consecutive invocations of the retransmit handler whose
reservations succeed append exactly `n` records, in the order of the
invocations; the record of an invocation is built from the inputs of that
invocation alone, with discriminator 2, `value_ns = 1`, the ports of the event,
`conn_dst_ip = 0` and `errno_val = 0`; every correlation store is left as it
was. -/
theorem tcp_retransmit_counts_each_event (c : SignalCodes)
    (xs : List (trace_event_raw_tcp_retransmit_skb × KernelEnv))
    (hok : ∀ x ∈ xs, x.2.reserve_ok = true) (s : State) :
    run c s (xs.map (fun x => Call.tcp_retransmit_skb x.1 x.2))
      = { s with
          llm_slo_events := s.llm_slo_events ++ xs.map (fun x =>
            ({ pid := x.2.pid_tgid / 4294967296
               tid := x.2.pid_tgid % 4294967296
               timestamp_ns := x.2.ktime
               signal_type := 2
               value_ns := 1
               conn_src_port := x.1.sport
               conn_dst_port := x.1.dport
               conn_dst_ip := 0
               errno_val := 0 } : llm_slo_event))
          reserve_calls := s.reserve_calls + xs.length }
    ∧ (run c s (xs.map (fun x => Call.tcp_retransmit_skb x.1 x.2))).llm_slo_events.length
        = s.llm_slo_events.length + xs.length := by
  induction xs generalizing s with
  | nil => simp [run]
  | cons x rest ih =>
    have hx : x.2.reserve_ok = true := hok x (List.mem_cons_self x rest)
    have hrest : ∀ y ∈ rest, y.2.reserve_ok = true :=
      fun y hy => hok y (List.mem_cons_of_mem x hy)
    have hstep : run c s ((x :: rest).map (fun x => Call.tcp_retransmit_skb x.1 x.2))
        = run c (handle_tcp_retransmit x.1 x.2 s).2
            (rest.map (fun x => Call.tcp_retransmit_skb x.1 x.2)) := rfl
    rw [hstep]
    obtain ⟨h1, h2⟩ := ih hrest (handle_tcp_retransmit x.1 x.2 s).2
    refine ⟨?_, ?_⟩
    · rw [h1]
      simp [handle_tcp_retransmit, hx, bpf_ringbuf_reserve, bpf_ringbuf_submit,
        LLM_SLO_TCP_RETRANSMIT, Nat.add_assoc, Nat.add_comm 1]
    · rw [h2]
      simp [handle_tcp_retransmit, hx, bpf_ringbuf_reserve, bpf_ringbuf_submit,
        Nat.add_assoc, Nat.add_comm 1]

theorem tcp_retransmit_counts_each_event_witness :
    (∀ x ∈ [((⟨40000, 443⟩ : trace_event_raw_tcp_retransmit_skb), (⟨7, 10, 0, true⟩ : KernelEnv)),
            (⟨40001, 443⟩, ⟨7, 20, 0, true⟩), (⟨40002, 80⟩, ⟨8, 30, 0, true⟩)],
        x.2.reserve_ok = true) ∧
    (run ⟨7, 8, 9⟩ State.empty
        ([((⟨40000, 443⟩ : trace_event_raw_tcp_retransmit_skb), (⟨7, 10, 0, true⟩ : KernelEnv)),
          (⟨40001, 443⟩, ⟨7, 20, 0, true⟩), (⟨40002, 80⟩, ⟨8, 30, 0, true⟩)].map
          (fun x => Call.tcp_retransmit_skb x.1 x.2))).llm_slo_events.length
      = State.empty.llm_slo_events.length + 3 ∧
    (run ⟨7, 8, 9⟩ State.empty
        [Call.tcp_retransmit_skb ⟨40000, 443⟩ ⟨7, 10, 0, true⟩,
         Call.tcp_retransmit_skb ⟨40001, 443⟩ ⟨7, 20, 0, true⟩,
         Call.tcp_retransmit_skb ⟨40002, 80⟩ ⟨8, 30, 0, true⟩])
      = { State.empty with
          llm_slo_events := [⟨0, 7, 10, 2, 1, 40000, 443, 0, 0⟩, ⟨0, 7, 20, 2, 1, 40001, 443, 0, 0⟩,
                             ⟨0, 8, 30, 2, 1, 40002, 80, 0, 0⟩]
          reserve_calls := 3 } :=
  ⟨by decide,
   (tcp_retransmit_counts_each_event ⟨7, 8, 9⟩
      [(⟨40000, 443⟩, ⟨7, 10, 0, true⟩), (⟨40001, 443⟩, ⟨7, 20, 0, true⟩),
       (⟨40002, 80⟩, ⟨8, 30, 0, true⟩)] (by decide) State.empty).2,
   by decide⟩

/-! ## DNS -/

/-- C9: the DNS end handler gives the same result for every socket it is
triggered on, so its result is decided by the task id, the clock, the
reservation outcome and the state alone; and for a task with an in-flight DNS
entry started at `t0`, a UDP receive on that task at `t1` whose reservation
succeeds appends one DNS record with `value_ns = t1 - t0` (modulo `2^64`, the
plain difference when `t0 ≤ t1`) and removes the entry. -/
theorem dns_end_not_filtered_by_port (s : State) (sk sk2 : sock) (env : KernelEnv)
    (sc : send_ctx) :
    kprobe_udp_recvmsg sk env s = kprobe_udp_recvmsg sk2 env s ∧
    (bpf_map_lookup_elem s.dns_inflight env.pid_tgid = some sc → env.reserve_ok = true →
      ∃ e, (kprobe_udp_recvmsg sk env s).2.llm_slo_events = s.llm_slo_events ++ [e]
        ∧ e.signal_type = LLM_SLO_DNS_LATENCY
        ∧ e.value_ns = u64_sub env.ktime sc.start_ns
        ∧ (sc.start_ns ≤ env.ktime → env.ktime < U64_MOD →
            e.value_ns = env.ktime - sc.start_ns)
        ∧ bpf_map_lookup_elem (kprobe_udp_recvmsg sk env s).2.dns_inflight env.pid_tgid
            = none) := by
  refine ⟨rfl, ?_⟩
  intro h hr
  have habs := udp_recvmsg_absent sk env s
  simp only [kprobe_udp_recvmsg, h, hr, bpf_ringbuf_reserve, bpf_ringbuf_submit] at habs ⊢
  exact ⟨_, rfl, rfl, rfl, fun h1 h2 => u64_sub_of_le h1 h2, habs⟩

theorem dns_end_not_filtered_by_port_witness :
    bpf_map_lookup_elem
        (kprobe_udp_sendmsg ⟨13568, 134744072, 40000⟩ ⟨7, 0, 0, true⟩ State.empty).2.dns_inflight
        (⟨7, 10000, 10001, true⟩ : KernelEnv).pid_tgid = some ⟨0, 53, 134744072, 40000⟩ ∧
    (⟨7, 10000, 10001, true⟩ : KernelEnv).reserve_ok = true ∧
    (∃ e, (kprobe_udp_recvmsg ⟨47873, 16777343, 5353⟩ ⟨7, 10000, 10001, true⟩
            (kprobe_udp_sendmsg ⟨13568, 134744072, 40000⟩ ⟨7, 0, 0, true⟩
              State.empty).2).2.llm_slo_events
          = (kprobe_udp_sendmsg ⟨13568, 134744072, 40000⟩ ⟨7, 0, 0, true⟩
              State.empty).2.llm_slo_events ++ [e]
        ∧ e.signal_type = LLM_SLO_DNS_LATENCY
        ∧ e.value_ns = u64_sub 10000 0
        ∧ ((0 : Nat) ≤ 10000 → 10000 < U64_MOD → e.value_ns = 10000 - 0)
        ∧ bpf_map_lookup_elem
            (kprobe_udp_recvmsg ⟨47873, 16777343, 5353⟩ ⟨7, 10000, 10001, true⟩
              (kprobe_udp_sendmsg ⟨13568, 134744072, 40000⟩ ⟨7, 0, 0, true⟩
                State.empty).2).2.dns_inflight 7 = none) ∧
    kprobe_udp_recvmsg ⟨47873, 16777343, 5353⟩ ⟨7, 10000, 10001, true⟩
        (kprobe_udp_sendmsg ⟨13568, 134744072, 40000⟩ ⟨7, 0, 0, true⟩ State.empty).2
      = (0, { State.empty with
              llm_slo_events := [⟨0, 7, 10001, 1, 10000, 40000, 53, 134744072, 0⟩]
              reserve_calls := 1 }) :=
  ⟨by decide, rfl,
   (dns_end_not_filtered_by_port
      (kprobe_udp_sendmsg ⟨13568, 134744072, 40000⟩ ⟨7, 0, 0, true⟩ State.empty).2
      ⟨47873, 16777343, 5353⟩ ⟨0, 0, 0⟩ ⟨7, 10000, 10001, true⟩
      ⟨0, 53, 134744072, 40000⟩).2 (by decide) rfl,
   by decide⟩

theorem run_append (c : SignalCodes) (s : State) (l1 l2 : List Call) :
    run c s (l1 ++ l2) = run c (run c s l1) l2 := by
  simp [run, List.foldl_append]

/-- After the first `n ≤ 8192` tasks have sent to port 53 from the empty state
the DNS store holds `n` entries, all with keys below `n`. -/
theorem dns_sends_fill_store (n : Nat) (hn : n ≤ 8192) :
    (run ⟨7, 8, 9⟩ State.empty ((List.range n).map
        (fun i => Call.udp_sendmsg ⟨13568, 0, 0⟩ ⟨i, 0, 0, true⟩))).dns_inflight.length = n ∧
    ∀ e ∈ (run ⟨7, 8, 9⟩ State.empty ((List.range n).map
        (fun i => Call.udp_sendmsg ⟨13568, 0, 0⟩ ⟨i, 0, 0, true⟩))).dns_inflight, e.1 < n := by
  induction n with
  | zero => exact ⟨rfl, fun e he => absurd he (List.not_mem_nil e)⟩
  | succ n ih =>
    obtain ⟨hlen, hkeys⟩ := ih (Nat.le_of_succ_le hn)
    have hnone := lookup_none_of_keys_ne _ n (fun e he => Nat.ne_of_lt (hkeys e he))
    have hlt : n < dns_inflight_max_entries := hn
    have hport : bswap16 13568 = 53 := by decide
    rw [List.range_succ, List.map_append, run_append]
    simp only [List.map_cons, List.map_nil, run, List.foldl_cons, List.foldl_nil, step,
      dispatch, kprobe_udp_sendmsg, hport, bpf_map_update_elem]
    simp only [run] at hnone hlen hkeys
    simp only [hnone, hlt, ne_eq, not_true_eq_false, if_false, if_true, Option.isSome_none,
      Bool.false_eq_true, List.length_cons, hlen, true_and]
    intro e he
    rcases List.mem_cons.mp he with he | he
    · rw [he]; exact Nat.lt_succ_self n
    · exact Nat.lt_succ_of_lt (hkeys e he)

theorem dns_store_full_spec :
    dns_store_full.dns_inflight.length = 8192 ∧
    ∀ e ∈ dns_store_full.dns_inflight, e.1 < 8192 :=
  dns_sends_fill_store 8192 (le_refl _)

theorem udp_sendmsg_other_port (sk : sock) (env : KernelEnv) (s : State)
    (hp : bswap16 sk.skc_dport ≠ 53) : kprobe_udp_sendmsg sk env s = (0, s) := by
  simp [kprobe_udp_sendmsg, hp]

theorem udp_sendmsg_port_53 (sk : sock) (env : KernelEnv) (s : State)
    (hp : bswap16 sk.skc_dport = 53) :
    kprobe_udp_sendmsg sk env s
      = (0, { s with
              dns_inflight :=
                bpf_map_update_elem dns_inflight_max_entries s.dns_inflight env.pid_tgid
                  ⟨env.ktime, 53, sk.skc_daddr, sk.skc_num⟩ }) := by
  simp [kprobe_udp_sendmsg, hp]

theorem udp_sendmsg_of_full (sk : sock) (env : KernelEnv) (s : State)
    (hfull : ¬ HasRoom dns_inflight_max_entries s.dns_inflight env.pid_tgid) :
    kprobe_udp_sendmsg sk env s = (0, s) := by
  by_cases hp : bswap16 sk.skc_dport = 53
  · rw [udp_sendmsg_port_53 sk env s hp, update_of_full _ _ _ _ hfull]
  · exact udp_sendmsg_other_port sk env s hp

theorem not_hasRoom_of_full {K V : Type} [DecidableEq K] (n : Nat) (m : List (K × V)) (k : K)
    (hlen : m.length = n) (hkeys : ∀ e ∈ m, e.1 ≠ k) : ¬ HasRoom n m k := by
  intro h
  rcases h with h | h
  · rw [lookup_none_of_keys_ne m k hkeys] at h
    exact absurd h (by simp)
  · rw [hlen] at h
    exact absurd h (lt_irrefl n)

/-- Counterexample to C10 as stated: with 8192 DNS sends in flight, a send to
port 53 by a further task leaves the store as it is, so no entry for that task
is set. -/
theorem dns_begin_dropped_when_store_full :
    bswap16 (⟨13568, 1, 2⟩ : sock).skc_dport = 53 ∧
    kprobe_udp_sendmsg ⟨13568, 1, 2⟩ ⟨9000, 5, 0, true⟩ dns_store_full = (0, dns_store_full) ∧
    bpf_map_lookup_elem
      (kprobe_udp_sendmsg ⟨13568, 1, 2⟩ ⟨9000, 5, 0, true⟩ dns_store_full).2.dns_inflight 9000
        = none ∧
    ¬ bpf_map_lookup_elem
      (kprobe_udp_sendmsg ⟨13568, 1, 2⟩ ⟨9000, 5, 0, true⟩ dns_store_full).2.dns_inflight 9000
        = some ⟨5, 53, 1, 2⟩ := by
  have hkeys : ∀ e ∈ dns_store_full.dns_inflight, e.1 ≠ 9000 := fun e he => by
    have := dns_store_full_spec.2 e he
    omega
  have hnone := lookup_none_of_keys_ne dns_store_full.dns_inflight 9000 hkeys
  have hfull := not_hasRoom_of_full dns_inflight_max_entries dns_store_full.dns_inflight 9000
    dns_store_full_spec.1 hkeys
  have hsame := udp_sendmsg_of_full ⟨13568, 1, 2⟩ ⟨9000, 5, 0, true⟩ dns_store_full hfull
  refine ⟨by decide, hsame, ?_, ?_⟩
  · rw [hsame]; exact hnone
  · rw [hsame, hnone]; exact fun h => Option.noConfusion h

/-- C10, amended: the DNS begin handler changes the state only when the
byte-swapped destination port is 53.  A send to any other port returns 0 and
leaves every store and the channel as they were.  A send to port 53 returns 0
and upserts `(clock, 53, destination address, source port)` under the current
task and changes nothing else: when the store holds the task already or holds
fewer than 8192 entries, the entry of the task is that value afterwards; when the
store is full and does not hold the task, the state is left as it was. -/
theorem dns_begin_only_for_port_53 (sk : sock) (env : KernelEnv) (s : State) :
    (bswap16 sk.skc_dport ≠ 53 → kprobe_udp_sendmsg sk env s = (0, s)) ∧
    (bswap16 sk.skc_dport = 53 →
      kprobe_udp_sendmsg sk env s
        = (0, { s with
                dns_inflight :=
                  bpf_map_update_elem dns_inflight_max_entries s.dns_inflight env.pid_tgid
                    ⟨env.ktime, 53, sk.skc_daddr, sk.skc_num⟩ })
      ∧ (HasRoom dns_inflight_max_entries s.dns_inflight env.pid_tgid →
          bpf_map_lookup_elem (kprobe_udp_sendmsg sk env s).2.dns_inflight env.pid_tgid
            = some ⟨env.ktime, 53, sk.skc_daddr, sk.skc_num⟩)
      ∧ (¬ HasRoom dns_inflight_max_entries s.dns_inflight env.pid_tgid →
          kprobe_udp_sendmsg sk env s = (0, s))) := by
  refine ⟨udp_sendmsg_other_port sk env s, fun hp => ⟨udp_sendmsg_port_53 sk env s hp, ?_,
    udp_sendmsg_of_full sk env s⟩⟩
  intro hroom
  rw [udp_sendmsg_port_53 sk env s hp]
  exact lookup_update_self _ _ _ _ hroom

theorem dns_begin_only_for_port_53_witness :
    bswap16 (⟨13568, 134744072, 40000⟩ : sock).skc_dport = 53 ∧
    HasRoom dns_inflight_max_entries State.empty.dns_inflight
      (⟨7, 5, 0, true⟩ : KernelEnv).pid_tgid ∧
    bpf_map_lookup_elem
        (kprobe_udp_sendmsg ⟨13568, 134744072, 40000⟩ ⟨7, 5, 0, true⟩
          State.empty).2.dns_inflight (⟨7, 5, 0, true⟩ : KernelEnv).pid_tgid
      = some ⟨5, 53, 134744072, 40000⟩ ∧
    bswap16 (⟨47873, 134744072, 40000⟩ : sock).skc_dport ≠ 53 ∧
    kprobe_udp_sendmsg ⟨47873, 134744072, 40000⟩ ⟨7, 5, 0, true⟩ State.empty
      = (0, State.empty) :=
  ⟨by decide, by decide,
   ((dns_begin_only_for_port_53 ⟨13568, 134744072, 40000⟩ ⟨7, 5, 0, true⟩ State.empty).2
      (by decide)).2.1 (by decide),
   by decide,
   (dns_begin_only_for_port_53 ⟨47873, 134744072, 40000⟩ ⟨7, 5, 0, true⟩ State.empty).1
      (by decide)⟩

/-! ## Connect: error capture -/

/-- Counterexample to C11 as stated: for the 32-bit return value `-2^31` the
published `errno_val` is `-2^31` again, which is neither `-ret` nor positive. -/
theorem connect_errno_wraps_at_int_min :
    (exit_connect (-2147483648) ⟨7, 10, 11, true⟩
        (enter_connect ⟨47873, 16777343, 40000⟩ ⟨7, 0, 0, true⟩ State.empty).2
      ).2.llm_slo_events = [⟨0, 7, 11, 4, 10, 40000, 443, 16777343, -2147483648⟩] ∧
    (-2147483648 : Int) ≠ -(-2147483648) ∧ ¬ (0 : Int) < -2147483648 := by
  decide

/-- C11, amended: for every 32-bit signed return value `ret` of the connect call
other than `-2^31`, the published connect record has `errno_val = 0` when
`ret ≥ 0` and `errno_val = -ret`, a positive number, when `ret < 0`; and for
every 32-bit `ret`, `errno_val` is non-zero exactly when `ret < 0`. -/
theorem connect_errno_capture (s : State) (K t ts : Nat) (r : Bool) (ret : Int)
    (e : llm_slo_event) (hlo : -2147483648 ≤ ret) (hhi : ret < 2147483648)
    (hpub : (exit_connect ret ⟨K, t, ts, r⟩ s).2.llm_slo_events = s.llm_slo_events ++ [e]) :
    (0 ≤ ret → e.errno_val = 0) ∧
    (ret < 0 → ret ≠ -2147483648 → e.errno_val = -ret ∧ 0 < e.errno_val) ∧
    (e.errno_val ≠ 0 ↔ ret < 0) := by
  have he : e.errno_val = if ret < 0 then s32_wrap (-ret) else 0 := by
    cases h : bpf_map_lookup_elem s.connect_inflight K with
    | none => simp [exit_connect, h] at hpub
    | some cc =>
      cases r <;>
      simp [exit_connect, h, bpf_ringbuf_reserve, bpf_ringbuf_submit] at hpub
      rw [← hpub]
  rw [he]
  unfold s32_wrap
  refine ⟨?_, ?_, ?_⟩
  · intro h0
    rw [if_neg (not_lt.mpr h0)]
  · intro hneg hne
    rw [if_pos hneg]
    omega
  · by_cases hneg : ret < 0
    · rw [if_pos hneg]
      constructor
      · intro _; exact hneg
      · intro _; omega
    · rw [if_neg hneg]
      simp [hneg]

theorem connect_errno_capture_witness :
    (-2147483648 : Int) ≤ -111 ∧ (-111 : Int) < 2147483648 ∧
    (exit_connect (-111) ⟨7, 10, 11, true⟩
        (enter_connect ⟨47873, 16777343, 40000⟩ ⟨7, 0, 0, true⟩ State.empty).2
      ).2.llm_slo_events
      = (enter_connect ⟨47873, 16777343, 40000⟩ ⟨7, 0, 0, true⟩ State.empty).2.llm_slo_events
          ++ [⟨0, 7, 11, 4, 10, 40000, 443, 16777343, 111⟩] ∧
    (((-111 : Int) < 0 → (-111 : Int) ≠ -2147483648 →
        (⟨0, 7, 11, 4, 10, 40000, 443, 16777343, 111⟩ : llm_slo_event).errno_val = -(-111)
        ∧ 0 < (⟨0, 7, 11, 4, 10, 40000, 443, 16777343, 111⟩ : llm_slo_event).errno_val)) :=
  ⟨by decide, by decide, by decide,
   (connect_errno_capture
      (enter_connect ⟨47873, 16777343, 40000⟩ ⟨7, 0, 0, true⟩ State.empty).2 7 10 11 true
      (-111) ⟨0, 7, 11, 4, 10, 40000, 443, 16777343, 111⟩ (by decide) (by decide)
      (by decide)).2.1⟩

/-! ## Connect: fields captured at begin -/

/-- C13: when a connect begin on a socket with network-order destination port
`p`, destination address `a` and source port `n` is followed by the connect end
for the same task, a record that the end publishes has
`conn_dst_port = bswap16 p`, `conn_dst_ip = a` and `conn_src_port = n`, whatever
the return value, the clock readings and the reservation outcome of the end;
and from a store with room for the task, with a successful reservation, the end
does publish such a record. -/
theorem connect_fields_captured_at_begin (s : State) (K t0 a0 t1 ts : Nat) (r0 r1 : Bool)
    (sk : sock) (ret : Int) :
    (∀ e, (exit_connect ret ⟨K, t1, ts, r1⟩
            (enter_connect sk ⟨K, t0, a0, r0⟩ s).2).2.llm_slo_events = s.llm_slo_events ++ [e] →
        e.conn_dst_port = bswap16 sk.skc_dport ∧ e.conn_dst_ip = sk.skc_daddr
          ∧ e.conn_src_port = sk.skc_num) ∧
    (HasRoom connect_inflight_max_entries s.connect_inflight K →
      ∃ e, (exit_connect ret ⟨K, t1, ts, true⟩
            (enter_connect sk ⟨K, t0, a0, r0⟩ s).2).2.llm_slo_events = s.llm_slo_events ++ [e]
        ∧ e.conn_dst_port = bswap16 sk.skc_dport ∧ e.conn_dst_ip = sk.skc_daddr
        ∧ e.conn_src_port = sk.skc_num) := by
  refine ⟨?_, ?_⟩
  · intro e h
    by_cases hroom : HasRoom connect_inflight_max_entries s.connect_inflight K <;>
    cases r1 <;>
    simp [exit_connect, enter_connect, lookup_update_eq, hroom, bpf_ringbuf_reserve,
      bpf_ringbuf_submit] at h
    rw [← h]
    exact ⟨rfl, rfl, rfl⟩
  · intro hroom
    simp [exit_connect, enter_connect, lookup_update_eq, hroom, bpf_ringbuf_reserve,
      bpf_ringbuf_submit]

theorem connect_fields_captured_at_begin_witness :
    HasRoom connect_inflight_max_entries State.empty.connect_inflight 7 ∧
    (∃ e, (exit_connect (-111) ⟨7, 10, 11, true⟩
            (enter_connect ⟨47873, 16777343, 40000⟩ ⟨7, 0, 0, true⟩
              State.empty).2).2.llm_slo_events = State.empty.llm_slo_events ++ [e]
        ∧ e.conn_dst_port = bswap16 (⟨47873, 16777343, 40000⟩ : sock).skc_dport
        ∧ e.conn_dst_ip = (⟨47873, 16777343, 40000⟩ : sock).skc_daddr
        ∧ e.conn_src_port = (⟨47873, 16777343, 40000⟩ : sock).skc_num) ∧
    bswap16 47873 = 443 :=
  ⟨by decide,
   (connect_fields_captured_at_begin State.empty 7 0 0 10 11 true true
      ⟨47873, 16777343, 40000⟩ (-111)).2 (by decide),
   by decide⟩

/-! ## CPU steal -/

/-- C15: the CPU steal handler returns 0 and touches no correlation store; for
an event with delay `d` it appends exactly one record when `d ≥ 50000` and the
reservation succeeds, with discriminator 6 and `value_ns = d`, and leaves the
channel as it was otherwise; below the threshold it does not reserve. -/
theorem cpu_steal_single_shot (ctx : trace_event_raw_sched_stat_template) (env : KernelEnv)
    (s : State) :
    (handle_sched_stat_wait ctx env s).1 = 0 ∧
    (handle_sched_stat_wait ctx env s).2
      = { s with
          llm_slo_events := (handle_sched_stat_wait ctx env s).2.llm_slo_events
          reserve_calls := (handle_sched_stat_wait ctx env s).2.reserve_calls } ∧
    (50000 ≤ ctx.delay → env.reserve_ok = true →
      (handle_sched_stat_wait ctx env s).2.llm_slo_events
        = s.llm_slo_events ++
            [{ pid := ctx.pid
               tid := env.pid_tgid % 4294967296
               timestamp_ns := env.ktime
               signal_type := 6
               value_ns := ctx.delay
               conn_src_port := 0
               conn_dst_port := 0
               conn_dst_ip := 0
               errno_val := 0 }]) ∧
    (ctx.delay < 50000 ∨ env.reserve_ok = false →
      (handle_sched_stat_wait ctx env s).2.llm_slo_events = s.llm_slo_events) ∧
    (ctx.delay < 50000 → handle_sched_stat_wait ctx env s = (0, s)) := by
  by_cases hd : ctx.delay < 50000 <;> cases hr : env.reserve_ok <;>
  simp [handle_sched_stat_wait, MIN_WAIT_NS, hd, hr, bpf_ringbuf_reserve, bpf_ringbuf_submit,
    LLM_SLO_CPU_STEAL]

theorem cpu_steal_single_shot_witness :
    (50000 : Nat) ≤ (⟨5, 60000⟩ : trace_event_raw_sched_stat_template).delay ∧
    (⟨1, 700000, 0, true⟩ : KernelEnv).reserve_ok = true ∧
    (handle_sched_stat_wait ⟨5, 60000⟩ ⟨1, 700000, 0, true⟩ State.empty).2.llm_slo_events
      = State.empty.llm_slo_events ++ [⟨5, 1, 700000, 6, 60000, 0, 0, 0, 0⟩] ∧
    handle_sched_stat_wait ⟨5, 49999⟩ ⟨1, 700000, 0, true⟩ State.empty = (0, State.empty) :=
  ⟨by decide, rfl,
   (cpu_steal_single_shot ⟨5, 60000⟩ ⟨1, 700000, 0, true⟩ State.empty).2.2.1 (by decide) rfl,
   (cpu_steal_single_shot ⟨5, 49999⟩ ⟨1, 700000, 0, true⟩ State.empty).2.2.2.2 (by decide)⟩

/-! ## The shape of every published record -/

/-- One invocation leaves the ring buffer as it is or appends one record, which
carries the discriminator and the constants of the signal of its program. -/
theorem step_events_record (c : SignalCodes) (s : State) (call : Call) :
    (step c s call).llm_slo_events = s.llm_slo_events ∨
    ∃ e, (step c s call).llm_slo_events = s.llm_slo_events ++ [e]
      ∧ RecordOf c call.signal e := by
  cases call <;>
    simp only [step, dispatch, kprobe_tcp_v4_connect, kretprobe_tcp_v4_connect,
      kprobe_tcp_v6_connect, kretprobe_tcp_v6_connect, enter_connect, exit_connect,
      kprobe_udp_sendmsg, kprobe_udp_recvmsg, handle_block_rq_issue,
      handle_block_rq_complete, handle_sched_stat_wait, uprobe_ssl_do_handshake,
      uretprobe_ssl_do_handshake, handle_tcp_retransmit, handle_sched_wakeup,
      handle_sched_wakeup_new, record_wakeup, handle_sched_switch, kprobe_ksys_read,
      kretprobe_ksys_read, kprobe_ksys_write, kretprobe_ksys_write, handle_entry,
      handle_return, handle_reclaim_begin, handle_reclaim_end, bpf_ringbuf_reserve,
      bpf_ringbuf_submit, MIN_WAIT_NS]
  all_goals repeat' split
  all_goals first
    | exact Or.inl rfl
    | exact Or.inl trivial
    | (refine Or.inr ⟨_, rfl, ?_⟩
       simp [RecordOf, FixedFields, Call.signal, Signal.code])

/-- Every record in the ring buffer after a sequence of invocations is a
record of one of the nine signals, if the records that were there before are. -/
theorem run_events_record (c : SignalCodes) (calls : List Call) :
    ∀ s : State, (∀ e ∈ s.llm_slo_events, ∃ sig, RecordOf c sig e) →
      ∀ e ∈ (run c s calls).llm_slo_events, ∃ sig, RecordOf c sig e := by
  induction calls with
  | nil => intro s h; exact h
  | cons call rest ih =>
    intro s h
    show ∀ e ∈ (run c (step c s call) rest).llm_slo_events, ∃ sig, RecordOf c sig e
    apply ih
    rcases step_events_record c s call with h1 | ⟨e1, h1, h2⟩
    · rw [h1]; exact h
    · rw [h1]
      intro e he
      rcases List.mem_append.mp he with he | he
      · exact h e he
      · rw [List.mem_singleton.mp he]; exact ⟨_, h2⟩

/-- Different signals have different codes once the nine codes are pairwise
different. -/
theorem code_injective (c : SignalCodes) (hd : c.Distinct) (sig sig2 : Signal)
    (h : sig.code c = sig2.code c) : sig = sig2 := by
  simp [SignalCodes.Distinct, LLM_SLO_DNS_LATENCY, LLM_SLO_TCP_RETRANSMIT,
    LLM_SLO_RUNQUEUE_DELAY, LLM_SLO_CONNECT_LATENCY, LLM_SLO_TLS_HANDSHAKE,
    LLM_SLO_CPU_STEAL] at hd
  cases sig <;> cases sig2 <;>
    simp only [Signal.code, LLM_SLO_DNS_LATENCY, LLM_SLO_TCP_RETRANSMIT,
      LLM_SLO_RUNQUEUE_DELAY, LLM_SLO_CONNECT_LATENCY, LLM_SLO_TLS_HANDSHAKE,
      LLM_SLO_CPU_STEAL] at h <;>
    first
      | rfl
      | (exfalso; omega)

theorem fixed_of_type (c : SignalCodes) (hd : c.Distinct) (sig : Signal) (e : llm_slo_event)
    (h : ∃ sig2, RecordOf c sig2 e) (ht : e.signal_type = sig.code c) : FixedFields sig e := by
  obtain ⟨sig2, hcode, hf⟩ := h
  have : sig2 = sig := code_injective c hd sig2 sig (by rw [← hcode, ht])
  rw [← this]; exact hf

theorem records_of_empty (c : SignalCodes) (s : State) (h0 : s.llm_slo_events = []) :
    ∀ e ∈ s.llm_slo_events, ∃ sig, RecordOf c sig e := by
  rw [h0]; intro e he; exact absurd he (List.not_mem_nil e)

/-! ## TLS handshake records -/

/-- C12: a record that the TLS end handler publishes has the TLS discriminator,
`conn_dst_port = 443`, `conn_src_port = 0`, `conn_dst_ip = 0` and `errno_val`
0 or 1, with `errno_val = 1` exactly when the return value of the handshake
function is `≤ 0` and `errno_val = 0` exactly when it is `> 0`; and with nine
pairwise different discriminators, every record with the TLS discriminator in
the channel after any sequence of invocations from an empty channel has these
ports, this address and `errno_val` 0 or 1. -/
theorem tls_record_fields (c : SignalCodes) (s : State) (K t ts : Nat) (r : Bool)
    (ret : Int) :
    (∀ e, (uretprobe_ssl_do_handshake ret ⟨K, t, ts, r⟩ s).2.llm_slo_events
          = s.llm_slo_events ++ [e] →
      e.signal_type = LLM_SLO_TLS_HANDSHAKE ∧ e.conn_dst_port = 443 ∧ e.conn_src_port = 0
        ∧ e.conn_dst_ip = 0 ∧ (e.errno_val = 0 ∨ e.errno_val = 1)
        ∧ (e.errno_val = 1 ↔ ret ≤ 0) ∧ (e.errno_val = 0 ↔ 0 < ret)) ∧
    (c.Distinct → ∀ (s0 : State) (calls : List Call), s0.llm_slo_events = [] →
      ∀ e ∈ (run c s0 calls).llm_slo_events, e.signal_type = LLM_SLO_TLS_HANDSHAKE →
        e.conn_dst_port = 443 ∧ e.conn_src_port = 0 ∧ e.conn_dst_ip = 0
          ∧ (e.errno_val = 0 ∨ e.errno_val = 1)) := by
  refine ⟨?_, ?_⟩
  · intro e h
    cases hl : bpf_map_lookup_elem s.tls_start K with
    | none => simp [uretprobe_ssl_do_handshake, hl] at h
    | some start =>
      cases r <;>
      simp [uretprobe_ssl_do_handshake, hl, bpf_ringbuf_reserve, bpf_ringbuf_submit] at h
      rw [← h]
      by_cases hret : ret ≤ 0
      · simp [hret]
      · simp [hret, lt_of_not_ge hret]
  · intro hd s0 calls h0 e he ht
    have hf := fixed_of_type c hd .tls_handshake e
      (run_events_record c calls s0 (records_of_empty c s0 h0) e he) ht
    simp only [FixedFields] at hf
    exact ⟨hf.2.1, hf.1, hf.2.2.1, hf.2.2.2⟩

theorem tls_record_fields_witness :
    (uretprobe_ssl_do_handshake (-1) ⟨7, 900, 901, true⟩
        (uprobe_ssl_do_handshake ⟨7, 500, 0, true⟩ State.empty).2).2.llm_slo_events
      = (uprobe_ssl_do_handshake ⟨7, 500, 0, true⟩ State.empty).2.llm_slo_events
          ++ [⟨0, 7, 901, 5, 400, 0, 443, 0, 1⟩] ∧
    ((⟨0, 7, 901, 5, 400, 0, 443, 0, 1⟩ : llm_slo_event).errno_val = 1 ↔ (-1 : Int) ≤ 0) ∧
    (uretprobe_ssl_do_handshake 1 ⟨7, 900, 901, true⟩
        (uprobe_ssl_do_handshake ⟨7, 500, 0, true⟩ State.empty).2).2.llm_slo_events
      = [⟨0, 7, 901, 5, 400, 0, 443, 0, 0⟩] :=
  ⟨by decide,
   ((tls_record_fields ⟨7, 8, 9⟩ (uprobe_ssl_do_handshake ⟨7, 500, 0, true⟩ State.empty).2
      7 900 901 true (-1)).1 ⟨0, 7, 901, 5, 400, 0, 443, 0, 1⟩ (by decide)).2.2.2.2.2.1,
   by decide⟩

/-! ## Fields that do not apply -/

/-- C14: after any sequence of invocations from an empty channel, every record
whose discriminator is disk I/O, memory reclaim, syscall latency, run-queue
delay or CPU steal has `conn_src_port = 0`, `conn_dst_port = 0`,
`conn_dst_ip = 0` and `errno_val = 0`, and every DNS record has
`errno_val = 0`. -/
theorem not_applicable_fields_zero (c : SignalCodes) (hd : c.Distinct) (s : State)
    (h0 : s.llm_slo_events = []) (calls : List Call) :
    ∀ e ∈ (run c s calls).llm_slo_events,
      ((e.signal_type = c.LLM_SLO_DISK_IO_LATENCY ∨ e.signal_type = c.LLM_SLO_MEM_RECLAIM
          ∨ e.signal_type = c.LLM_SLO_SYSCALL_LATENCY ∨ e.signal_type = LLM_SLO_RUNQUEUE_DELAY
          ∨ e.signal_type = LLM_SLO_CPU_STEAL) →
        e.conn_src_port = 0 ∧ e.conn_dst_port = 0 ∧ e.conn_dst_ip = 0 ∧ e.errno_val = 0) ∧
      (e.signal_type = LLM_SLO_DNS_LATENCY → e.errno_val = 0) := by
  intro e he
  have hrec := run_events_record c calls s (records_of_empty c s h0) e he
  refine ⟨?_, fun ht => fixed_of_type c hd .dns_latency e hrec ht⟩
  intro ht
  rcases ht with ht | ht | ht | ht | ht
  · exact fixed_of_type c hd .disk_latency e hrec ht
  · exact fixed_of_type c hd .mem_reclaim e hrec ht
  · exact fixed_of_type c hd .syscall_latency e hrec ht
  · exact fixed_of_type c hd .runqueue_delay e hrec ht
  · exact fixed_of_type c hd .cpu_steal e hrec ht

theorem not_applicable_fields_zero_witness :
    (⟨7, 8, 9⟩ : SignalCodes).Distinct ∧ State.empty.llm_slo_events = [] ∧
    (∀ e ∈ (run ⟨7, 8, 9⟩ State.empty
        [Call.block_rq_issue ⟨8, 1024⟩ 0 ⟨1, 0, 0, true⟩,
         Call.block_rq_complete ⟨8, 1024⟩ 0 ⟨1, 600000, 600001, true⟩,
         Call.udp_sendmsg ⟨13568, 134744072, 40000⟩ ⟨7, 0, 0, true⟩,
         Call.udp_recvmsg ⟨13568, 134744072, 40000⟩ ⟨7, 10000, 10001, true⟩,
         Call.sched_stat_wait ⟨5, 60000⟩ ⟨1, 700000, 0, true⟩]).llm_slo_events,
      ((e.signal_type = (⟨7, 8, 9⟩ : SignalCodes).LLM_SLO_DISK_IO_LATENCY
          ∨ e.signal_type = (⟨7, 8, 9⟩ : SignalCodes).LLM_SLO_MEM_RECLAIM
          ∨ e.signal_type = (⟨7, 8, 9⟩ : SignalCodes).LLM_SLO_SYSCALL_LATENCY
          ∨ e.signal_type = LLM_SLO_RUNQUEUE_DELAY
          ∨ e.signal_type = LLM_SLO_CPU_STEAL) →
        e.conn_src_port = 0 ∧ e.conn_dst_port = 0 ∧ e.conn_dst_ip = 0 ∧ e.errno_val = 0) ∧
      (e.signal_type = LLM_SLO_DNS_LATENCY → e.errno_val = 0)) ∧
    (run ⟨7, 8, 9⟩ State.empty
        [Call.block_rq_issue ⟨8, 1024⟩ 0 ⟨1, 0, 0, true⟩,
         Call.block_rq_complete ⟨8, 1024⟩ 0 ⟨1, 600000, 600001, true⟩,
         Call.udp_sendmsg ⟨13568, 134744072, 40000⟩ ⟨7, 0, 0, true⟩,
         Call.udp_recvmsg ⟨13568, 134744072, 40000⟩ ⟨7, 10000, 10001, true⟩,
         Call.sched_stat_wait ⟨5, 60000⟩ ⟨1, 700000, 0, true⟩]).llm_slo_events
      = [⟨0, 1, 600001, 7, 600000, 0, 0, 0, 0⟩,
         ⟨0, 7, 10001, 1, 10000, 40000, 53, 134744072, 0⟩,
         ⟨5, 1, 700000, 6, 60000, 0, 0, 0, 0⟩] :=
  ⟨by decide, rfl,
   not_applicable_fields_zero ⟨7, 8, 9⟩ (by decide) State.empty rfl _,
   by decide⟩

/-! ## The discriminator -/

/-- A record appended by one invocation is the last record of the channel. -/
theorem appended_record_unique {l : List llm_slo_event} {e e2 : llm_slo_event}
    (h : l ++ [e] = l ++ [e2]) : e = e2 := by
  have := List.append_cancel_left h
  simpa using this

theorem length_encode_uint (w v : Nat) : (encode_uint w v).length = w := by
  induction w generalizing v with
  | zero => rfl
  | succ w ih => simp [encode_uint, ih]

theorem decode_encode_uint (w v : Nat) : decode_uint (encode_uint w v) = v % 256 ^ w := by
  induction w generalizing v with
  | zero => simp [encode_uint, decode_uint, Nat.mod_one]
  | succ w ih =>
    simp only [encode_uint, decode_uint, ih]
    rw [Nat.pow_succ, Nat.mul_comm (256 ^ w) 256, Nat.mod_mul]

theorem decode_encode_uint_of_lt (w v : Nat) (h : v < 256 ^ w) :
    decode_uint (encode_uint w v) = v := by
  rw [decode_encode_uint, Nat.mod_eq_of_lt h]

theorem u32_to_s32_to_u32 (x : Int) (hlo : -2147483648 ≤ x) (hhi : x < 2147483648) :
    u32_to_s32 (s32_to_u32 x) = x := by
  unfold u32_to_s32 s32_to_u32
  split <;> omega

theorem s32_to_u32_lt (x : Int) : s32_to_u32 x < 4294967296 := by
  unfold s32_to_u32
  omega

/-- Skipping a whole field and then `n` more bytes. -/
theorem drop_encode_uint (w v n : Nat) (rest : List Nat) :
    (encode_uint w v ++ rest).drop (w + n) = rest.drop n := by
  rw [← List.drop_drop, List.drop_left' (length_encode_uint w v)]

/-- Reading the field at the front of a buffer. -/
theorem take_encode_uint (w v : Nat) (rest : List Nat) :
    ((encode_uint w v ++ rest).drop 0).take w = encode_uint w v := by
  rw [List.drop_zero]
  exact List.take_left' (length_encode_uint w v)

/-- In the encoding of a record, the bytes at the offset of a field are the
bytes of that field. -/
theorem field_bytes_encode (e : llm_slo_event) :
    field_bytes e.encode 0 4 = encode_uint 4 e.pid ∧
    field_bytes e.encode 4 4 = encode_uint 4 e.tid ∧
    field_bytes e.encode 8 8 = encode_uint 8 e.timestamp_ns ∧
    field_bytes e.encode 16 4 = encode_uint 4 e.signal_type ∧
    field_bytes e.encode 20 8 = encode_uint 8 e.value_ns ∧
    field_bytes e.encode 28 2 = encode_uint 2 e.conn_src_port ∧
    field_bytes e.encode 30 2 = encode_uint 2 e.conn_dst_port ∧
    field_bytes e.encode 32 4 = encode_uint 4 e.conn_dst_ip ∧
    field_bytes e.encode 36 4 = encode_uint 4 (s32_to_u32 e.errno_val) := by
  unfold field_bytes llm_slo_event.encode
  refine ⟨?_, ?_, ?_, ?_, ?_, ?_, ?_, ?_, ?_⟩
  · exact take_encode_uint _ _ _
  · show List.take 4 (List.drop (4 + 0) _) = _
    rw [drop_encode_uint]
    exact take_encode_uint _ _ _
  · show List.take 8 (List.drop (4 + (4 + 0)) _) = _
    rw [drop_encode_uint, drop_encode_uint]
    exact take_encode_uint _ _ _
  · show List.take 4 (List.drop (4 + (4 + (8 + 0))) _) = _
    rw [drop_encode_uint, drop_encode_uint, drop_encode_uint]
    exact take_encode_uint _ _ _
  · show List.take 8 (List.drop (4 + (4 + (8 + (4 + 0)))) _) = _
    rw [drop_encode_uint, drop_encode_uint, drop_encode_uint, drop_encode_uint]
    exact take_encode_uint _ _ _
  · show List.take 2 (List.drop (4 + (4 + (8 + (4 + (8 + 0))))) _) = _
    rw [drop_encode_uint, drop_encode_uint, drop_encode_uint, drop_encode_uint,
      drop_encode_uint]
    exact take_encode_uint _ _ _
  · show List.take 2 (List.drop (4 + (4 + (8 + (4 + (8 + (2 + 0)))))) _) = _
    rw [drop_encode_uint, drop_encode_uint, drop_encode_uint, drop_encode_uint,
      drop_encode_uint, drop_encode_uint]
    exact take_encode_uint _ _ _
  · show List.take 4 (List.drop (4 + (4 + (8 + (4 + (8 + (2 + (2 + 0))))))) _) = _
    rw [drop_encode_uint, drop_encode_uint, drop_encode_uint, drop_encode_uint,
      drop_encode_uint, drop_encode_uint, drop_encode_uint]
    exact take_encode_uint _ _ _
  · show List.take 4 (List.drop (4 + (4 + (8 + (4 + (8 + (2 + (2 + (4 + 0)))))))) _) = _
    rw [drop_encode_uint, drop_encode_uint, drop_encode_uint, drop_encode_uint,
      drop_encode_uint, drop_encode_uint, drop_encode_uint, drop_encode_uint]
    rw [List.drop_zero]
    exact List.take_of_length_le (le_of_eq (length_encode_uint _ _))

theorem length_encode (e : llm_slo_event) : e.encode.length = 40 := by
  simp [llm_slo_event.encode, length_encode_uint]

/-- C17: the packed record is 40 bytes wide with its fields at byte offsets 0,
4, 8, 16, 20, 28, 30, 32 and 36, each field starting where the one before it
ends; the encoding of every record is 40 bytes long and holds every field at
its offset; and for every record whose fields are in the range of their types,
also with a negative `errno_val`, decoding the encoding gives the record
back. -/
theorem event_record_round_trip :
    llm_slo_event_size = 40 ∧
    packed_offsets 0 llm_slo_event_field_sizes = [0, 4, 8, 16, 20, 28, 30, 32, 36] ∧
    (∀ e : llm_slo_event, e.encode.length = 40 ∧
      field_bytes e.encode 0 4 = encode_uint 4 e.pid ∧
      field_bytes e.encode 4 4 = encode_uint 4 e.tid ∧
      field_bytes e.encode 8 8 = encode_uint 8 e.timestamp_ns ∧
      field_bytes e.encode 16 4 = encode_uint 4 e.signal_type ∧
      field_bytes e.encode 20 8 = encode_uint 8 e.value_ns ∧
      field_bytes e.encode 28 2 = encode_uint 2 e.conn_src_port ∧
      field_bytes e.encode 30 2 = encode_uint 2 e.conn_dst_port ∧
      field_bytes e.encode 32 4 = encode_uint 4 e.conn_dst_ip ∧
      field_bytes e.encode 36 4 = encode_uint 4 (s32_to_u32 e.errno_val)) ∧
    (∀ e : llm_slo_event, e.InRange → llm_slo_event.decode e.encode = e) := by
  refine ⟨by decide, by decide, fun e => ⟨length_encode e, field_bytes_encode e⟩, ?_⟩
  intro e hr
  obtain ⟨h1, h2, h3, h4, h5, h6, h7, h8, h9, h10⟩ := hr
  obtain ⟨f1, f2, f3, f4, f5, f6, f7, f8, f9⟩ := field_bytes_encode e
  unfold U64_MOD at h3 h5
  unfold llm_slo_event.decode
  rw [f1, f2, f3, f4, f5, f6, f7, f8, f9,
    decode_encode_uint_of_lt 4 e.pid (by norm_num; exact h1),
    decode_encode_uint_of_lt 4 e.tid (by norm_num; exact h2),
    decode_encode_uint_of_lt 8 e.timestamp_ns (by norm_num; exact h3),
    decode_encode_uint_of_lt 4 e.signal_type (by norm_num; exact h4),
    decode_encode_uint_of_lt 8 e.value_ns (by norm_num; exact h5),
    decode_encode_uint_of_lt 2 e.conn_src_port (by norm_num; exact h6),
    decode_encode_uint_of_lt 2 e.conn_dst_port (by norm_num; exact h7),
    decode_encode_uint_of_lt 4 e.conn_dst_ip (by norm_num; exact h8),
    decode_encode_uint_of_lt 4 (s32_to_u32 e.errno_val)
      (by norm_num; exact s32_to_u32_lt e.errno_val),
    u32_to_s32_to_u32 e.errno_val h9 h10]

theorem event_record_round_trip_witness :
    (⟨1234, 5678, 1000000007, 4, 250, 40000, 443, 16777343, -111⟩ : llm_slo_event).InRange ∧
    llm_slo_event.decode
        (⟨1234, 5678, 1000000007, 4, 250, 40000, 443, 16777343, -111⟩ : llm_slo_event).encode
      = ⟨1234, 5678, 1000000007, 4, 250, 40000, 443, 16777343, -111⟩ ∧
    (⟨1234, 5678, 1000000007, 4, 250, 40000, 443, 16777343, -111⟩ : llm_slo_event).encode
      = [210, 4, 0, 0, 46, 22, 0, 0, 7, 202, 154, 59, 0, 0, 0, 0, 4, 0, 0, 0,
         250, 0, 0, 0, 0, 0, 0, 0, 64, 156, 187, 1, 127, 0, 0, 1, 145, 255, 255, 255] :=
  ⟨by decide,
   event_record_round_trip.2.2.2 ⟨1234, 5678, 1000000007, 4, 250, 40000, 443, 16777343, -111⟩
     (by decide),
   by decide⟩

/-! ## Store capacity -/

theorem length_update_le {K V : Type} [DecidableEq K] (n : Nat) (m : List (K × V)) (k : K)
    (v : V) (h : m.length ≤ n) : (bpf_map_update_elem n m k v).length ≤ n := by
  unfold bpf_map_update_elem
  split
  · rw [List.length_map]; exact h
  · split
    · rw [List.length_cons]; omega
    · exact h

theorem length_delete_le {K V : Type} [DecidableEq K] (m : List (K × V)) (k : K) :
    (bpf_map_delete_elem m k).length ≤ m.length :=
  List.length_filter_le _ m

/-- One invocation keeps every store within its capacity. -/
theorem step_bounded (c : SignalCodes) (s : State) (call : Call) (h : StoresBounded s) :
    StoresBounded (step c s call) := by
  obtain ⟨h1, h2, h3, h4, h5, h6, h7⟩ := h
  cases call <;>
    simp only [step, dispatch, kprobe_tcp_v4_connect, kretprobe_tcp_v4_connect,
      kprobe_tcp_v6_connect, kretprobe_tcp_v6_connect, enter_connect, exit_connect,
      kprobe_udp_sendmsg, kprobe_udp_recvmsg, handle_block_rq_issue,
      handle_block_rq_complete, handle_sched_stat_wait, uprobe_ssl_do_handshake,
      uretprobe_ssl_do_handshake, handle_tcp_retransmit, handle_sched_wakeup,
      handle_sched_wakeup_new, record_wakeup, handle_sched_switch, kprobe_ksys_read,
      kretprobe_ksys_read, kprobe_ksys_write, kretprobe_ksys_write, handle_entry,
      handle_return, handle_reclaim_begin, handle_reclaim_end, bpf_ringbuf_reserve,
      bpf_ringbuf_submit, MIN_WAIT_NS]
  all_goals repeat' split
  all_goals
    refine ⟨?_, ?_, ?_, ?_, ?_, ?_, ?_⟩ <;>
    first
      | assumption
      | exact length_update_le _ _ _ _ ‹_›
      | exact le_trans (length_delete_le _ _) ‹_›

theorem run_bounded (c : SignalCodes) (calls : List Call) :
    ∀ s : State, StoresBounded s → StoresBounded (run c s calls) := by
  induction calls with
  | nil => intro s h; exact h
  | cons call rest ih =>
    intro s h
    exact ih (step c s call) (step_bounded c s call h)

theorem bounded_of_empty (s : State) (h : StoresEmpty s) : StoresBounded s := by
  obtain ⟨h1, h2, h3, h4, h5, h6, h7⟩ := h
  unfold StoresBounded
  rw [h1, h2, h3, h4, h5, h6, h7]
  exact ⟨Nat.zero_le _, Nat.zero_le _, Nat.zero_le _, Nat.zero_le _, Nat.zero_le _,
    Nat.zero_le _, Nat.zero_le _⟩

theorem not_hasRoom_of_absent_full {K V : Type} [DecidableEq K] (n : Nat) (m : List (K × V))
    (k : K) (habs : bpf_map_lookup_elem m k = none) (hfull : m.length = n) :
    ¬ HasRoom n m k := by
  intro h
  rcases h with h | h
  · rw [habs] at h; exact absurd h (by simp)
  · rw [hfull] at h; exact absurd h (lt_irrefl n)

theorem hasRoom_of_present {K V : Type} [DecidableEq K] (n : Nat) (m : List (K × V))
    (k : K) (v : V) (h : bpf_map_lookup_elem m k = some v) : HasRoom n m k :=
  Or.inl (by rw [h]; rfl)

/-- Capacity of the stores: after any sequence of invocations from empty stores
every correlation store holds at most its `max_entries` (8192 for connect, DNS,
memory reclaim and TLS; 16384 for disk I/O, run-queue and syscall); for each of
the seven signals, a begin for a map key that a full store does not hold leaves
the whole state as it was and the end for that key right after it is a no-op,
so it publishes nothing; and a begin for a map key that the store holds
already, full or not, sets the entry of the key to the new value.  For disk I/O
the map key is the whole of `struct blk_key`, padding bytes `pad` included: a
request that the store holds under other padding bytes counts as not held.
That case is in the section on the padding bytes of the key. -/
theorem store_capacity_drop_new (c : SignalCodes) (s : State) (K t0 a0 t1 ts p0 p1 : Nat)
    (r0 r1 : Bool) (sk sk2 : sock) (ret : Int) (ctx : trace_event_raw_block_rq_completion) (pad : Nat) :
    (∀ (s0 : State) (calls : List Call), StoresEmpty s0 →
      (run c s0 calls).connect_inflight.length ≤ 8192 ∧
      (run c s0 calls).dns_inflight.length ≤ 8192 ∧
      (run c s0 calls).reclaim_start.length ≤ 8192 ∧
      (run c s0 calls).tls_start.length ≤ 8192 ∧
      (run c s0 calls).blk_start.length ≤ 16384 ∧
      (run c s0 calls).runq_enqueue.length ≤ 16384 ∧
      (run c s0 calls).syscall_start.length ≤ 16384) ∧
    -- connect
    ((bpf_map_lookup_elem s.connect_inflight K = none → s.connect_inflight.length = connect_inflight_max_entries →
        enter_connect sk ⟨K, t0, a0, r0⟩ s = (0, s) ∧
        exit_connect ret ⟨K, t1, ts, r1⟩ (enter_connect sk ⟨K, t0, a0, r0⟩ s).2 = (0, s)) ∧
      (∀ old, bpf_map_lookup_elem s.connect_inflight K = some old →
        bpf_map_lookup_elem (enter_connect sk ⟨K, t0, a0, r0⟩ s).2.connect_inflight K
          = some (⟨t0, bswap16 sk.skc_dport, sk.skc_daddr, sk.skc_num⟩ : connect_ctx))) ∧
    -- dns
    (bswap16 sk.skc_dport = 53 →
     (bpf_map_lookup_elem s.dns_inflight K = none → s.dns_inflight.length = dns_inflight_max_entries →
        kprobe_udp_sendmsg sk ⟨K, t0, a0, r0⟩ s = (0, s) ∧
        kprobe_udp_recvmsg sk2 ⟨K, t1, ts, r1⟩ (kprobe_udp_sendmsg sk ⟨K, t0, a0, r0⟩ s).2 = (0, s)) ∧
      (∀ old, bpf_map_lookup_elem s.dns_inflight K = some old →
        bpf_map_lookup_elem (kprobe_udp_sendmsg sk ⟨K, t0, a0, r0⟩ s).2.dns_inflight K
          = some (⟨t0, 53, sk.skc_daddr, sk.skc_num⟩ : send_ctx))) ∧
    -- reclaim
    ((bpf_map_lookup_elem s.reclaim_start K = none → s.reclaim_start.length = reclaim_start_max_entries →
        handle_reclaim_begin ⟨K, t0, a0, r0⟩ s = (0, s) ∧
        handle_reclaim_end c ⟨K, t1, ts, r1⟩ (handle_reclaim_begin ⟨K, t0, a0, r0⟩ s).2 = (0, s)) ∧
      (∀ old, bpf_map_lookup_elem s.reclaim_start K = some old →
        bpf_map_lookup_elem (handle_reclaim_begin ⟨K, t0, a0, r0⟩ s).2.reclaim_start K
          = some t0)) ∧
    -- tls
    ((bpf_map_lookup_elem s.tls_start K = none → s.tls_start.length = tls_start_max_entries →
        uprobe_ssl_do_handshake ⟨K, t0, a0, r0⟩ s = (0, s) ∧
        uretprobe_ssl_do_handshake ret ⟨K, t1, ts, r1⟩ (uprobe_ssl_do_handshake ⟨K, t0, a0, r0⟩ s).2 = (0, s)) ∧
      (∀ old, bpf_map_lookup_elem s.tls_start K = some old →
        bpf_map_lookup_elem (uprobe_ssl_do_handshake ⟨K, t0, a0, r0⟩ s).2.tls_start K
          = some t0)) ∧
    -- disk
    ((bpf_map_lookup_elem s.blk_start (⟨ctx.dev, pad, ctx.sector⟩ : blk_key) = none → s.blk_start.length = blk_start_max_entries →
        handle_block_rq_issue ctx pad ⟨p0, t0, a0, r0⟩ s = (0, s) ∧
        handle_block_rq_complete c ctx pad ⟨p1, t1, ts, r1⟩ (handle_block_rq_issue ctx pad ⟨p0, t0, a0, r0⟩ s).2 = (0, s)) ∧
      (∀ old, bpf_map_lookup_elem s.blk_start (⟨ctx.dev, pad, ctx.sector⟩ : blk_key) = some old →
        bpf_map_lookup_elem (handle_block_rq_issue ctx pad ⟨p0, t0, a0, r0⟩ s).2.blk_start (⟨ctx.dev, pad, ctx.sector⟩ : blk_key)
          = some t0)) ∧
    -- runq
    ((bpf_map_lookup_elem s.runq_enqueue K = none → s.runq_enqueue.length = runq_enqueue_max_entries →
        record_wakeup K ⟨p0, t0, a0, r0⟩ s = (0, s) ∧
        handle_sched_switch ⟨K⟩ ⟨p1, t1, ts, r1⟩ (record_wakeup K ⟨p0, t0, a0, r0⟩ s).2 = (0, s)) ∧
      (∀ old, bpf_map_lookup_elem s.runq_enqueue K = some old →
        bpf_map_lookup_elem (record_wakeup K ⟨p0, t0, a0, r0⟩ s).2.runq_enqueue K
          = some t0)) ∧
    -- syscall
    ((bpf_map_lookup_elem s.syscall_start K = none → s.syscall_start.length = syscall_start_max_entries →
        handle_entry ⟨K, t0, a0, r0⟩ s = (0, s) ∧
        handle_return c ⟨K, t1, ts, r1⟩ (handle_entry ⟨K, t0, a0, r0⟩ s).2 = (0, s)) ∧
      (∀ old, bpf_map_lookup_elem s.syscall_start K = some old →
        bpf_map_lookup_elem (handle_entry ⟨K, t0, a0, r0⟩ s).2.syscall_start K
          = some t0)) := by
  refine ⟨fun s0 calls h0 => run_bounded c calls s0 (bounded_of_empty s0 h0), ?_, ?_, ?_, ?_,
    ?_, ?_, ?_⟩
  · refine ⟨?_, ?_⟩
    · intro habs hfull
      have hb : enter_connect sk ⟨K, t0, a0, r0⟩ s = (0, s) := by
        simp only [enter_connect, ne_eq, not_true_eq_false, if_false,
          update_of_full _ _ _ _ (not_hasRoom_of_absent_full _ _ _ habs hfull)]
      rw [hb]
      exact ⟨rfl, exit_connect_of_absent ret ⟨K, t1, ts, r1⟩ s habs⟩
    · intro old hold
      simp only [enter_connect, ne_eq, not_true_eq_false, if_false]
      exact lookup_update_self _ _ _ _ (hasRoom_of_present _ _ _ old hold)
  · intro hp
    refine ⟨?_, ?_⟩
    · intro habs hfull
      have hb : kprobe_udp_sendmsg sk ⟨K, t0, a0, r0⟩ s = (0, s) := by
        simp only [kprobe_udp_sendmsg, hp, ne_eq, not_true_eq_false, if_false,
          update_of_full _ _ _ _ (not_hasRoom_of_absent_full _ _ _ habs hfull)]
      rw [hb]
      exact ⟨rfl, udp_recvmsg_of_absent sk2 ⟨K, t1, ts, r1⟩ s habs⟩
    · intro old hold
      simp only [kprobe_udp_sendmsg, hp, ne_eq, not_true_eq_false, if_false]
      exact lookup_update_self _ _ _ _ (hasRoom_of_present _ _ _ old hold)
  · refine ⟨?_, ?_⟩
    · intro habs hfull
      have hb : handle_reclaim_begin ⟨K, t0, a0, r0⟩ s = (0, s) := by
        simp only [handle_reclaim_begin, ne_eq, not_true_eq_false, if_false,
          update_of_full _ _ _ _ (not_hasRoom_of_absent_full _ _ _ habs hfull)]
      rw [hb]
      exact ⟨rfl, reclaim_end_of_absent c ⟨K, t1, ts, r1⟩ s habs⟩
    · intro old hold
      simp only [handle_reclaim_begin, ne_eq, not_true_eq_false, if_false]
      exact lookup_update_self _ _ _ _ (hasRoom_of_present _ _ _ old hold)
  · refine ⟨?_, ?_⟩
    · intro habs hfull
      have hb : uprobe_ssl_do_handshake ⟨K, t0, a0, r0⟩ s = (0, s) := by
        simp only [uprobe_ssl_do_handshake, ne_eq, not_true_eq_false, if_false,
          update_of_full _ _ _ _ (not_hasRoom_of_absent_full _ _ _ habs hfull)]
      rw [hb]
      exact ⟨rfl, ssl_return_of_absent ret ⟨K, t1, ts, r1⟩ s habs⟩
    · intro old hold
      simp only [uprobe_ssl_do_handshake, ne_eq, not_true_eq_false, if_false]
      exact lookup_update_self _ _ _ _ (hasRoom_of_present _ _ _ old hold)
  · refine ⟨?_, ?_⟩
    · intro habs hfull
      have hb : handle_block_rq_issue ctx pad ⟨p0, t0, a0, r0⟩ s = (0, s) := by
        simp only [handle_block_rq_issue, ne_eq, not_true_eq_false, if_false,
          update_of_full _ _ _ _ (not_hasRoom_of_absent_full _ _ _ habs hfull)]
      rw [hb]
      exact ⟨rfl, block_rq_complete_of_absent c ctx pad ⟨p1, t1, ts, r1⟩ s habs⟩
    · intro old hold
      simp only [handle_block_rq_issue, ne_eq, not_true_eq_false, if_false]
      exact lookup_update_self _ _ _ _ (hasRoom_of_present _ _ _ old hold)
  · refine ⟨?_, ?_⟩
    · intro habs hfull
      have hb : record_wakeup K ⟨p0, t0, a0, r0⟩ s = (0, s) := by
        simp only [record_wakeup, ne_eq, not_true_eq_false, if_false,
          update_of_full _ _ _ _ (not_hasRoom_of_absent_full _ _ _ habs hfull)]
      rw [hb]
      exact ⟨rfl, sched_switch_of_absent ⟨K⟩ ⟨p1, t1, ts, r1⟩ s habs⟩
    · intro old hold
      simp only [record_wakeup, ne_eq, not_true_eq_false, if_false]
      exact lookup_update_self _ _ _ _ (hasRoom_of_present _ _ _ old hold)
  · refine ⟨?_, ?_⟩
    · intro habs hfull
      have hb : handle_entry ⟨K, t0, a0, r0⟩ s = (0, s) := by
        simp only [handle_entry, ne_eq, not_true_eq_false, if_false,
          update_of_full _ _ _ _ (not_hasRoom_of_absent_full _ _ _ habs hfull)]
      rw [hb]
      exact ⟨rfl, handle_return_of_absent c ⟨K, t1, ts, r1⟩ s habs⟩
    · intro old hold
      simp only [handle_entry, ne_eq, not_true_eq_false, if_false]
      exact lookup_update_self _ _ _ _ (hasRoom_of_present _ _ _ old hold)

theorem store_capacity_drop_new_witness :
    StoresEmpty State.empty ∧
    bswap16 (⟨13568, 1, 2⟩ : sock).skc_dport = 53 ∧
    bpf_map_lookup_elem dns_store_full.dns_inflight 9000 = none ∧
    dns_store_full.dns_inflight.length = dns_inflight_max_entries ∧
    (kprobe_udp_sendmsg ⟨13568, 1, 2⟩ ⟨9000, 5, 0, true⟩ dns_store_full = (0, dns_store_full) ∧
      kprobe_udp_recvmsg ⟨0, 0, 0⟩ ⟨9000, 50, 51, true⟩
          (kprobe_udp_sendmsg ⟨13568, 1, 2⟩ ⟨9000, 5, 0, true⟩ dns_store_full).2
        = (0, dns_store_full)) ∧
    (run ⟨7, 8, 9⟩ State.empty
        [Call.udp_sendmsg ⟨13568, 1, 2⟩ ⟨7, 0, 0, true⟩,
         Call.udp_sendmsg ⟨13568, 1, 2⟩ ⟨8, 1, 0, true⟩,
         Call.udp_sendmsg ⟨13568, 3, 4⟩ ⟨7, 2, 0, true⟩]).dns_inflight.length ≤ 8192 ∧
    (run ⟨7, 8, 9⟩ State.empty
        [Call.udp_sendmsg ⟨13568, 1, 2⟩ ⟨7, 0, 0, true⟩,
         Call.udp_sendmsg ⟨13568, 1, 2⟩ ⟨8, 1, 0, true⟩,
         Call.udp_sendmsg ⟨13568, 3, 4⟩ ⟨7, 2, 0, true⟩]).dns_inflight
      = [(8, ⟨1, 53, 1, 2⟩), (7, ⟨2, 53, 3, 4⟩)] :=
  ⟨by decide, by decide,
   lookup_none_of_keys_ne dns_store_full.dns_inflight 9000
     (fun e he => Nat.ne_of_lt (Nat.lt_trans (dns_store_full_spec.2 e he) (by decide))),
   dns_store_full_spec.1,
   ((store_capacity_drop_new ⟨7, 8, 9⟩ dns_store_full 9000 5 0 50 51 0 0 true true
      ⟨13568, 1, 2⟩ ⟨0, 0, 0⟩ 0 ⟨0, 0⟩ 0).2.2.1 (by decide)).1
     (lookup_none_of_keys_ne dns_store_full.dns_inflight 9000
       (fun e he => Nat.ne_of_lt (Nat.lt_trans (dns_store_full_spec.2 e he) (by decide))))
     dns_store_full_spec.1,
   ((store_capacity_drop_new ⟨7, 8, 9⟩ State.empty 0 0 0 0 0 0 0 true true
      ⟨0, 0, 0⟩ ⟨0, 0, 0⟩ 0 ⟨0, 0⟩ 0).1 State.empty
      [Call.udp_sendmsg ⟨13568, 1, 2⟩ ⟨7, 0, 0, true⟩,
       Call.udp_sendmsg ⟨13568, 1, 2⟩ ⟨8, 1, 0, true⟩,
       Call.udp_sendmsg ⟨13568, 3, 4⟩ ⟨7, 2, 0, true⟩] (by decide)).2.1,
   by decide⟩

/-! ## The channel -/

/-- Every program returns 0. -/
theorem dispatch_returns_zero (c : SignalCodes) (s : State) (call : Call) :
    (dispatch c s call).1 = 0 := by
  cases call <;>
    simp only [step, dispatch, kprobe_tcp_v4_connect, kretprobe_tcp_v4_connect,
      kprobe_tcp_v6_connect, kretprobe_tcp_v6_connect, enter_connect, exit_connect,
      kprobe_udp_sendmsg, kprobe_udp_recvmsg, handle_block_rq_issue,
      handle_block_rq_complete, handle_sched_stat_wait, uprobe_ssl_do_handshake,
      uretprobe_ssl_do_handshake, handle_tcp_retransmit, handle_sched_wakeup,
      handle_sched_wakeup_new, record_wakeup, handle_sched_switch, kprobe_ksys_read,
      kretprobe_ksys_read, kprobe_ksys_write, kretprobe_ksys_write, handle_entry,
      handle_return, handle_reclaim_begin, handle_reclaim_end, bpf_ringbuf_reserve,
      bpf_ringbuf_submit, MIN_WAIT_NS]
  all_goals repeat' split
  all_goals rfl

/-- An invocation whose reservation fails leaves the channel as it was. -/
theorem step_events_of_reserve_failed (c : SignalCodes) (s : State) (call : Call)
    (h : call.env.reserve_ok = false) : (step c s call).llm_slo_events = s.llm_slo_events := by
  cases call <;> simp only [Call.env] at h <;>
    simp only [step, dispatch, kprobe_tcp_v4_connect, kretprobe_tcp_v4_connect,
      kprobe_tcp_v6_connect, kretprobe_tcp_v6_connect, enter_connect, exit_connect,
      kprobe_udp_sendmsg, kprobe_udp_recvmsg, handle_block_rq_issue,
      handle_block_rq_complete, handle_sched_stat_wait, uprobe_ssl_do_handshake,
      uretprobe_ssl_do_handshake, handle_tcp_retransmit, handle_sched_wakeup,
      handle_sched_wakeup_new, record_wakeup, handle_sched_switch, kprobe_ksys_read,
      kretprobe_ksys_read, kprobe_ksys_write, kretprobe_ksys_write, handle_entry,
      handle_return, handle_reclaim_begin, handle_reclaim_end, bpf_ringbuf_reserve,
      bpf_ringbuf_submit, MIN_WAIT_NS, h]
  all_goals repeat' split
  all_goals first
    | rfl
    | trivial

/-- What an invocation appends to the channel does not depend on what the
channel holds: it is what the invocation publishes into an empty channel. -/
theorem step_events_append (c : SignalCodes) (s : State) (call : Call)
    (l : List llm_slo_event) :
    (step c { s with llm_slo_events := l } call).llm_slo_events
      = l ++ (step c { s with llm_slo_events := [] } call).llm_slo_events := by
  cases call <;>
    simp only [step, dispatch, kprobe_tcp_v4_connect, kretprobe_tcp_v4_connect,
      kprobe_tcp_v6_connect, kretprobe_tcp_v6_connect, enter_connect, exit_connect,
      kprobe_udp_sendmsg, kprobe_udp_recvmsg, handle_block_rq_issue,
      handle_block_rq_complete, handle_sched_stat_wait, uprobe_ssl_do_handshake,
      uretprobe_ssl_do_handshake, handle_tcp_retransmit, handle_sched_wakeup,
      handle_sched_wakeup_new, record_wakeup, handle_sched_switch, kprobe_ksys_read,
      kretprobe_ksys_read, kprobe_ksys_write, kretprobe_ksys_write, handle_entry,
      handle_return, handle_reclaim_begin, handle_reclaim_end, bpf_ringbuf_reserve,
      bpf_ringbuf_submit, MIN_WAIT_NS]
  all_goals repeat' split
  all_goals simp

/-- C19: every invocation of every program returns 0 and either leaves the
channel exactly as it was or appends exactly one record at its end, a record
with the discriminator and the constant fields of its signal, so what was
published before is neither removed nor altered; when the reservation fails the
channel is unchanged; what an invocation appends does not depend on what the
channel holds; and after a retransmit whose reservation failed, a retransmit
whose reservation succeeds appends its one record. -/
theorem channel_atomic_per_invocation (c : SignalCodes) (s : State) (call : Call) :
    (dispatch c s call).1 = 0 ∧
    ((step c s call).llm_slo_events = s.llm_slo_events ∨
      ∃ e, (step c s call).llm_slo_events = s.llm_slo_events ++ [e]
        ∧ RecordOf c call.signal e) ∧
    (call.env.reserve_ok = false → (step c s call).llm_slo_events = s.llm_slo_events) ∧
    (∀ l : List llm_slo_event,
      (step c { s with llm_slo_events := l } call).llm_slo_events
        = l ++ (step c { s with llm_slo_events := [] } call).llm_slo_events) ∧
    (∀ (ctx1 ctx2 : trace_event_raw_tcp_retransmit_skb) (env1 env2 : KernelEnv),
      env1.reserve_ok = false → env2.reserve_ok = true →
      (handle_tcp_retransmit ctx1 env1 s).2.llm_slo_events = s.llm_slo_events ∧
      (handle_tcp_retransmit ctx2 env2 (handle_tcp_retransmit ctx1 env1 s).2).2.llm_slo_events
        = s.llm_slo_events ++
            [{ pid := env2.pid_tgid / 4294967296
               tid := env2.pid_tgid % 4294967296
               timestamp_ns := env2.ktime
               signal_type := LLM_SLO_TCP_RETRANSMIT
               value_ns := 1
               conn_src_port := ctx2.sport
               conn_dst_port := ctx2.dport
               conn_dst_ip := 0
               errno_val := 0 }]) := by
  refine ⟨dispatch_returns_zero c s call, step_events_record c s call,
    step_events_of_reserve_failed c s call, step_events_append c s call, ?_⟩
  intro ctx1 ctx2 env1 env2 h1 h2
  simp [handle_tcp_retransmit, h1, h2, bpf_ringbuf_reserve, bpf_ringbuf_submit]

theorem channel_atomic_per_invocation_witness :
    (Call.ksys_read_return ⟨7, 2000000, 2000001, false⟩).env.reserve_ok = false ∧
    (step ⟨7, 8, 9⟩ (handle_entry ⟨7, 0, 0, true⟩ State.empty).2
        (Call.ksys_read_return ⟨7, 2000000, 2000001, false⟩)).llm_slo_events
      = (handle_entry ⟨7, 0, 0, true⟩ State.empty).2.llm_slo_events ∧
    (⟨1, 10, 0, false⟩ : KernelEnv).reserve_ok = false ∧
    (⟨1, 20, 0, true⟩ : KernelEnv).reserve_ok = true ∧
    (handle_tcp_retransmit ⟨40001, 443⟩ ⟨1, 20, 0, true⟩
        (handle_tcp_retransmit ⟨40000, 443⟩ ⟨1, 10, 0, false⟩
          State.empty).2).2.llm_slo_events
      = State.empty.llm_slo_events ++ [⟨0, 1, 20, 2, 1, 40001, 443, 0, 0⟩] ∧
    run ⟨7, 8, 9⟩ State.empty
        [Call.ksys_read_entry ⟨7, 0, 0, true⟩,
         Call.ksys_read_return ⟨7, 2000000, 2000001, false⟩,
         Call.ksys_write_entry ⟨7, 3000000, 0, true⟩,
         Call.ksys_write_return ⟨7, 5000000, 5000001, true⟩]
      = { State.empty with
          llm_slo_events := [⟨0, 7, 5000001, 9, 2000000, 0, 0, 0, 0⟩]
          reserve_calls := 2 } :=
  ⟨rfl,
   (channel_atomic_per_invocation ⟨7, 8, 9⟩ (handle_entry ⟨7, 0, 0, true⟩ State.empty).2
      (Call.ksys_read_return ⟨7, 2000000, 2000001, false⟩)).2.2.1 rfl,
   rfl, rfl,
   ((channel_atomic_per_invocation ⟨7, 8, 9⟩ State.empty
      (Call.ksys_read_entry ⟨7, 0, 0, true⟩)).2.2.2.2 ⟨40000, 443⟩ ⟨40001, 443⟩
      ⟨1, 10, 0, false⟩ ⟨1, 20, 0, true⟩ rfl rfl).2,
   by decide⟩

/-! ## Key isolation -/

theorem connect_inflight_begin_isolated (s : State) (K K2 t ts : Nat) (r : Bool) (sk : sock)
    (hne : K2 ≠ K) :
    bpf_map_lookup_elem (enter_connect sk ⟨K, t, ts, r⟩ s).2.connect_inflight K2 = bpf_map_lookup_elem s.connect_inflight K2 ∧
    (enter_connect sk ⟨K, t, ts, r⟩ s).2 = { s with connect_inflight := (enter_connect sk ⟨K, t, ts, r⟩ s).2.connect_inflight } := by
  simp [enter_connect, lookup_update_ne _ _ _ hne]

theorem connect_inflight_end_isolated (s : State) (K K2 t ts : Nat) (r : Bool) (ret : Int)
    (hne : K2 ≠ K) :
    bpf_map_lookup_elem (exit_connect ret ⟨K, t, ts, r⟩ s).2.connect_inflight K2 = bpf_map_lookup_elem s.connect_inflight K2 ∧
    (exit_connect ret ⟨K, t, ts, r⟩ s).2
      = { s with
          connect_inflight := (exit_connect ret ⟨K, t, ts, r⟩ s).2.connect_inflight
          llm_slo_events := (exit_connect ret ⟨K, t, ts, r⟩ s).2.llm_slo_events
          reserve_calls := (exit_connect ret ⟨K, t, ts, r⟩ s).2.reserve_calls } := by
  cases h : bpf_map_lookup_elem s.connect_inflight K with
  | none => simp [exit_connect, h]
  | some v =>
    cases r <;>
    simp [exit_connect, h, lookup_delete_ne _ hne, bpf_ringbuf_reserve, bpf_ringbuf_submit]

theorem dns_inflight_begin_isolated (s : State) (K K2 t ts : Nat) (r : Bool) (sk : sock)
    (hne : K2 ≠ K) :
    bpf_map_lookup_elem (kprobe_udp_sendmsg sk ⟨K, t, ts, r⟩ s).2.dns_inflight K2 = bpf_map_lookup_elem s.dns_inflight K2 ∧
    (kprobe_udp_sendmsg sk ⟨K, t, ts, r⟩ s).2 = { s with dns_inflight := (kprobe_udp_sendmsg sk ⟨K, t, ts, r⟩ s).2.dns_inflight } := by
  by_cases hp : bswap16 sk.skc_dport = 53 <;>
  simp [kprobe_udp_sendmsg, hp, lookup_update_ne _ _ _ hne]

theorem dns_inflight_end_isolated (s : State) (K K2 t ts : Nat) (r : Bool) (sk : sock)
    (hne : K2 ≠ K) :
    bpf_map_lookup_elem (kprobe_udp_recvmsg sk ⟨K, t, ts, r⟩ s).2.dns_inflight K2 = bpf_map_lookup_elem s.dns_inflight K2 ∧
    (kprobe_udp_recvmsg sk ⟨K, t, ts, r⟩ s).2
      = { s with
          dns_inflight := (kprobe_udp_recvmsg sk ⟨K, t, ts, r⟩ s).2.dns_inflight
          llm_slo_events := (kprobe_udp_recvmsg sk ⟨K, t, ts, r⟩ s).2.llm_slo_events
          reserve_calls := (kprobe_udp_recvmsg sk ⟨K, t, ts, r⟩ s).2.reserve_calls } := by
  cases h : bpf_map_lookup_elem s.dns_inflight K with
  | none => simp [kprobe_udp_recvmsg, h]
  | some v =>
    cases r <;>
    simp [kprobe_udp_recvmsg, h, lookup_delete_ne _ hne, bpf_ringbuf_reserve, bpf_ringbuf_submit]

theorem reclaim_start_begin_isolated (s : State) (K K2 t ts : Nat) (r : Bool)
    (hne : K2 ≠ K) :
    bpf_map_lookup_elem (handle_reclaim_begin ⟨K, t, ts, r⟩ s).2.reclaim_start K2 = bpf_map_lookup_elem s.reclaim_start K2 ∧
    (handle_reclaim_begin ⟨K, t, ts, r⟩ s).2 = { s with reclaim_start := (handle_reclaim_begin ⟨K, t, ts, r⟩ s).2.reclaim_start } := by
  simp [handle_reclaim_begin, lookup_update_ne _ _ _ hne]

theorem reclaim_start_end_isolated (c : SignalCodes) (s : State) (K K2 t ts : Nat) (r : Bool)
    (hne : K2 ≠ K) :
    bpf_map_lookup_elem (handle_reclaim_end c ⟨K, t, ts, r⟩ s).2.reclaim_start K2 = bpf_map_lookup_elem s.reclaim_start K2 ∧
    (handle_reclaim_end c ⟨K, t, ts, r⟩ s).2
      = { s with
          reclaim_start := (handle_reclaim_end c ⟨K, t, ts, r⟩ s).2.reclaim_start
          llm_slo_events := (handle_reclaim_end c ⟨K, t, ts, r⟩ s).2.llm_slo_events
          reserve_calls := (handle_reclaim_end c ⟨K, t, ts, r⟩ s).2.reserve_calls } := by
  cases h : bpf_map_lookup_elem s.reclaim_start K with
  | none => simp [handle_reclaim_end, h]
  | some v =>
    by_cases hlow : u64_sub t v < 10000 <;>
    cases r <;>
    simp [handle_reclaim_end, h, hlow, lookup_delete_ne _ hne, bpf_ringbuf_reserve, bpf_ringbuf_submit]

theorem syscall_start_begin_isolated (s : State) (K K2 t ts : Nat) (r : Bool)
    (hne : K2 ≠ K) :
    bpf_map_lookup_elem (handle_entry ⟨K, t, ts, r⟩ s).2.syscall_start K2 = bpf_map_lookup_elem s.syscall_start K2 ∧
    (handle_entry ⟨K, t, ts, r⟩ s).2 = { s with syscall_start := (handle_entry ⟨K, t, ts, r⟩ s).2.syscall_start } := by
  simp [handle_entry, lookup_update_ne _ _ _ hne]

theorem syscall_start_end_isolated (c : SignalCodes) (s : State) (K K2 t ts : Nat) (r : Bool)
    (hne : K2 ≠ K) :
    bpf_map_lookup_elem (handle_return c ⟨K, t, ts, r⟩ s).2.syscall_start K2 = bpf_map_lookup_elem s.syscall_start K2 ∧
    (handle_return c ⟨K, t, ts, r⟩ s).2
      = { s with
          syscall_start := (handle_return c ⟨K, t, ts, r⟩ s).2.syscall_start
          llm_slo_events := (handle_return c ⟨K, t, ts, r⟩ s).2.llm_slo_events
          reserve_calls := (handle_return c ⟨K, t, ts, r⟩ s).2.reserve_calls } := by
  cases h : bpf_map_lookup_elem s.syscall_start K with
  | none => simp [handle_return, h]
  | some v =>
    by_cases hlow : u64_sub t v < 1000000 <;>
    cases r <;>
    simp [handle_return, h, hlow, lookup_delete_ne _ hne, bpf_ringbuf_reserve, bpf_ringbuf_submit]

theorem tls_start_begin_isolated (s : State) (K K2 t ts : Nat) (r : Bool)
    (hne : K2 ≠ K) :
    bpf_map_lookup_elem (uprobe_ssl_do_handshake ⟨K, t, ts, r⟩ s).2.tls_start K2 = bpf_map_lookup_elem s.tls_start K2 ∧
    (uprobe_ssl_do_handshake ⟨K, t, ts, r⟩ s).2 = { s with tls_start := (uprobe_ssl_do_handshake ⟨K, t, ts, r⟩ s).2.tls_start } := by
  simp [uprobe_ssl_do_handshake, lookup_update_ne _ _ _ hne]

theorem tls_start_end_isolated (s : State) (K K2 t ts : Nat) (r : Bool) (ret : Int)
    (hne : K2 ≠ K) :
    bpf_map_lookup_elem (uretprobe_ssl_do_handshake ret ⟨K, t, ts, r⟩ s).2.tls_start K2 = bpf_map_lookup_elem s.tls_start K2 ∧
    (uretprobe_ssl_do_handshake ret ⟨K, t, ts, r⟩ s).2
      = { s with
          tls_start := (uretprobe_ssl_do_handshake ret ⟨K, t, ts, r⟩ s).2.tls_start
          llm_slo_events := (uretprobe_ssl_do_handshake ret ⟨K, t, ts, r⟩ s).2.llm_slo_events
          reserve_calls := (uretprobe_ssl_do_handshake ret ⟨K, t, ts, r⟩ s).2.reserve_calls } := by
  cases h : bpf_map_lookup_elem s.tls_start K with
  | none => simp [uretprobe_ssl_do_handshake, h]
  | some v =>
    cases r <;>
    simp [uretprobe_ssl_do_handshake, h, lookup_delete_ne _ hne, bpf_ringbuf_reserve, bpf_ringbuf_submit]

theorem blk_start_begin_isolated (s : State) (p t ts : Nat) (r : Bool)
    (ctx : trace_event_raw_block_rq_completion) (pad : Nat) (k2 : blk_key)
    (hne : k2 ≠ ⟨ctx.dev, pad, ctx.sector⟩) :
    bpf_map_lookup_elem (handle_block_rq_issue ctx pad ⟨p, t, ts, r⟩ s).2.blk_start k2 = bpf_map_lookup_elem s.blk_start k2 ∧
    (handle_block_rq_issue ctx pad ⟨p, t, ts, r⟩ s).2 = { s with blk_start := (handle_block_rq_issue ctx pad ⟨p, t, ts, r⟩ s).2.blk_start } := by
  simp [handle_block_rq_issue, lookup_update_ne _ _ _ hne]

theorem blk_start_end_isolated (c : SignalCodes) (s : State) (p t ts : Nat) (r : Bool)
    (ctx : trace_event_raw_block_rq_completion) (pad : Nat) (k2 : blk_key)
    (hne : k2 ≠ ⟨ctx.dev, pad, ctx.sector⟩) :
    bpf_map_lookup_elem (handle_block_rq_complete c ctx pad ⟨p, t, ts, r⟩ s).2.blk_start k2 = bpf_map_lookup_elem s.blk_start k2 ∧
    (handle_block_rq_complete c ctx pad ⟨p, t, ts, r⟩ s).2
      = { s with
          blk_start := (handle_block_rq_complete c ctx pad ⟨p, t, ts, r⟩ s).2.blk_start
          llm_slo_events := (handle_block_rq_complete c ctx pad ⟨p, t, ts, r⟩ s).2.llm_slo_events
          reserve_calls := (handle_block_rq_complete c ctx pad ⟨p, t, ts, r⟩ s).2.reserve_calls } := by
  cases h : bpf_map_lookup_elem s.blk_start (⟨ctx.dev, pad, ctx.sector⟩ : blk_key) with
  | none => simp [handle_block_rq_complete, h]
  | some v =>
    by_cases hlow : u64_sub t v < 500000 <;>
    cases r <;>
    simp [handle_block_rq_complete, h, hlow, lookup_delete_ne _ hne, bpf_ringbuf_reserve, bpf_ringbuf_submit]

theorem runq_enqueue_begin_isolated (s : State) (K K2 p t ts : Nat) (r : Bool)
    (hne : K2 ≠ K) :
    bpf_map_lookup_elem (record_wakeup K ⟨p, t, ts, r⟩ s).2.runq_enqueue K2 = bpf_map_lookup_elem s.runq_enqueue K2 ∧
    (record_wakeup K ⟨p, t, ts, r⟩ s).2 = { s with runq_enqueue := (record_wakeup K ⟨p, t, ts, r⟩ s).2.runq_enqueue } := by
  simp [record_wakeup, lookup_update_ne _ _ _ hne]

theorem runq_enqueue_end_isolated (s : State) (K K2 p t ts : Nat) (r : Bool)
    (hne : K2 ≠ K) :
    bpf_map_lookup_elem (handle_sched_switch ⟨K⟩ ⟨p, t, ts, r⟩ s).2.runq_enqueue K2 = bpf_map_lookup_elem s.runq_enqueue K2 ∧
    (handle_sched_switch ⟨K⟩ ⟨p, t, ts, r⟩ s).2
      = { s with
          runq_enqueue := (handle_sched_switch ⟨K⟩ ⟨p, t, ts, r⟩ s).2.runq_enqueue
          llm_slo_events := (handle_sched_switch ⟨K⟩ ⟨p, t, ts, r⟩ s).2.llm_slo_events
          reserve_calls := (handle_sched_switch ⟨K⟩ ⟨p, t, ts, r⟩ s).2.reserve_calls } := by
  cases h : bpf_map_lookup_elem s.runq_enqueue K with
  | none => simp [handle_sched_switch, h]
  | some v =>
    by_cases hlow : u64_sub t v < 100000 <;>
    cases r <;>
    simp [handle_sched_switch, h, hlow, lookup_delete_ne _ hne, bpf_ringbuf_reserve, bpf_ringbuf_submit]

/-- C20: for each of the seven begin/end signals, a begin or an end for key `K`
leaves the entry of every other key of the store of the signal as it was,
present or absent, and changes no other store: a begin changes the store of its
signal only, an end the store of its signal, the channel and the count of
reservations only.  For disk I/O the other key is any request that differs in
device or in sector. -/
theorem key_isolation (c : SignalCodes) (s : State) (K K2 t ts p : Nat) (r : Bool) (sk : sock) (ret : Int)
    (ctx : trace_event_raw_block_rq_completion) (pad : Nat) (k2 : blk_key) :
    -- connect
    (K2 ≠ K →
      (bpf_map_lookup_elem (enter_connect sk ⟨K, t, ts, r⟩ s).2.connect_inflight K2 = bpf_map_lookup_elem s.connect_inflight K2 ∧
        (enter_connect sk ⟨K, t, ts, r⟩ s).2 = { s with connect_inflight := (enter_connect sk ⟨K, t, ts, r⟩ s).2.connect_inflight }) ∧
      (bpf_map_lookup_elem (exit_connect ret ⟨K, t, ts, r⟩ s).2.connect_inflight K2 = bpf_map_lookup_elem s.connect_inflight K2 ∧
        (exit_connect ret ⟨K, t, ts, r⟩ s).2
          = { s with
              connect_inflight := (exit_connect ret ⟨K, t, ts, r⟩ s).2.connect_inflight
              llm_slo_events := (exit_connect ret ⟨K, t, ts, r⟩ s).2.llm_slo_events
              reserve_calls := (exit_connect ret ⟨K, t, ts, r⟩ s).2.reserve_calls })) ∧
    -- DNS
    (K2 ≠ K →
      (bpf_map_lookup_elem (kprobe_udp_sendmsg sk ⟨K, t, ts, r⟩ s).2.dns_inflight K2 = bpf_map_lookup_elem s.dns_inflight K2 ∧
        (kprobe_udp_sendmsg sk ⟨K, t, ts, r⟩ s).2 = { s with dns_inflight := (kprobe_udp_sendmsg sk ⟨K, t, ts, r⟩ s).2.dns_inflight }) ∧
      (bpf_map_lookup_elem (kprobe_udp_recvmsg sk ⟨K, t, ts, r⟩ s).2.dns_inflight K2 = bpf_map_lookup_elem s.dns_inflight K2 ∧
        (kprobe_udp_recvmsg sk ⟨K, t, ts, r⟩ s).2
          = { s with
              dns_inflight := (kprobe_udp_recvmsg sk ⟨K, t, ts, r⟩ s).2.dns_inflight
              llm_slo_events := (kprobe_udp_recvmsg sk ⟨K, t, ts, r⟩ s).2.llm_slo_events
              reserve_calls := (kprobe_udp_recvmsg sk ⟨K, t, ts, r⟩ s).2.reserve_calls })) ∧
    -- memory reclaim
    (K2 ≠ K →
      (bpf_map_lookup_elem (handle_reclaim_begin ⟨K, t, ts, r⟩ s).2.reclaim_start K2 = bpf_map_lookup_elem s.reclaim_start K2 ∧
        (handle_reclaim_begin ⟨K, t, ts, r⟩ s).2 = { s with reclaim_start := (handle_reclaim_begin ⟨K, t, ts, r⟩ s).2.reclaim_start }) ∧
      (bpf_map_lookup_elem (handle_reclaim_end c ⟨K, t, ts, r⟩ s).2.reclaim_start K2 = bpf_map_lookup_elem s.reclaim_start K2 ∧
        (handle_reclaim_end c ⟨K, t, ts, r⟩ s).2
          = { s with
              reclaim_start := (handle_reclaim_end c ⟨K, t, ts, r⟩ s).2.reclaim_start
              llm_slo_events := (handle_reclaim_end c ⟨K, t, ts, r⟩ s).2.llm_slo_events
              reserve_calls := (handle_reclaim_end c ⟨K, t, ts, r⟩ s).2.reserve_calls })) ∧
    -- syscall
    (K2 ≠ K →
      (bpf_map_lookup_elem (handle_entry ⟨K, t, ts, r⟩ s).2.syscall_start K2 = bpf_map_lookup_elem s.syscall_start K2 ∧
        (handle_entry ⟨K, t, ts, r⟩ s).2 = { s with syscall_start := (handle_entry ⟨K, t, ts, r⟩ s).2.syscall_start }) ∧
      (bpf_map_lookup_elem (handle_return c ⟨K, t, ts, r⟩ s).2.syscall_start K2 = bpf_map_lookup_elem s.syscall_start K2 ∧
        (handle_return c ⟨K, t, ts, r⟩ s).2
          = { s with
              syscall_start := (handle_return c ⟨K, t, ts, r⟩ s).2.syscall_start
              llm_slo_events := (handle_return c ⟨K, t, ts, r⟩ s).2.llm_slo_events
              reserve_calls := (handle_return c ⟨K, t, ts, r⟩ s).2.reserve_calls })) ∧
    -- TLS
    (K2 ≠ K →
      (bpf_map_lookup_elem (uprobe_ssl_do_handshake ⟨K, t, ts, r⟩ s).2.tls_start K2 = bpf_map_lookup_elem s.tls_start K2 ∧
        (uprobe_ssl_do_handshake ⟨K, t, ts, r⟩ s).2 = { s with tls_start := (uprobe_ssl_do_handshake ⟨K, t, ts, r⟩ s).2.tls_start }) ∧
      (bpf_map_lookup_elem (uretprobe_ssl_do_handshake ret ⟨K, t, ts, r⟩ s).2.tls_start K2 = bpf_map_lookup_elem s.tls_start K2 ∧
        (uretprobe_ssl_do_handshake ret ⟨K, t, ts, r⟩ s).2
          = { s with
              tls_start := (uretprobe_ssl_do_handshake ret ⟨K, t, ts, r⟩ s).2.tls_start
              llm_slo_events := (uretprobe_ssl_do_handshake ret ⟨K, t, ts, r⟩ s).2.llm_slo_events
              reserve_calls := (uretprobe_ssl_do_handshake ret ⟨K, t, ts, r⟩ s).2.reserve_calls })) ∧
    -- disk I/O
    ((k2.dev ≠ ctx.dev ∨ k2.sector ≠ ctx.sector) →
      (bpf_map_lookup_elem (handle_block_rq_issue ctx pad ⟨p, t, ts, r⟩ s).2.blk_start k2 = bpf_map_lookup_elem s.blk_start k2 ∧
        (handle_block_rq_issue ctx pad ⟨p, t, ts, r⟩ s).2 = { s with blk_start := (handle_block_rq_issue ctx pad ⟨p, t, ts, r⟩ s).2.blk_start }) ∧
      (bpf_map_lookup_elem (handle_block_rq_complete c ctx pad ⟨p, t, ts, r⟩ s).2.blk_start k2 = bpf_map_lookup_elem s.blk_start k2 ∧
        (handle_block_rq_complete c ctx pad ⟨p, t, ts, r⟩ s).2
          = { s with
              blk_start := (handle_block_rq_complete c ctx pad ⟨p, t, ts, r⟩ s).2.blk_start
              llm_slo_events := (handle_block_rq_complete c ctx pad ⟨p, t, ts, r⟩ s).2.llm_slo_events
              reserve_calls := (handle_block_rq_complete c ctx pad ⟨p, t, ts, r⟩ s).2.reserve_calls })) ∧
    -- run-queue
    (K2 ≠ K →
      (bpf_map_lookup_elem (record_wakeup K ⟨p, t, ts, r⟩ s).2.runq_enqueue K2 = bpf_map_lookup_elem s.runq_enqueue K2 ∧
        (record_wakeup K ⟨p, t, ts, r⟩ s).2 = { s with runq_enqueue := (record_wakeup K ⟨p, t, ts, r⟩ s).2.runq_enqueue }) ∧
      (bpf_map_lookup_elem (handle_sched_switch ⟨K⟩ ⟨p, t, ts, r⟩ s).2.runq_enqueue K2 = bpf_map_lookup_elem s.runq_enqueue K2 ∧
        (handle_sched_switch ⟨K⟩ ⟨p, t, ts, r⟩ s).2
          = { s with
              runq_enqueue := (handle_sched_switch ⟨K⟩ ⟨p, t, ts, r⟩ s).2.runq_enqueue
              llm_slo_events := (handle_sched_switch ⟨K⟩ ⟨p, t, ts, r⟩ s).2.llm_slo_events
              reserve_calls := (handle_sched_switch ⟨K⟩ ⟨p, t, ts, r⟩ s).2.reserve_calls })) := by
  refine ⟨?_, ?_, ?_, ?_, ?_, ?_, ?_⟩
  · intro hne
    exact ⟨connect_inflight_begin_isolated s K K2 t ts r sk hne, connect_inflight_end_isolated s K K2 t ts r ret hne⟩
  · intro hne
    exact ⟨dns_inflight_begin_isolated s K K2 t ts r sk hne, dns_inflight_end_isolated s K K2 t ts r sk hne⟩
  · intro hne
    exact ⟨reclaim_start_begin_isolated s K K2 t ts r hne, reclaim_start_end_isolated c s K K2 t ts r hne⟩
  · intro hne
    exact ⟨syscall_start_begin_isolated s K K2 t ts r hne, syscall_start_end_isolated c s K K2 t ts r hne⟩
  · intro hne
    exact ⟨tls_start_begin_isolated s K K2 t ts r hne, tls_start_end_isolated s K K2 t ts r ret hne⟩
  · intro hne
    have hk : k2 ≠ ⟨ctx.dev, pad, ctx.sector⟩ := by
      intro h
      rw [h] at hne
      rcases hne with hne | hne <;> exact hne rfl
    exact ⟨blk_start_begin_isolated s p t ts r ctx pad k2 hk, blk_start_end_isolated c s p t ts r ctx pad k2 hk⟩
  · intro hne
    exact ⟨runq_enqueue_begin_isolated s K K2 p t ts r hne, runq_enqueue_end_isolated s K K2 p t ts r hne⟩

theorem key_isolation_witness :
    ((⟨8, 0, 2048⟩ : blk_key).dev ≠ (⟨8, 1024⟩ : trace_event_raw_block_rq_completion).dev
      ∨ (⟨8, 0, 2048⟩ : blk_key).sector
          ≠ (⟨8, 1024⟩ : trace_event_raw_block_rq_completion).sector) ∧
    bpf_map_lookup_elem
        (handle_block_rq_complete ⟨7, 8, 9⟩ ⟨8, 1024⟩ 0 ⟨1, 600000, 600001, true⟩
          (handle_block_rq_issue ⟨8, 2048⟩ 0 ⟨1, 100, 0, true⟩
            (handle_block_rq_issue ⟨8, 1024⟩ 0 ⟨1, 0, 0, true⟩ State.empty).2).2).2.blk_start
        (⟨8, 0, 2048⟩ : blk_key)
      = bpf_map_lookup_elem
          (handle_block_rq_issue ⟨8, 2048⟩ 0 ⟨1, 100, 0, true⟩
            (handle_block_rq_issue ⟨8, 1024⟩ 0 ⟨1, 0, 0, true⟩ State.empty).2).2.blk_start
          (⟨8, 0, 2048⟩ : blk_key) ∧
    handle_block_rq_complete ⟨7, 8, 9⟩ ⟨8, 1024⟩ 0 ⟨1, 600000, 600001, true⟩
        (handle_block_rq_issue ⟨8, 2048⟩ 0 ⟨1, 100, 0, true⟩
          (handle_block_rq_issue ⟨8, 1024⟩ 0 ⟨1, 0, 0, true⟩ State.empty).2).2
      = (0, { State.empty with
              blk_start := [(⟨8, 0, 2048⟩, 100)]
              llm_slo_events := [⟨0, 1, 600001, 7, 600000, 0, 0, 0, 0⟩]
              reserve_calls := 1 }) :=
  ⟨by decide,
   ((key_isolation ⟨7, 8, 9⟩
      (handle_block_rq_issue ⟨8, 2048⟩ 0 ⟨1, 100, 0, true⟩
        (handle_block_rq_issue ⟨8, 1024⟩ 0 ⟨1, 0, 0, true⟩ State.empty).2).2
      0 1 600000 600001 1 true ⟨0, 0, 0⟩ 0 ⟨8, 1024⟩ 0 ⟨8, 0, 2048⟩).2.2.2.2.2.1
      (by decide)).2.1,
   by decide⟩

/-! ## Run-queue delay at the threshold -/

/-- With an entry found and a successful reservation, the context-switch
handler publishes exactly when the elapsed time is at least 100000 ns. -/
theorem sched_switch_publishes_iff (s : State) (pid p now ts start : Nat)
    (h : bpf_map_lookup_elem s.runq_enqueue pid = some start) :
    (∃ e, (handle_sched_switch ⟨pid⟩ ⟨p, now, ts, true⟩ s).2.llm_slo_events
        = s.llm_slo_events ++ [e]) ↔ 100000 ≤ u64_sub now start := by
  by_cases hlow : u64_sub now start < 100000
  · simp [handle_sched_switch, h, hlow]
  · simp [handle_sched_switch, h, hlow, bpf_ringbuf_reserve, bpf_ringbuf_submit,
      not_lt.mp hlow]

/-- C21: the code at the boundary.  A wakeup of task 42 at clock reading 0
followed by the context switch to task 42 at 100000 ns publishes one run-queue
record with `value_ns = 100000`, where the claim and the comment in the source
(`>100us`) say that nothing is published; at 99999 ns nothing is published. -/
theorem runqueue_publishes_at_exactly_100us :
    handle_sched_switch ⟨42⟩ ⟨1, 100000, 0, true⟩ (record_wakeup 42 ⟨1, 0, 0, true⟩ State.empty).2
      = (0, { State.empty with
              llm_slo_events := [⟨42, 1, 100000, 3, 100000, 0, 0, 0, 0⟩]
              reserve_calls := 1 }) ∧
    handle_sched_switch ⟨42⟩ ⟨1, 99999, 0, true⟩ (record_wakeup 42 ⟨1, 0, 0, true⟩ State.empty).2
      = (0, State.empty) := by
  decide

/-! ## The DNS store holds port 53 only -/

theorem mem_of_lookup {K V : Type} [DecidableEq K] (m : List (K × V)) (k : K) (v : V)
    (h : bpf_map_lookup_elem m k = some v) : (k, v) ∈ m := by
  induction m with
  | nil => exact absurd h (by simp [bpf_map_lookup_elem])
  | cons e rest ih =>
    obtain ⟨k0, v0⟩ := e
    rw [lookup_cons] at h
    by_cases h0 : k0 = k
    · rw [if_pos h0] at h
      have hv : v0 = v := Option.some.inj h
      rw [h0, hv]
      exact List.mem_cons_self _ _
    · rw [if_neg h0] at h
      exact List.mem_cons_of_mem _ (ih h)

theorem mem_update {K V : Type} [DecidableEq K] (n : Nat) (m : List (K × V)) (k : K) (v : V)
    (e : K × V) (he : e ∈ bpf_map_update_elem n m k v) : e = (k, v) ∨ e ∈ m := by
  unfold bpf_map_update_elem at he
  split at he
  · obtain ⟨e0, he0, heq⟩ := List.mem_map.mp he
    by_cases h0 : e0.1 = k
    · rw [if_pos h0] at heq; exact Or.inl heq.symm
    · rw [if_neg h0] at heq; rw [← heq]; exact Or.inr he0
  · split at he
    · rcases List.mem_cons.mp he with h1 | h1
      · exact Or.inl h1
      · exact Or.inr h1
    · exact Or.inr he

theorem mem_delete {K V : Type} [DecidableEq K] (m : List (K × V)) (k : K) (e : K × V)
    (he : e ∈ bpf_map_delete_elem m k) : e ∈ m :=
  (List.mem_filter.mp he).1

/-- The programs of the other signals leave the DNS store as it is. -/
theorem step_dns_inflight_other (c : SignalCodes) (s : State) (call : Call)
    (h : call.signal ≠ .dns_latency) : (step c s call).dns_inflight = s.dns_inflight := by
  cases call <;> simp only [Call.signal, ne_eq, not_true_eq_false] at h <;>
    simp only [step, dispatch, kprobe_tcp_v4_connect, kretprobe_tcp_v4_connect,
      kprobe_tcp_v6_connect, kretprobe_tcp_v6_connect, enter_connect, exit_connect,
      handle_block_rq_issue,
      handle_block_rq_complete, handle_sched_stat_wait, uprobe_ssl_do_handshake,
      uretprobe_ssl_do_handshake, handle_tcp_retransmit, handle_sched_wakeup,
      handle_sched_wakeup_new, record_wakeup, handle_sched_switch, kprobe_ksys_read,
      kretprobe_ksys_read, kprobe_ksys_write, kretprobe_ksys_write, handle_entry,
      handle_return, handle_reclaim_begin, handle_reclaim_end, bpf_ringbuf_reserve,
      bpf_ringbuf_submit, MIN_WAIT_NS]
  all_goals repeat' split
  all_goals rfl

theorem udp_sendmsg_ports (sk : sock) (env : KernelEnv) (s : State) (h : DnsPorts53 s) :
    DnsPorts53 (kprobe_udp_sendmsg sk env s).2 := by
  by_cases hp : bswap16 sk.skc_dport = 53
  · rw [udp_sendmsg_port_53 sk env s hp]
    intro en hen
    rcases mem_update _ _ _ _ en hen with h1 | h1
    · rw [h1]
    · exact h en h1
  · rw [udp_sendmsg_other_port sk env s hp]; exact h

theorem udp_recvmsg_ports (sk : sock) (env : KernelEnv) (s : State) (h : DnsPorts53 s) :
    DnsPorts53 (kprobe_udp_recvmsg sk env s).2 := by
  cases hl : bpf_map_lookup_elem s.dns_inflight env.pid_tgid with
  | none => rw [udp_recvmsg_of_absent sk env s hl]; exact h
  | some v =>
    cases hr : env.reserve_ok <;>
    simp only [kprobe_udp_recvmsg, hl, hr, bpf_ringbuf_reserve, bpf_ringbuf_submit] <;>
    exact fun en hen => h en (mem_delete _ _ en hen)

/-- A record that the DNS end handler publishes carries the port of the entry
it consumed, which is 53 when every entry of the store has port 53. -/
theorem udp_recvmsg_record_port (sk : sock) (env : KernelEnv) (s : State) (h : DnsPorts53 s)
    (e : llm_slo_event)
    (he : (kprobe_udp_recvmsg sk env s).2.llm_slo_events = s.llm_slo_events ++ [e]) :
    e.signal_type = LLM_SLO_DNS_LATENCY ∧ e.conn_dst_port = 53 := by
  cases hl : bpf_map_lookup_elem s.dns_inflight env.pid_tgid with
  | none => simp [kprobe_udp_recvmsg, hl] at he
  | some v =>
    have hv : v.dst_port = 53 := h (env.pid_tgid, v) (mem_of_lookup _ _ _ hl)
    cases hr : env.reserve_ok <;>
    simp [kprobe_udp_recvmsg, hl, hr, bpf_ringbuf_reserve, bpf_ringbuf_submit] at he
    rw [← he]
    exact ⟨rfl, hv⟩

/-- One invocation of any program keeps port 53 in every entry of the DNS
store. -/
theorem step_dns_ports (c : SignalCodes) (s : State) (call : Call) (h : DnsPorts53 s) :
    DnsPorts53 (step c s call) := by
  cases call with
  | udp_sendmsg sk env => exact udp_sendmsg_ports sk env s h
  | udp_recvmsg sk env => exact udp_recvmsg_ports sk env s h
  | _ =>
    unfold DnsPorts53
    rw [step_dns_inflight_other c s _ (by simp [Call.signal])]
    exact h

theorem run_dns_ports (c : SignalCodes) (calls : List Call) :
    ∀ s : State, DnsPorts53 s → DnsPorts53 (run c s calls) := by
  induction calls with
  | nil => intro s h; exact h
  | cons call rest ih =>
    intro s h
    exact ih (step c s call) (step_dns_ports c s call h)

theorem udp_sendmsg_events (sk : sock) (env : KernelEnv) (s : State) :
    (kprobe_udp_sendmsg sk env s).2.llm_slo_events = s.llm_slo_events := by
  by_cases hp : bswap16 sk.skc_dport = 53
  · rw [udp_sendmsg_port_53 sk env s hp]
  · rw [udp_sendmsg_other_port sk env s hp]

/-- A record that one invocation appends is a DNS record with port 53 when the
program is one of the DNS probes, and is no DNS record when the program is not
and the nine discriminators are pairwise different. -/
theorem step_dns_record (c : SignalCodes) (s : State) (call : Call) (h : DnsPorts53 s)
    (e : llm_slo_event)
    (he : (step c s call).llm_slo_events = s.llm_slo_events ++ [e]) :
    (call.signal = .dns_latency → e.signal_type = LLM_SLO_DNS_LATENCY ∧ e.conn_dst_port = 53) ∧
    (c.Distinct → e.signal_type = LLM_SLO_DNS_LATENCY → e.conn_dst_port = 53) := by
  have hdns : call.signal = .dns_latency →
      e.signal_type = LLM_SLO_DNS_LATENCY ∧ e.conn_dst_port = 53 := by
    intro hs
    cases call with
    | udp_sendmsg sk env =>
      have h1 : (step c s (Call.udp_sendmsg sk env)).llm_slo_events = s.llm_slo_events :=
        udp_sendmsg_events sk env s
      rw [h1] at he
      have := congrArg List.length he
      simp at this
    | udp_recvmsg sk env => exact udp_recvmsg_record_port sk env s h e he
    | _ => simp [Call.signal] at hs
  refine ⟨hdns, ?_⟩
  intro hd ht
  rcases step_events_record c s call with h1 | ⟨e1, h1, h2⟩
  · rw [h1] at he
    have := congrArg List.length he
    simp at this
  · rw [h1] at he
    have hee : e1 = e := appended_record_unique he
    rw [hee] at h2
    have hsig : call.signal = .dns_latency :=
      code_injective c hd call.signal .dns_latency (by rw [← h2.1, ht]; rfl)
    exact (hdns hsig).2

theorem run_dns_records (c : SignalCodes) (P : llm_slo_event → Prop) (calls : List Call)
    (hstep : ∀ (s : State) (call : Call) (e : llm_slo_event), call ∈ calls → DnsPorts53 s →
      (step c s call).llm_slo_events = s.llm_slo_events ++ [e] → P e) :
    ∀ s : State, DnsPorts53 s → (∀ e ∈ s.llm_slo_events, P e) →
      ∀ e ∈ (run c s calls).llm_slo_events, P e := by
  induction calls with
  | nil => intro s _ h; exact h
  | cons call rest ih =>
    intro s hp h
    show ∀ e ∈ (run c (step c s call) rest).llm_slo_events, P e
    apply ih (fun s2 call2 e2 hm => hstep s2 call2 e2 (List.mem_cons_of_mem _ hm))
      (step c s call) (step_dns_ports c s call hp)
    rcases step_events_record c s call with h1 | ⟨e1, h1, _⟩
    · rw [h1]; exact h
    · rw [h1]
      intro e he
      rcases List.mem_append.mp he with he | he
      · exact h e he
      · rw [List.mem_singleton.mp he]
        exact hstep s call e1 (List.mem_cons_self _ _) hp h1

/-- C22: after any sequence of invocations from an empty DNS store, every entry
of the DNS in-flight store has `dst_port = 53`; so from an empty channel every
record that a sequence of DNS begin and end invocations publishes is a DNS
record with `conn_dst_port = 53`, and in a sequence of invocations of all
programs, with nine pairwise different discriminators, every record with the
DNS discriminator has `conn_dst_port = 53`. -/
theorem dns_store_holds_port_53 (c : SignalCodes) (s : State) (calls : List Call)
    (h0 : s.dns_inflight = []) :
    (∀ en ∈ (run c s calls).dns_inflight, en.2.dst_port = 53) ∧
    (s.llm_slo_events = [] → (∀ call ∈ calls, call.signal = .dns_latency) →
      ∀ e ∈ (run c s calls).llm_slo_events,
        e.signal_type = LLM_SLO_DNS_LATENCY ∧ e.conn_dst_port = 53) ∧
    (s.llm_slo_events = [] → c.Distinct →
      ∀ e ∈ (run c s calls).llm_slo_events,
        e.signal_type = LLM_SLO_DNS_LATENCY → e.conn_dst_port = 53) := by
  have hp : DnsPorts53 s := by
    unfold DnsPorts53
    rw [h0]
    intro en hen
    exact absurd hen (List.not_mem_nil en)
  refine ⟨run_dns_ports c calls s hp, ?_, ?_⟩
  · intro he0 hcalls
    exact run_dns_records c
      (fun e => e.signal_type = LLM_SLO_DNS_LATENCY ∧ e.conn_dst_port = 53) calls
      (fun s2 call e hm hp2 happ => (step_dns_record c s2 call hp2 e happ).1 (hcalls call hm))
      s hp (by rw [he0]; intro e he; exact absurd he (List.not_mem_nil e))
  · intro he0 hd
    exact run_dns_records c
      (fun e => e.signal_type = LLM_SLO_DNS_LATENCY → e.conn_dst_port = 53) calls
      (fun s2 call e _ hp2 happ => (step_dns_record c s2 call hp2 e happ).2 hd)
      s hp (by rw [he0]; intro e he; exact absurd he (List.not_mem_nil e))

theorem dns_store_holds_port_53_witness :
    State.empty.dns_inflight = [] ∧ State.empty.llm_slo_events = [] ∧
    (∀ call ∈ [Call.udp_sendmsg ⟨13568, 134744072, 40000⟩ ⟨7, 0, 0, true⟩,
               Call.udp_sendmsg ⟨47873, 16777343, 40001⟩ ⟨8, 5, 0, true⟩,
               Call.udp_recvmsg ⟨0, 0, 0⟩ ⟨7, 10000, 10001, true⟩,
               Call.udp_sendmsg ⟨13568, 134744072, 40002⟩ ⟨9, 20000, 0, true⟩],
        call.signal = .dns_latency) ∧
    (∀ e ∈ (run ⟨7, 8, 9⟩ State.empty
        [Call.udp_sendmsg ⟨13568, 134744072, 40000⟩ ⟨7, 0, 0, true⟩,
         Call.udp_sendmsg ⟨47873, 16777343, 40001⟩ ⟨8, 5, 0, true⟩,
         Call.udp_recvmsg ⟨0, 0, 0⟩ ⟨7, 10000, 10001, true⟩,
         Call.udp_sendmsg ⟨13568, 134744072, 40002⟩ ⟨9, 20000, 0, true⟩]).llm_slo_events,
      e.signal_type = LLM_SLO_DNS_LATENCY ∧ e.conn_dst_port = 53) ∧
    run ⟨7, 8, 9⟩ State.empty
        [Call.udp_sendmsg ⟨13568, 134744072, 40000⟩ ⟨7, 0, 0, true⟩,
         Call.udp_sendmsg ⟨47873, 16777343, 40001⟩ ⟨8, 5, 0, true⟩,
         Call.udp_recvmsg ⟨0, 0, 0⟩ ⟨7, 10000, 10001, true⟩,
         Call.udp_sendmsg ⟨13568, 134744072, 40002⟩ ⟨9, 20000, 0, true⟩]
      = { State.empty with
          dns_inflight := [(9, ⟨20000, 53, 134744072, 40002⟩)]
          llm_slo_events := [⟨0, 7, 10001, 1, 10000, 40000, 53, 134744072, 0⟩]
          reserve_calls := 1 } :=
  ⟨rfl, rfl, by decide,
   (dns_store_holds_port_53 ⟨7, 8, 9⟩ State.empty _ rfl).2.1 rfl (by decide),
   by decide⟩

/-! ## Elapsed time is a 64-bit difference -/

theorem u64_sub_eq_emod (now start : Nat) :
    ((u64_sub now start : Nat) : Int)
      = ((now : Int) - (start : Int)) % 18446744073709551616 := by
  unfold u64_sub U64_MOD
  omega

theorem u64_sub_of_lt (now start : Nat) (hs : start < U64_MOD) (hlt : now < start) :
    u64_sub now start = 18446744073709551616 - (start - now) := by
  unfold u64_sub
  unfold U64_MOD at hs ⊢
  omega

/-- C23: every end handler computes `value_ns` as `(now - start) mod 2^64` on
unsigned 64-bit values, which is the true difference when `now ≥ start`; when
the end clock reading is below the stored start the result is
`2^64 - (start - now)`, at least `2^63` whenever `start - now ≤ 2^63`, so it
passes every threshold and, with a successful reservation, every end handler
publishes it as the elapsed time. -/
theorem elapsed_time_is_modular (c : SignalCodes) (s : State) (K now ts start p : Nat)
    (r : Bool) (ret : Int) (sk : sock) (cc : connect_ctx) (sc : send_ctx)
    (ctx : trace_event_raw_block_rq_completion) (pad : Nat)
    (hn : now < U64_MOD) (hs : start < U64_MOD) :
    ((u64_sub now start : Nat) : Int)
      = ((now : Int) - (start : Int)) % 18446744073709551616 ∧
    (start ≤ now → u64_sub now start = now - start) ∧
    (now < start → u64_sub now start = 18446744073709551616 - (start - now)) ∧
    (now < start → start - now ≤ 9223372036854775808 →
      9223372036854775808 ≤ u64_sub now start) ∧
    -- connect
    (bpf_map_lookup_elem s.connect_inflight K = some cc → cc.start_ns = start →
      (∀ e, (exit_connect ret ⟨K, now, ts, r⟩ s).2.llm_slo_events = s.llm_slo_events ++ [e] →
        e.value_ns = u64_sub now start) ∧
      (now < start → start - now ≤ 9223372036854775808 →
        ∃ e, (exit_connect ret ⟨K, now, ts, true⟩ s).2.llm_slo_events = s.llm_slo_events ++ [e]
          ∧ e.value_ns = 18446744073709551616 - (start - now)
          ∧ 9223372036854775808 ≤ e.value_ns)) ∧
    -- DNS
    (bpf_map_lookup_elem s.dns_inflight K = some sc → sc.start_ns = start →
      (∀ e, (kprobe_udp_recvmsg sk ⟨K, now, ts, r⟩ s).2.llm_slo_events = s.llm_slo_events ++ [e] →
        e.value_ns = u64_sub now start) ∧
      (now < start → start - now ≤ 9223372036854775808 →
        ∃ e, (kprobe_udp_recvmsg sk ⟨K, now, ts, true⟩ s).2.llm_slo_events = s.llm_slo_events ++ [e]
          ∧ e.value_ns = 18446744073709551616 - (start - now)
          ∧ 9223372036854775808 ≤ e.value_ns)) ∧
    -- TLS
    (bpf_map_lookup_elem s.tls_start K = some start →
      (∀ e, (uretprobe_ssl_do_handshake ret ⟨K, now, ts, r⟩ s).2.llm_slo_events = s.llm_slo_events ++ [e] →
        e.value_ns = u64_sub now start) ∧
      (now < start → start - now ≤ 9223372036854775808 →
        ∃ e, (uretprobe_ssl_do_handshake ret ⟨K, now, ts, true⟩ s).2.llm_slo_events = s.llm_slo_events ++ [e]
          ∧ e.value_ns = 18446744073709551616 - (start - now)
          ∧ 9223372036854775808 ≤ e.value_ns)) ∧
    -- memory reclaim
    (bpf_map_lookup_elem s.reclaim_start K = some start →
      (∀ e, (handle_reclaim_end c ⟨K, now, ts, r⟩ s).2.llm_slo_events = s.llm_slo_events ++ [e] →
        e.value_ns = u64_sub now start) ∧
      (now < start → start - now ≤ 9223372036854775808 →
        ∃ e, (handle_reclaim_end c ⟨K, now, ts, true⟩ s).2.llm_slo_events = s.llm_slo_events ++ [e]
          ∧ e.value_ns = 18446744073709551616 - (start - now)
          ∧ 9223372036854775808 ≤ e.value_ns)) ∧
    -- syscall
    (bpf_map_lookup_elem s.syscall_start K = some start →
      (∀ e, (handle_return c ⟨K, now, ts, r⟩ s).2.llm_slo_events = s.llm_slo_events ++ [e] →
        e.value_ns = u64_sub now start) ∧
      (now < start → start - now ≤ 9223372036854775808 →
        ∃ e, (handle_return c ⟨K, now, ts, true⟩ s).2.llm_slo_events = s.llm_slo_events ++ [e]
          ∧ e.value_ns = 18446744073709551616 - (start - now)
          ∧ 9223372036854775808 ≤ e.value_ns)) ∧
    -- disk I/O
    (bpf_map_lookup_elem s.blk_start (⟨ctx.dev, pad, ctx.sector⟩ : blk_key) = some start →
      (∀ e, (handle_block_rq_complete c ctx pad ⟨p, now, ts, r⟩ s).2.llm_slo_events = s.llm_slo_events ++ [e] →
        e.value_ns = u64_sub now start) ∧
      (now < start → start - now ≤ 9223372036854775808 →
        ∃ e, (handle_block_rq_complete c ctx pad ⟨p, now, ts, true⟩ s).2.llm_slo_events = s.llm_slo_events ++ [e]
          ∧ e.value_ns = 18446744073709551616 - (start - now)
          ∧ 9223372036854775808 ≤ e.value_ns)) ∧
    -- run-queue
    (bpf_map_lookup_elem s.runq_enqueue K = some start →
      (∀ e, (handle_sched_switch ⟨K⟩ ⟨p, now, ts, r⟩ s).2.llm_slo_events = s.llm_slo_events ++ [e] →
        e.value_ns = u64_sub now start) ∧
      (now < start → start - now ≤ 9223372036854775808 →
        ∃ e, (handle_sched_switch ⟨K⟩ ⟨p, now, ts, true⟩ s).2.llm_slo_events = s.llm_slo_events ++ [e]
          ∧ e.value_ns = 18446744073709551616 - (start - now)
          ∧ 9223372036854775808 ≤ e.value_ns)) := by
  have hwrap : now < start → u64_sub now start = 18446744073709551616 - (start - now) :=
    u64_sub_of_lt now start hs
  have hhuge : now < start → start - now ≤ 9223372036854775808 →
      9223372036854775808 ≤ u64_sub now start := by
    intro hlt hle
    rw [hwrap hlt]
    omega
  refine ⟨u64_sub_eq_emod now start, fun h => u64_sub_of_le h hn, hwrap, hhuge,
    ?_, ?_, ?_, ?_, ?_, ?_, ?_⟩
  · intro hl hst
    refine ⟨?_, ?_⟩
    · intro e h
      cases r <;>
      simp [exit_connect, hl, hst, bpf_ringbuf_reserve, bpf_ringbuf_submit] at h
      exact h ▸ rfl
    · intro hlt hle
      have hw := hwrap hlt
      have hge := hhuge hlt hle
      simp [exit_connect, hl, hst, bpf_ringbuf_reserve, bpf_ringbuf_submit]
      exact ⟨hw, by omega⟩
  · intro hl hst
    refine ⟨?_, ?_⟩
    · intro e h
      cases r <;>
      simp [kprobe_udp_recvmsg, hl, hst, bpf_ringbuf_reserve, bpf_ringbuf_submit] at h
      exact h ▸ rfl
    · intro hlt hle
      have hw := hwrap hlt
      have hge := hhuge hlt hle
      simp [kprobe_udp_recvmsg, hl, hst, bpf_ringbuf_reserve, bpf_ringbuf_submit]
      exact ⟨hw, by omega⟩
  · intro hl
    refine ⟨?_, ?_⟩
    · intro e h
      cases r <;>
      simp [uretprobe_ssl_do_handshake, hl, bpf_ringbuf_reserve, bpf_ringbuf_submit] at h
      exact h ▸ rfl
    · intro hlt hle
      have hw := hwrap hlt
      have hge := hhuge hlt hle
      simp [uretprobe_ssl_do_handshake, hl, bpf_ringbuf_reserve, bpf_ringbuf_submit]
      exact ⟨hw, by omega⟩
  · intro hl
    refine ⟨?_, ?_⟩
    · intro e h
      by_cases hlow : u64_sub now start < 10000 <;>
      cases r <;>
      simp [handle_reclaim_end, hl, hlow, bpf_ringbuf_reserve, bpf_ringbuf_submit] at h
      exact h ▸ rfl
    · intro hlt hle
      have hw := hwrap hlt
      have hge := hhuge hlt hle
      have hbig : ¬ u64_sub now start < 10000 := by omega
      simp [handle_reclaim_end, hl, hbig, bpf_ringbuf_reserve, bpf_ringbuf_submit]
      exact ⟨hw, by omega⟩
  · intro hl
    refine ⟨?_, ?_⟩
    · intro e h
      by_cases hlow : u64_sub now start < 1000000 <;>
      cases r <;>
      simp [handle_return, hl, hlow, bpf_ringbuf_reserve, bpf_ringbuf_submit] at h
      exact h ▸ rfl
    · intro hlt hle
      have hw := hwrap hlt
      have hge := hhuge hlt hle
      have hbig : ¬ u64_sub now start < 1000000 := by omega
      simp [handle_return, hl, hbig, bpf_ringbuf_reserve, bpf_ringbuf_submit]
      exact ⟨hw, by omega⟩
  · intro hl
    refine ⟨?_, ?_⟩
    · intro e h
      by_cases hlow : u64_sub now start < 500000 <;>
      cases r <;>
      simp [handle_block_rq_complete, hl, hlow, bpf_ringbuf_reserve, bpf_ringbuf_submit] at h
      exact h ▸ rfl
    · intro hlt hle
      have hw := hwrap hlt
      have hge := hhuge hlt hle
      have hbig : ¬ u64_sub now start < 500000 := by omega
      simp [handle_block_rq_complete, hl, hbig, bpf_ringbuf_reserve, bpf_ringbuf_submit]
      exact ⟨hw, by omega⟩
  · intro hl
    refine ⟨?_, ?_⟩
    · intro e h
      by_cases hlow : u64_sub now start < 100000 <;>
      cases r <;>
      simp [handle_sched_switch, hl, hlow, bpf_ringbuf_reserve, bpf_ringbuf_submit] at h
      exact h ▸ rfl
    · intro hlt hle
      have hw := hwrap hlt
      have hge := hhuge hlt hle
      have hbig : ¬ u64_sub now start < 100000 := by omega
      simp [handle_sched_switch, hl, hbig, bpf_ringbuf_reserve, bpf_ringbuf_submit]
      exact ⟨hw, by omega⟩

theorem elapsed_time_is_modular_witness :
    (100 : Nat) < U64_MOD ∧ (1000 : Nat) < U64_MOD ∧
    bpf_map_lookup_elem (handle_block_rq_issue ⟨8, 1024⟩ 0 ⟨1, 1000, 0, true⟩ State.empty).2.blk_start
        (⟨8, 0, 1024⟩ : blk_key) = some 1000 ∧
    (100 : Nat) < 1000 ∧ (1000 : Nat) - 100 ≤ 9223372036854775808 ∧
    (∃ e, (handle_block_rq_complete ⟨7, 8, 9⟩ ⟨8, 1024⟩ 0 ⟨1, 100, 101, true⟩
            (handle_block_rq_issue ⟨8, 1024⟩ 0 ⟨1, 1000, 0, true⟩ State.empty).2).2.llm_slo_events
          = (handle_block_rq_issue ⟨8, 1024⟩ 0 ⟨1, 1000, 0, true⟩ State.empty).2.llm_slo_events
              ++ [e]
        ∧ e.value_ns = 18446744073709551616 - (1000 - 100)
        ∧ 9223372036854775808 ≤ e.value_ns) ∧
    (handle_block_rq_complete ⟨7, 8, 9⟩ ⟨8, 1024⟩ 0 ⟨1, 100, 101, true⟩
        (handle_block_rq_issue ⟨8, 1024⟩ 0 ⟨1, 1000, 0, true⟩ State.empty).2).2.llm_slo_events
      = [⟨0, 1, 101, 7, 18446744073709550716, 0, 0, 0, 0⟩] :=
  ⟨by decide, by decide, by decide, by decide, by decide,
   ((elapsed_time_is_modular ⟨7, 8, 9⟩
      (handle_block_rq_issue ⟨8, 1024⟩ 0 ⟨1, 1000, 0, true⟩ State.empty).2 0 100 101 1000 1 true 0
      ⟨0, 0, 0⟩ ⟨0, 0, 0, 0⟩ ⟨0, 0, 0, 0⟩ ⟨8, 1024⟩ 0 (by decide) (by decide)).2.2.2.2.2.2.2.2.2.1
      (by decide)).2 (by decide) (by decide),
   by decide⟩

/-! ## Disk I/O: the padding bytes of the key -/

/-- After the first `n ≤ 16384` requests of `blk_issues` the disk store holds
`n` entries, every key has padding 0 and a sector below `n`, and the entry of
sector 0 holds clock reading 0. -/
theorem blk_issues_fill_store (n : Nat) (hn : n ≤ 16384) :
    (run ⟨7, 8, 9⟩ State.empty (blk_issues n)).blk_start.length = n ∧
    (∀ e ∈ (run ⟨7, 8, 9⟩ State.empty (blk_issues n)).blk_start,
      e.1.pad = 0 ∧ e.1.sector < n) ∧
    (0 < n →
      bpf_map_lookup_elem (run ⟨7, 8, 9⟩ State.empty (blk_issues n)).blk_start ⟨8, 0, 0⟩
        = some 0) := by
  induction n with
  | zero => exact ⟨rfl, fun e he => absurd he (List.not_mem_nil e), fun h => absurd h (lt_irrefl 0)⟩
  | succ n ih =>
    obtain ⟨hlen, hkeys, hzero⟩ := ih (Nat.le_of_succ_le hn)
    have hne : ∀ e ∈ (run ⟨7, 8, 9⟩ State.empty (blk_issues n)).blk_start,
        e.1 ≠ (⟨8, 0, n⟩ : blk_key) := fun e he h => by
      have h1 := (hkeys e he).2
      rw [h] at h1
      exact lt_irrefl n h1
    have hnone := lookup_none_of_keys_ne _ _ hne
    have hlt : (run ⟨7, 8, 9⟩ State.empty (blk_issues n)).blk_start.length
        < blk_start_max_entries := by rw [hlen]; exact hn
    have hupd : bpf_map_update_elem blk_start_max_entries
        (run ⟨7, 8, 9⟩ State.empty (blk_issues n)).blk_start (⟨8, 0, n⟩ : blk_key) n
        = (⟨8, 0, n⟩, n) :: (run ⟨7, 8, 9⟩ State.empty (blk_issues n)).blk_start := by
      unfold bpf_map_update_elem
      rw [hnone, if_neg (by simp), if_pos hlt]
    have hrun : (run ⟨7, 8, 9⟩ State.empty (blk_issues (n + 1))).blk_start
        = (⟨8, 0, n⟩, n) :: (run ⟨7, 8, 9⟩ State.empty (blk_issues n)).blk_start := by
      rw [← hupd]
      simp [blk_issues, List.range_succ, run_append, run, step, dispatch, handle_block_rq_issue]
    rw [hrun]
    refine ⟨by rw [List.length_cons, hlen], ?_, ?_⟩
    · intro e he
      rcases List.mem_cons.mp he with he | he
      · rw [he]; exact ⟨rfl, Nat.lt_succ_self n⟩
      · exact ⟨(hkeys e he).1, Nat.lt_succ_of_lt (hkeys e he).2⟩
    · intro _
      rw [lookup_cons]
      rcases Nat.eq_zero_or_pos n with h0 | hpos
      · subst h0; rfl
      · have hk : ¬ (⟨8, 0, n⟩ : blk_key) = ⟨8, 0, 0⟩ := fun h =>
          absurd (congrArg blk_key.sector h) (Nat.ne_of_gt hpos)
        rw [if_neg hk]
        exact hzero hpos

theorem blk_store_full_spec :
    blk_store_full.blk_start.length = 16384 ∧
    (∀ e ∈ blk_store_full.blk_start, e.1.pad = 0 ∧ e.1.sector < 16384) ∧
    bpf_map_lookup_elem blk_store_full.blk_start ⟨8, 0, 0⟩ = some 0 :=
  ⟨(blk_issues_fill_store 16384 (le_refl _)).1, (blk_issues_fill_store 16384 (le_refl _)).2.1,
   (blk_issues_fill_store 16384 (le_refl _)).2.2 (by decide)⟩

/-- A disk issue whose key has no entry in a full store leaves the state as it
is. -/
theorem block_rq_issue_of_full (ctx : trace_event_raw_block_rq_completion) (pad : Nat)
    (env : KernelEnv) (s : State)
    (hfull : ¬ HasRoom blk_start_max_entries s.blk_start ⟨ctx.dev, pad, ctx.sector⟩) :
    handle_block_rq_issue ctx pad env s = (0, s) := by
  simp only [handle_block_rq_issue]
  rw [update_of_full _ _ _ _ hfull]

/-- C1: the code at the failing input.  A request for sector 1024 of device 8
is issued at clock reading 0 from empty stores, with the padding bytes of the
key holding 0, and it completes at clock reading 600000 with the padding bytes
of the key holding 1.  The store has room and the elapsed time is above the
disk threshold, yet the completion finds no entry: it returns 0, publishes no
record and leaves the entry of the issue in the store.  The claim asks for one
record with `value_ns = 600000`. -/
theorem disk_pair_unmatched_when_padding_differs :
    HasRoom blk_start_max_entries State.empty.blk_start (⟨8, 0, 1024⟩ : blk_key) ∧
    500000 ≤ 600000 - 0 ∧
    handle_block_rq_complete ⟨7, 8, 9⟩ ⟨8, 1024⟩ 1 ⟨1, 600000, 600001, true⟩
        (handle_block_rq_issue ⟨8, 1024⟩ 0 ⟨1, 0, 0, true⟩ State.empty).2
      = (0, { State.empty with blk_start := [(⟨8, 0, 1024⟩, 0)] }) ∧
    (handle_block_rq_complete ⟨7, 8, 9⟩ ⟨8, 1024⟩ 1 ⟨1, 600000, 600001, true⟩
        (handle_block_rq_issue ⟨8, 1024⟩ 0 ⟨1, 0, 0, true⟩ State.empty).2).2.llm_slo_events
      = [] := by
  decide

/-- C3: the code at the failing input.  Sector 1024 of device 8 is issued at
clock reading 0 with the padding bytes of the key holding 0, issued again at
clock reading 100 with the padding bytes holding 1, and completes at clock
reading 700000 with the padding bytes holding 0.  The completion finds the
entry of the first issue: the record has `value_ns = 700000`, the time since
the first issue, where the claim asks for 699900, the time since the second.
Without the first issue the same completion publishes nothing, so the record
depends on the first issue. -/
theorem disk_first_begin_observed_when_padding_differs :
    (handle_block_rq_complete ⟨7, 8, 9⟩ ⟨8, 1024⟩ 0 ⟨1, 700000, 700001, true⟩
        (handle_block_rq_issue ⟨8, 1024⟩ 1 ⟨1, 100, 0, true⟩
          (handle_block_rq_issue ⟨8, 1024⟩ 0 ⟨1, 0, 0, true⟩ State.empty).2).2).2.llm_slo_events
      = [⟨0, 1, 700001, 7, 700000, 0, 0, 0, 0⟩] ∧
    (700000 : Nat) ≠ 700000 - 100 ∧
    (handle_block_rq_complete ⟨7, 8, 9⟩ ⟨8, 1024⟩ 0 ⟨1, 700000, 700001, true⟩
        (handle_block_rq_issue ⟨8, 1024⟩ 1 ⟨1, 100, 0, true⟩ State.empty).2).2.llm_slo_events
      = [] := by
  decide

/-- C5: the code at the failing input.  The store holds the entry of sector
1024 of device 8, set at clock reading 0 by an issue whose key had padding
bytes holding 0.  A completion for the same sector and device at clock reading
600000, with the padding bytes of its key holding 1, returns with the state
unchanged: the entry is still in the store, where the claim asks for it to be
gone.  A second completion, at clock reading 700000 with the padding bytes
holding 0, then publishes a record, where the claim asks for none. -/
theorem disk_entry_survives_end_when_padding_differs :
    handle_block_rq_complete ⟨7, 8, 9⟩ ⟨8, 1024⟩ 1 ⟨1, 600000, 600001, true⟩
        (handle_block_rq_issue ⟨8, 1024⟩ 0 ⟨1, 0, 0, true⟩ State.empty).2
      = (0, (handle_block_rq_issue ⟨8, 1024⟩ 0 ⟨1, 0, 0, true⟩ State.empty).2) ∧
    bpf_map_lookup_elem
        (handle_block_rq_complete ⟨7, 8, 9⟩ ⟨8, 1024⟩ 1 ⟨1, 600000, 600001, true⟩
          (handle_block_rq_issue ⟨8, 1024⟩ 0 ⟨1, 0, 0, true⟩ State.empty).2).2.blk_start
        (⟨8, 0, 1024⟩ : blk_key)
      = some 0 ∧
    (handle_block_rq_complete ⟨7, 8, 9⟩ ⟨8, 1024⟩ 0 ⟨1, 700000, 700001, true⟩
        (handle_block_rq_complete ⟨7, 8, 9⟩ ⟨8, 1024⟩ 1 ⟨1, 600000, 600001, true⟩
          (handle_block_rq_issue ⟨8, 1024⟩ 0 ⟨1, 0, 0, true⟩ State.empty).2).2).2.llm_slo_events
      = [⟨0, 1, 700001, 7, 700000, 0, 0, 0, 0⟩] := by
  decide

/-- C18: the code at the failing input.  The disk store is full with the 16384
requests of `blk_store_full`, among them sector 0 of device 8, issued at clock
reading 0 with the padding bytes of the key holding 0.  A further issue for
sector 0 of device 8 at clock reading 700000, with the padding bytes of its key
holding 1, leaves the state as it is: the entry of that request still holds
clock reading 0 and the store has no entry under the key of the new issue,
where the claim asks for the entry to be overwritten. -/
theorem disk_begin_for_held_request_dropped_when_full :
    blk_store_full.blk_start.length = blk_start_max_entries ∧
    bpf_map_lookup_elem blk_store_full.blk_start (⟨8, 0, 0⟩ : blk_key) = some 0 ∧
    handle_block_rq_issue ⟨8, 0⟩ 1 ⟨1, 700000, 0, true⟩ blk_store_full
      = (0, blk_store_full) ∧
    bpf_map_lookup_elem
        (handle_block_rq_issue ⟨8, 0⟩ 1 ⟨1, 700000, 0, true⟩ blk_store_full).2.blk_start
        (⟨8, 0, 0⟩ : blk_key)
      = some 0 ∧
    bpf_map_lookup_elem
        (handle_block_rq_issue ⟨8, 0⟩ 1 ⟨1, 700000, 0, true⟩ blk_store_full).2.blk_start
        (⟨8, 1, 0⟩ : blk_key)
      = none := by
  have hkeys : ∀ e ∈ blk_store_full.blk_start, e.1 ≠ (⟨8, 1, 0⟩ : blk_key) := fun e he h => by
    have h1 := (blk_store_full_spec.2.1 e he).1
    rw [h] at h1
    exact absurd h1 (by decide)
  have hnone := lookup_none_of_keys_ne blk_store_full.blk_start (⟨8, 1, 0⟩ : blk_key) hkeys
  have hfull := not_hasRoom_of_full blk_start_max_entries blk_store_full.blk_start
    (⟨8, 1, 0⟩ : blk_key) blk_store_full_spec.1 hkeys
  have hsame := block_rq_issue_of_full ⟨8, 0⟩ 1 ⟨1, 700000, 0, true⟩ blk_store_full hfull
  refine ⟨blk_store_full_spec.1, blk_store_full_spec.2.2, hsame, ?_, ?_⟩
  · rw [hsame]; exact blk_store_full_spec.2.2
  · rw [hsame]; exact hnone

end LlmSlo
